import Mathlib

/-!
# res_stasis playback support: a shallow embedding of res/res_stasis_playback.c

The playback control object, its registry, the operation dispatch table and the
execution path (play_uri / play_on_channel) are embedded as pure functions over
an explicit world: the playback object, the container of linked playbacks and a
chronological trace of the externally visible effects (published snapshots,
queued control frames, the media call, the write of done, the unlink, log
lines).  Results of the external collaborators (the json library, the message
bus, the control queue, the media engine, the bridge) are explicit parameters.
-/

namespace StasisPlayback

/-! ## Data model -/

/-- Modelled from the spec: enum stasis_app_playback_state is declared in
asterisk/stasis_app_playback.h, which is not among the sources.  The six states
are the ones the source names; STASIS_PLAYBACK_STATE_MAX is the array bound,
never the value of a playback (see the ast_assert of
stasis_app_playback_operation), and is not a constructor. -/
inductive stasis_app_playback_state where
  | STASIS_PLAYBACK_STATE_QUEUED
  | STASIS_PLAYBACK_STATE_PLAYING
  | STASIS_PLAYBACK_STATE_PAUSED
  | STASIS_PLAYBACK_STATE_COMPLETE
  | STASIS_PLAYBACK_STATE_CANCELED
  | STASIS_PLAYBACK_STATE_STOPPED
  deriving DecidableEq, Repr

/-- Modelled from the spec: enum stasis_app_playback_media_operation is declared
in asterisk/stasis_app_playback.h, which is not among the sources.  The six
operations are the columns of the dispatch table. -/
inductive stasis_app_playback_media_operation where
  | STASIS_PLAYBACK_STOP
  | STASIS_PLAYBACK_RESTART
  | STASIS_PLAYBACK_PAUSE
  | STASIS_PLAYBACK_UNPAUSE
  | STASIS_PLAYBACK_REVERSE
  | STASIS_PLAYBACK_FORWARD
  deriving DecidableEq, Repr

/-- Modelled from the spec: the control frame subclasses of asterisk/frame.h
that the handlers pass to stasis_app_control_queue_control. -/
inductive ast_control_frame_type where
  | AST_CONTROL_STREAM_STOP
  | AST_CONTROL_STREAM_SUSPEND
  | AST_CONTROL_STREAM_RESTART
  | AST_CONTROL_STREAM_REVERSE
  | AST_CONTROL_STREAM_FORWARD
  deriving DecidableEq, Repr

/-- Log levels used by the module (asterisk/logger.h). -/
inductive log_level where
  | LOG_NOTICE
  | LOG_WARNING
  | LOG_ERROR
  deriving DecidableEq, Repr

open stasis_app_playback_state stasis_app_playback_media_operation
open ast_control_frame_type log_level

/-- Modelled from the spec: the integer value of an operation, the enumerators
numbered from zero in the order of the table columns. -/
def stasis_app_playback_media_operation.code :
    stasis_app_playback_media_operation → Int
  | STASIS_PLAYBACK_STOP => 0
  | STASIS_PLAYBACK_RESTART => 1
  | STASIS_PLAYBACK_PAUSE => 2
  | STASIS_PLAYBACK_UNPAUSE => 3
  | STASIS_PLAYBACK_REVERSE => 4
  | STASIS_PLAYBACK_FORWARD => 5

/-- Modelled from the spec: the number of operations, the bound of the second
index of the dispatch table. -/
def STASIS_PLAYBACK_MEDIA_OP_MAX : Int := 6

/-- The operation an in-range integer denotes (the column the table indexes). -/
def media_operation_of_code (operation : Int) :
    Option stasis_app_playback_media_operation :=
  if operation = 0 then some STASIS_PLAYBACK_STOP
  else if operation = 1 then some STASIS_PLAYBACK_RESTART
  else if operation = 2 then some STASIS_PLAYBACK_PAUSE
  else if operation = 3 then some STASIS_PLAYBACK_UNPAUSE
  else if operation = 4 then some STASIS_PLAYBACK_REVERSE
  else if operation = 5 then some STASIS_PLAYBACK_FORWARD
  else none

/-- Modelled from the spec: enum stasis_playback_oper_results, in the order the
spec lists the results of a control command. -/
def STASIS_PLAYBACK_OPER_OK : Int := 0

/-- Modelled from the spec: see STASIS_PLAYBACK_OPER_OK. -/
def STASIS_PLAYBACK_OPER_FAILED : Int := 1

/-- Modelled from the spec: see STASIS_PLAYBACK_OPER_OK. -/
def STASIS_PLAYBACK_OPER_NOT_PLAYING : Int := 2

/-- Default number of milliseconds of media to skip. -/
def PLAYBACK_DEFAULT_SKIPMS : Int := 3000

/-- The scheme of a sound media uri. -/
def SOUND_URI_SCHEME : String := "sound:"

/-- The scheme of a recording media uri. -/
def RECORDING_URI_SCHEME : String := "recording:"

/-- Playback control object for res_stasis (struct stasis_app_playback).  The
control handle and the condition variable are not data of the embedding: the
calls made through the handle appear in the trace. -/
structure stasis_app_playback where
  id : String
  media : String
  language : String
  target : String
  offsetms : Int
  skipms : Int
  done : Int
  playedms : Int
  state : stasis_app_playback_state
  deriving DecidableEq, Repr

/-- A json object of string fields, as ast_json_pack builds it. -/
abbrev ast_json := List (String × String)

/-- Externally visible effects, in the order the code performs them. -/
inductive Event where
  | publish (json : ast_json)
  | queue_control (frame : ast_control_frame_type)
  | streamfile (file : String) (skipms : Int) (language : String) (offsetms : Int)
  | answer
  | set_done
  | unlink (id : String)
  | link (id : String)
  | send_command_async (playback_id : String)
  | queue_playfile (playback_id : String)
  | log (level : log_level) (msg : String)
  deriving DecidableEq, Repr

/-- The world one playback lives in: the object, the container of linked
playbacks (an object reference is its immutable id, the only thing
playback_hash and playback_cmp look at) and the trace of effects so far. -/
structure World where
  playback : stasis_app_playback
  playbacks : List String
  trace : List Event
  deriving DecidableEq, Repr

/-- Append one effect to the trace. -/
def World.emit (w : World) (ev : Event) : World :=
  { w with trace := w.trace ++ [ev] }

/-- Write the state field of the playback. -/
def World.set_state (w : World) (s : stasis_app_playback_state) : World :=
  { w with playback := { w.playback with state := s } }

/-- Outcome of the two fallible steps of playback_publish: ast_json_pack and
ast_channel_blob_create_from_cache. -/
structure PublishEnv where
  json_pack_ok : Bool
  blob_create_ok : Bool
  deriving DecidableEq, Repr

/-- What one call of stasis_app_playback_operation gets from its collaborators:
the outcome of a publish and the value stasis_app_control_queue_control
returns. -/
structure OperEnv where
  pub : PublishEnv
  queue_control_res : Int
  deriving DecidableEq, Repr

/-! ## Snapshots -/

/-- The external label of a state (state_to_string).  The "?" of the source is
returned for STASIS_PLAYBACK_STATE_MAX only, which is not a state here. -/
def state_to_string : stasis_app_playback_state → String
  | STASIS_PLAYBACK_STATE_QUEUED => "queued"
  | STASIS_PLAYBACK_STATE_PLAYING => "playing"
  | STASIS_PLAYBACK_STATE_PAUSED => "paused"
  | STASIS_PLAYBACK_STATE_STOPPED => "done"
  | STASIS_PLAYBACK_STATE_COMPLETE => "done"
  | STASIS_PLAYBACK_STATE_CANCELED => "done"

/-- The snapshot of a playback (stasis_app_playback_to_json); none when
ast_json_pack fails. -/
def stasis_app_playback_to_json (json_pack_ok : Bool)
    (playback : Option stasis_app_playback) : Option ast_json :=
  match playback with
  | none => none
  | some p =>
    if json_pack_ok then
      some [("id", p.id), ("media_uri", p.media), ("target_uri", p.target),
        ("language", p.language), ("state", state_to_string p.state)]
    else none

/-- Publish the snapshot of the playback (playback_publish): nothing is
published when the json or the message cannot be built. -/
def playback_publish (e : PublishEnv) (w : World) : World :=
  match stasis_app_playback_to_json e.json_pack_ok (some w.playback) with
  | none => w
  | some json => if e.blob_create_ok then w.emit (Event.publish json) else w

/-- Enqueue a control frame on the channel (stasis_app_control_queue_control):
the call is recorded and its return value is the one given. -/
def stasis_app_control_queue_control (res : Int) (w : World)
    (frame : ast_control_frame_type) : Int × World :=
  (res, w.emit (Event.queue_control frame))

/-! ## Operation handlers and the dispatch table -/

/-- Type of the handlers of the dispatch table. -/
abbrev playback_opreation_cb := OperEnv → World → Int × World

/-- Handler: nothing to do. -/
def playback_noop : playback_opreation_cb := fun _ w => (0, w)

/-- Handler: cancel a queued playback. -/
def playback_cancel : playback_opreation_cb := fun _ w =>
  (0, w.set_state STASIS_PLAYBACK_STATE_CANCELED)

/-- Handler: stop a playback in progress. -/
def playback_stop : playback_opreation_cb := fun e w =>
  stasis_app_control_queue_control e.queue_control_res
    (w.set_state STASIS_PLAYBACK_STATE_STOPPED) AST_CONTROL_STREAM_STOP

/-- Handler: restart the media. -/
def playback_restart : playback_opreation_cb := fun e w =>
  stasis_app_control_queue_control e.queue_control_res w AST_CONTROL_STREAM_RESTART

/-- Handler: pause. -/
def playback_pause : playback_opreation_cb := fun e w =>
  stasis_app_control_queue_control e.queue_control_res
    (playback_publish e.pub (w.set_state STASIS_PLAYBACK_STATE_PAUSED))
    AST_CONTROL_STREAM_SUSPEND

/-- Handler: unpause. -/
def playback_unpause : playback_opreation_cb := fun e w =>
  stasis_app_control_queue_control e.queue_control_res
    (playback_publish e.pub (w.set_state STASIS_PLAYBACK_STATE_PLAYING))
    AST_CONTROL_STREAM_SUSPEND

/-- Handler: seek backwards. -/
def playback_reverse : playback_opreation_cb := fun e w =>
  stasis_app_control_queue_control e.queue_control_res w AST_CONTROL_STREAM_REVERSE

/-- Handler: seek forwards. -/
def playback_forward : playback_opreation_cb := fun e w =>
  stasis_app_control_queue_control e.queue_control_res w AST_CONTROL_STREAM_FORWARD

/-- The sparse array of handlers per state and operation; an unset entry is
none. -/
def operations : stasis_app_playback_state →
    stasis_app_playback_media_operation → Option playback_opreation_cb
  | STASIS_PLAYBACK_STATE_QUEUED, STASIS_PLAYBACK_STOP => some playback_cancel
  | STASIS_PLAYBACK_STATE_QUEUED, STASIS_PLAYBACK_RESTART => some playback_noop
  | STASIS_PLAYBACK_STATE_PLAYING, STASIS_PLAYBACK_STOP => some playback_stop
  | STASIS_PLAYBACK_STATE_PLAYING, STASIS_PLAYBACK_RESTART => some playback_restart
  | STASIS_PLAYBACK_STATE_PLAYING, STASIS_PLAYBACK_PAUSE => some playback_pause
  | STASIS_PLAYBACK_STATE_PLAYING, STASIS_PLAYBACK_UNPAUSE => some playback_noop
  | STASIS_PLAYBACK_STATE_PLAYING, STASIS_PLAYBACK_REVERSE => some playback_reverse
  | STASIS_PLAYBACK_STATE_PLAYING, STASIS_PLAYBACK_FORWARD => some playback_forward
  | STASIS_PLAYBACK_STATE_PAUSED, STASIS_PLAYBACK_STOP => some playback_stop
  | STASIS_PLAYBACK_STATE_PAUSED, STASIS_PLAYBACK_PAUSE => some playback_noop
  | STASIS_PLAYBACK_STATE_PAUSED, STASIS_PLAYBACK_UNPAUSE => some playback_unpause
  | STASIS_PLAYBACK_STATE_COMPLETE, STASIS_PLAYBACK_STOP => some playback_noop
  | STASIS_PLAYBACK_STATE_CANCELED, STASIS_PLAYBACK_STOP => some playback_noop
  | STASIS_PLAYBACK_STATE_STOPPED, STASIS_PLAYBACK_STOP => some playback_noop
  | _, _ => none

/-- Apply a control operation, given as its integer value, to the playback
(stasis_app_playback_operation).  The result is the returned integer and the
world after the call. -/
def stasis_app_playback_operation (e : OperEnv) (w : World) (operation : Int) :
    Int × World :=
  if operation < 0 ∨ operation ≥ STASIS_PLAYBACK_MEDIA_OP_MAX then
    (-1, w.emit (Event.log LOG_ERROR
      ("Invalid playback operation " ++ toString operation ++ "\n")))
  else
    match (media_operation_of_code operation).bind (operations w.playback.state) with
    | none =>
      if w.playback.state ≠ STASIS_PLAYBACK_STATE_PLAYING then
        (STASIS_PLAYBACK_OPER_NOT_PLAYING, w)
      else
        (STASIS_PLAYBACK_OPER_FAILED, w.emit (Event.log LOG_ERROR
          ("Unhandled operation during playback: " ++ toString operation ++ "\n")))
    | some cb =>
      ((if (cb e w).1 ≠ 0 then STASIS_PLAYBACK_OPER_FAILED
        else STASIS_PLAYBACK_OPER_OK), (cb e w).2)

/-! ## Execution -/

/-- What one execution of a playback gets from its collaborators. -/
structure ExecEnv where
  /-- Value of ast_channel_uniqueid(chan). -/
  uniqueid : String
  /-- Whether ast_channel_state(chan) is AST_STATE_UP. -/
  chan_up : Bool
  /-- Outcome of the publish of playback_first_update. -/
  first_pub : PublishEnv
  /-- File of the stored recording of a name, none when
  stasis_app_stored_recording_find_by_name finds nothing. -/
  recording_file : String → Option String
  /-- Whether ast_strdup returns a string. -/
  strdup_ok : Bool
  /-- Control operations other threads apply while the media call blocks, each
  with what it gets from its collaborators. -/
  during_media : List (OperEnv × Int)
  /-- Value ast_control_streamfile_lang returns. -/
  stream_res : Int
  /-- Position ast_control_streamfile_lang leaves in offsetms. -/
  stream_offsetms : Int
  /-- Outcome of the publish of playback_final_update. -/
  final_pub : PublishEnv

/-- Modelled from the spec: ast_begins_with of asterisk/strings.h, true when
the string starts with the given leading part. -/
def ast_begins_with (str : String) (lead : String) : Bool :=
  lead.data.isPrefixOf str.data

/-- The string after the first n characters (pointer arithmetic str + n). -/
def str_after (str : String) (n : Nat) : String :=
  String.mk (str.data.drop n)

/-- Copy of a string, none when the allocation fails (ast_strdup). -/
def ast_strdup (ok : Bool) (s : String) : Option String :=
  if ok then some s else none

/-- Apply a sequence of control operations, one after the other. -/
def run_operations (ops : List (OperEnv × Int)) (w : World) : World :=
  ops.foldl (fun v c => (stasis_app_playback_operation c.1 v c.2).2) w

/-- First update of an execution (playback_first_update): a canceled playback
is reported with -1, any other is set PLAYING; the snapshot is published in
both cases. -/
def playback_first_update (e : PublishEnv) (w : World) (uniqueid : String) :
    Int × World :=
  if w.playback.state = STASIS_PLAYBACK_STATE_CANCELED then
    (-1, playback_publish e (w.emit (Event.log LOG_NOTICE
      (uniqueid ++ ": Playback canceled for " ++ w.playback.media ++ "\n"))))
  else
    (0, playback_publish e (w.set_state STASIS_PLAYBACK_STATE_PLAYING))

/-- Final update of an execution (playback_final_update). -/
def playback_final_update (e : PublishEnv) (w : World) (playedms : Int)
    (res : Int) (uniqueid : String) : World :=
  let w1 : World := { w with playback := { w.playback with playedms := playedms } }
  let w2 : World :=
    if res = 0 then
      w1.set_state STASIS_PLAYBACK_STATE_COMPLETE
    else if w1.playback.state = STASIS_PLAYBACK_STATE_STOPPED then
      w1.emit (Event.log LOG_NOTICE
        (uniqueid ++ ": Playback stopped for " ++ w1.playback.media ++ "\n"))
    else
      (w1.emit (Event.log LOG_WARNING
        (uniqueid ++ ": Playback failed for " ++ w1.playback.media ++ "\n"))).set_state
        STASIS_PLAYBACK_STATE_STOPPED
  playback_publish e w2

/-- Mark a playback as done when leaving scope (mark_as_done): done is set and
the waiters are woken. -/
def mark_as_done (w : World) : World :=
  ({ w with playback := { w.playback with done := 1 } } : World).emit Event.set_done

/-- The tail of play_on_channel once the file is known: nothing without a
file, else the media call, during which other threads may apply control
operations, then the final update. -/
def play_file (e : ExecEnv) (w : World) (offsetms : Int) (file : Option String) :
    World :=
  match file with
  | none => w
  | some f =>
    playback_final_update e.final_pub
      (run_operations e.during_media
        (w.emit (Event.streamfile f w.playback.skipms w.playback.language offsetms)))
      e.stream_offsetms e.stream_res e.uniqueid

/-- The body of play_on_channel, up to its return. -/
def play_on_channel_body (e : ExecEnv) (w : World) : World :=
  let offsetms := w.playback.offsetms
  let r := playback_first_update e.first_pub w e.uniqueid
  if r.1 ≠ 0 then r.2
  else
    let w1 := if e.chan_up then r.2 else r.2.emit Event.answer
    if ast_begins_with w1.playback.media SOUND_URI_SCHEME then
      play_file e w1 offsetms
        (ast_strdup e.strdup_ok (str_after w1.playback.media SOUND_URI_SCHEME.length))
    else if ast_begins_with w1.playback.media RECORDING_URI_SCHEME then
      match e.recording_file (str_after w1.playback.media RECORDING_URI_SCHEME.length) with
      | some f => play_file e w1 offsetms (ast_strdup e.strdup_ok f)
      | none => play_file e w1 offsetms none
    else
      w1.emit (Event.log LOG_ERROR "Unimplemented\n")

/-- Play the media on a channel (play_on_channel): the body, then mark_as_done
on every way out (the RAII variable mark_when_done). -/
def play_on_channel (e : ExecEnv) (w : World) : World :=
  mark_as_done (play_on_channel_body e w)

/-- Modelled from the spec: CMP_MATCH of asterisk/astobj2.h. -/
def CMP_MATCH : Nat := 1

/-- Modelled from the spec: CMP_STOP of asterisk/astobj2.h. -/
def CMP_STOP : Nat := 2

/-- Comparison of the container (playback_cmp): by string equality of ids. -/
def playback_cmp (lhs_id : String) (rhs_id : String) : Nat :=
  if lhs_id = rhs_id then CMP_MATCH ||| CMP_STOP else 0

/-- Look a playback up by id (stasis_app_playback_find_by_id, ao2_find with
OBJ_KEY): the first linked object the comparison matches. -/
def stasis_app_playback_find_by_id (w : World) (id : String) : Option String :=
  w.playbacks.find? (fun x => playback_cmp x id &&& CMP_MATCH ≠ 0)

/-- Special case code to play while a channel is in a bridge
(play_on_channel_in_bridge): the playback is looked up by id. -/
def play_on_channel_in_bridge (e : ExecEnv) (w : World) (playback_id : String) :
    World :=
  match stasis_app_playback_find_by_id w playback_id with
  | none => w.emit (Event.log LOG_ERROR
      ("Couldn't find playback " ++ playback_id ++ "\n"))
  | some _ => play_on_channel e w

/-- Remove a playback from the global list when leaving scope
(remove_from_playbacks, ao2_unlink_flags): the object is unlinked if linked. -/
def remove_from_playbacks (w : World) : World :=
  ({ w with playbacks := w.playbacks.erase w.playback.id } : World).emit
    (Event.unlink w.playback.id)

/-- What the bridge gives when the channel is in one. -/
structure BridgeEnv where
  /-- Whether bridge_find_channel finds the channel in the bridge. -/
  bridge_chan_found : Bool
  /-- Value of ast_bridge_channel_queue_playfile (ignored by the code): with 0
  the bridge channel thread later runs the queued callback. -/
  queue_playfile_res : Int

/-- What play_uri gets from its collaborators. -/
structure PlayUriEnv where
  /-- Whether the control argument is non-null. -/
  control_present : Bool
  /-- The bridge stasis_app_get_bridge returns, if any. -/
  bridge : Option BridgeEnv
  /-- The collaborators of the execution on the channel. -/
  exec : ExecEnv

/-- The command run on the channel (play_uri).  The result is none when the
call never returns: the wait loop of the bridged path is left only with done
set, and done is set only by the callback the bridge runs.  On every return the
playback is removed from the container (the RAII variable playback). -/
def play_uri (e : PlayUriEnv) (w : World) : Option World :=
  if ¬ e.control_present then some (remove_from_playbacks w)
  else
    match e.bridge with
    | some b =>
      let w1 := if b.bridge_chan_found then
          w.emit (Event.queue_playfile w.playback.id) else w
      if w1.playback.done ≠ 0 then some (remove_from_playbacks w1)
      else
        let w2 := if b.bridge_chan_found ∧ b.queue_playfile_res = 0 then
            play_on_channel_in_bridge e.exec w1 w1.playback.id else w1
        if w2.playback.done ≠ 0 then some (remove_from_playbacks w2) else none
    | none => some (remove_from_playbacks (play_on_channel e.exec w))

/-! ## Creation -/

/-- Modelled from the spec: enum stasis_app_playback_target_type of
asterisk/stasis_app_playback.h, the two target kinds set_target_uri names. -/
inductive stasis_app_playback_target_type where
  | STASIS_PLAYBACK_TARGET_CHANNEL
  | STASIS_PLAYBACK_TARGET_BRIDGE
  deriving DecidableEq, Repr

open stasis_app_playback_target_type

/-- What playback_create gets from its collaborators. -/
structure CreateEnv where
  /-- Whether ao2_alloc returns an object. -/
  alloc_ok : Bool
  /-- Value of ast_string_field_init (0 on success). -/
  string_field_init_res : Int
  /-- Value of ast_cond_init (0 on success). -/
  cond_init_res : Int
  /-- Text of strerror(errno), for the log line. -/
  strerror : String
  /-- The string ast_uuid_generate_str writes. -/
  uuid : String
  deriving DecidableEq, Repr

/-- What stasis_app_control_play_uri gets from its collaborators. -/
structure PlayEnv where
  /-- Whether the control argument is non-null. -/
  control_present : Bool
  /-- The collaborators of playback_create. -/
  create : CreateEnv
  /-- Outcome of the publish of the queued snapshot. -/
  pub : PublishEnv
  deriving DecidableEq, Repr

/-- The module before a play request: the container of linked playbacks and
the trace of effects so far. -/
structure ModuleState where
  playbacks : List String
  trace : List Event
  deriving DecidableEq, Repr

/-- What stasis_app_control_play_uri leaves when it returns: the object it
returns (none for NULL), the container and the trace. -/
structure PlayReturn where
  playback : Option stasis_app_playback
  playbacks : List String
  trace : List Event
  deriving DecidableEq, Repr

/-- The world of the returned playback, when one is returned. -/
def PlayReturn.world (r : PlayReturn) : Option World :=
  r.playback.map fun p => { playback := p, playbacks := r.playbacks, trace := r.trace }

/-- Create a playback object (playback_create): none (NULL) without a control
handle or when an allocation or the initialisation of the condition fails; else
a zeroed object (ao2_alloc clears it, so the numeric fields are 0 and the state
is the first enumerator) with empty string fields and a fresh id. -/
def playback_create (e : CreateEnv) (control_present : Bool) (trace : List Event) :
    Option stasis_app_playback × List Event :=
  if ¬ control_present then (none, trace)
  else if ¬ e.alloc_ok ∨ e.string_field_init_res ≠ 0 then (none, trace)
  else if e.cond_init_res ≠ 0 then
    (none, trace ++ [Event.log LOG_ERROR
      ("Error creating done condition: " ++ e.strerror ++ "\n")])
  else
    (some { id := e.uuid, media := "", language := "", target := "", offsetms := 0,
            skipms := 0, done := 0, playedms := 0,
            state := STASIS_PLAYBACK_STATE_QUEUED }, trace)

/-- Build the target descriptor of a playback (set_target_uri). -/
def set_target_uri (playback : stasis_app_playback)
    (target_type : stasis_app_playback_target_type) (target_id : String) :
    stasis_app_playback :=
  let type := match target_type with
    | STASIS_PLAYBACK_TARGET_CHANNEL => "channel"
    | STASIS_PLAYBACK_TARGET_BRIDGE => "bridge"
  { playback with target := type ++ ":" ++ target_id }

/-- Link an object into the container (ao2_link); the link is taken to
succeed. -/
def ao2_link (playbacks : List String) (id : String) : List String :=
  playbacks ++ [id]

/-- Start a playback (stasis_app_control_play_uri).  The result is none when
the call does not return: playback_create gave NULL and the next statement
writes through it.  Otherwise it is what the call leaves: NULL and an untouched
module for a negative skipms or offsetms; else the playback, populated, linked,
set QUEUED, published, with the play_uri command sent to the channel.  The
ast_debug line is not part of the trace. -/
def stasis_app_control_play_uri (e : PlayEnv) (m : ModuleState) (uri : String)
    (language : String) (target_id : String)
    (target_type : stasis_app_playback_target_type) (skipms : Int) (offsetms : Int) :
    Option PlayReturn :=
  if skipms < 0 ∨ offsetms < 0 then
    some { playback := none, playbacks := m.playbacks, trace := m.trace }
  else
    match playback_create e.create e.control_present m.trace with
    | (none, _) => none
    | (some created, tr) =>
      let skipms := if skipms = 0 then PLAYBACK_DEFAULT_SKIPMS else skipms
      let p1 : stasis_app_playback := { created with media := uri, language := language }
      let p2 := set_target_uri p1 target_type target_id
      let p3 : stasis_app_playback := { p2 with skipms := skipms, offsetms := offsetms }
      let w1 : World :=
        ({ playback := p3, playbacks := ao2_link m.playbacks p3.id, trace := tr } :
          World).emit (Event.link p3.id)
      let w2 := playback_publish e.pub (w1.set_state STASIS_PLAYBACK_STATE_QUEUED)
      let w3 := w2.emit (Event.send_command_async w2.playback.id)
      some { playback := some w3.playback, playbacks := w3.playbacks, trace := w3.trace }

/-! ## Registry comparison and accessors -/

/-- The second argument of the comparison of the container, as the flags tell
to read it: a key string (OBJ_KEY) or an object. -/
inductive search_arg where
  | key (id : String)
  | object (playback : stasis_app_playback)
  deriving DecidableEq, Repr

/-- The id the comparison reads from its second argument
(flags & OBJ_KEY ? arg : rhs->id). -/
def search_arg.id : search_arg → String
  | search_arg.key id => id
  | search_arg.object playback => playback.id

/-- The comparison of the container on a stored object and a search argument
(playback_cmp with its flags): strcmp of the stored id and the searched id. -/
def playback_cmp_arg (obj : stasis_app_playback) (arg : search_arg) : Nat :=
  playback_cmp obj.id arg.id

/-- The state of a playback (stasis_app_playback_get_state). -/
def stasis_app_playback_get_state (control : stasis_app_playback) :
    stasis_app_playback_state :=
  control.state

/-! ## The wait loop of the bridged path -/

/-- One wake-up of the thread that waits in play_uri: the value ast_cond_wait
returns, the text of strerror(errno) for the log line, and the value of done
the loop reads next. -/
structure WakeUp where
  cond_wait_res : Int
  strerror : String
  done : Int
  deriving DecidableEq, Repr

/-- The wait loop of play_uri, `while (!playback->done)` around ast_cond_wait,
run on the value of done at its entry and a finite sequence of wake-ups.  The
result is the value of done the loop is left with and the log lines of the
failed waits, or none when the thread still waits after the last wake-up. -/
def wait_for_done : Int → List WakeUp → Option (Int × List Event)
  | done, [] => if done ≠ 0 then some (done, []) else none
  | done, wk :: rest =>
    if done ≠ 0 then some (done, [])
    else
      (wait_for_done wk.done rest).map fun r =>
        (r.1,
          (if wk.cond_wait_res ≠ 0 then
            [Event.log LOG_ERROR
              ("Error waiting for playback to complete: " ++ wk.strerror ++ "\n")]
           else []) ++ r.2)

/-! ## Accesses to the locked fields -/

/-- What the lock discipline is about: taking and dropping the lock of the
playback, reads and writes of its state, its played position and its done
flag, and the publish of a snapshot. -/
inductive Access where
  | lock
  | unlock
  | read_state
  | write_state
  | write_playedms
  | read_done
  | write_done
  | publish
  deriving DecidableEq, Repr

/-- Accesses of playback_publish: stasis_app_playback_to_json reads the state,
then the snapshot is published when it can be built.  No lock is taken. -/
def playback_publish_accesses (e : PublishEnv) : List Access :=
  [Access.read_state] ++
    (if e.json_pack_ok = true ∧ e.blob_create_ok = true then [Access.publish] else [])

/-- Accesses of playback_first_update on a playback in a given state, inside
its SCOPED_AO2LOCK. -/
def playback_first_update_accesses (e : PublishEnv) (s : stasis_app_playback_state) :
    List Access :=
  [Access.lock, Access.read_state] ++
    (if s = STASIS_PLAYBACK_STATE_CANCELED then [] else [Access.write_state]) ++
    playback_publish_accesses e ++ [Access.unlock]

/-- Accesses of playback_final_update, inside its SCOPED_AO2LOCK. -/
def playback_final_update_accesses (e : PublishEnv) (s : stasis_app_playback_state)
    (res : Int) : List Access :=
  [Access.lock, Access.write_playedms] ++
    (if res = 0 then [Access.write_state]
     else [Access.read_state] ++
       (if s = STASIS_PLAYBACK_STATE_STOPPED then [] else [Access.write_state])) ++
    playback_publish_accesses e ++ [Access.unlock]

/-- Accesses of mark_as_done, inside its SCOPED_AO2LOCK. -/
def mark_as_done_accesses : List Access :=
  [Access.lock, Access.write_done, Access.unlock]

/-- Accesses of the handler the dispatch table holds for a pair:
playback_cancel and playback_stop write the state inside their lock,
playback_pause and playback_unpause write it and publish inside theirs, the
other handlers touch none of the fields. -/
def handler_accesses (e : PublishEnv) : stasis_app_playback_state →
    stasis_app_playback_media_operation → List Access
  | STASIS_PLAYBACK_STATE_QUEUED, STASIS_PLAYBACK_STOP =>
    [Access.lock, Access.write_state, Access.unlock]
  | STASIS_PLAYBACK_STATE_PLAYING, STASIS_PLAYBACK_STOP =>
    [Access.lock, Access.write_state, Access.unlock]
  | STASIS_PLAYBACK_STATE_PAUSED, STASIS_PLAYBACK_STOP =>
    [Access.lock, Access.write_state, Access.unlock]
  | STASIS_PLAYBACK_STATE_PLAYING, STASIS_PLAYBACK_PAUSE =>
    [Access.lock, Access.write_state] ++ playback_publish_accesses e ++ [Access.unlock]
  | STASIS_PLAYBACK_STATE_PAUSED, STASIS_PLAYBACK_UNPAUSE =>
    [Access.lock, Access.write_state] ++ playback_publish_accesses e ++ [Access.unlock]
  | _, _ => []

/-- Accesses of stasis_app_playback_operation: inside its SCOPED_AO2LOCK, the
read of the state by the assertion, then for an operation in range the read
that indexes the table and either the read of the branch without handler or
the accesses of the handler. -/
def stasis_app_playback_operation_accesses (e : PublishEnv)
    (s : stasis_app_playback_state) (operation : Int) : List Access :=
  [Access.lock, Access.read_state] ++
    (match media_operation_of_code operation with
      | none => []
      | some o =>
        [Access.read_state] ++
          (if (operations s o).isNone = true then [Access.read_state]
           else handler_accesses e s o)) ++
    [Access.unlock]

/-- Accesses of stasis_app_playback_get_state, inside its SCOPED_AO2LOCK. -/
def stasis_app_playback_get_state_accesses : List Access :=
  [Access.lock, Access.read_state, Access.unlock]

/-- Accesses of the wait of play_uri, between ao2_lock and ao2_unlock: the read
of done at the entry of the loop and one after each wake-up. -/
def play_uri_wait_accesses (wakeups : Nat) : List Access :=
  [Access.lock, Access.read_done] ++ List.replicate wakeups Access.read_done ++
    [Access.unlock]

/-- Accesses of stasis_app_control_play_uri after ao2_link: the write of the
state QUEUED and playback_publish.  The function takes no lock. -/
def stasis_app_control_play_uri_accesses (e : PublishEnv) : List Access :=
  [Access.write_state] ++ playback_publish_accesses e

/-- The bridged path of play_uri up to the wait: under the lock of the bridge,
the callback is queued on the bridge channel when bridge_find_channel finds
one; nothing else is done before ao2_lock and the loop. -/
def play_uri_before_wait (b : BridgeEnv) (w : World) : World :=
  if b.bridge_chan_found then w.emit (Event.queue_playfile w.playback.id) else w

/-! ## Projections of a trace -/

/-- The snapshots published in a trace, in order. -/
def published (tr : List Event) : List ast_json :=
  tr.filterMap fun ev => match ev with
    | Event.publish j => some j
    | _ => none

/-- The control frames enqueued in a trace, in order. -/
def signals (tr : List Event) : List ast_control_frame_type :=
  tr.filterMap fun ev => match ev with
    | Event.queue_control f => some f
    | _ => none

/-- The transition table of section 4.2 of the specification, read as a
function on states: the state an operation leaves a playback in. -/
def spec_next_state : stasis_app_playback_state →
    stasis_app_playback_media_operation → stasis_app_playback_state
  | STASIS_PLAYBACK_STATE_QUEUED, STASIS_PLAYBACK_STOP => STASIS_PLAYBACK_STATE_CANCELED
  | STASIS_PLAYBACK_STATE_PLAYING, STASIS_PLAYBACK_STOP => STASIS_PLAYBACK_STATE_STOPPED
  | STASIS_PLAYBACK_STATE_PAUSED, STASIS_PLAYBACK_STOP => STASIS_PLAYBACK_STATE_STOPPED
  | STASIS_PLAYBACK_STATE_PLAYING, STASIS_PLAYBACK_PAUSE => STASIS_PLAYBACK_STATE_PAUSED
  | STASIS_PLAYBACK_STATE_PAUSED, STASIS_PLAYBACK_UNPAUSE => STASIS_PLAYBACK_STATE_PLAYING
  | s, _ => s

/-- The media calls made in a trace, by file. -/
def media_calls (tr : List Event) : List String :=
  tr.filterMap fun ev => match ev with
    | Event.streamfile f _ _ _ => some f
    | _ => none

/-- The label a snapshot carries in its state field. -/
def snapshot_label (j : ast_json) : Option String :=
  (j.find? (fun kv => kv.1 = "state")).map Prod.snd

/-- The terminal states. -/
def is_terminal (s : stasis_app_playback_state) : Bool :=
  s = STASIS_PLAYBACK_STATE_COMPLETE ∨ s = STASIS_PLAYBACK_STATE_STOPPED ∨
    s = STASIS_PLAYBACK_STATE_CANCELED

/-- The pairs the table of section 4.2 marks invalid outside PLAYING: QUEUED
with PAUSE, UNPAUSE, REVERSE, FORWARD; PAUSED with RESTART, REVERSE, FORWARD;
COMPLETE, CANCELED, STOPPED with every operation except STOP. -/
def spec_invalid : stasis_app_playback_state →
    stasis_app_playback_media_operation → Bool
  | STASIS_PLAYBACK_STATE_QUEUED, STASIS_PLAYBACK_PAUSE => true
  | STASIS_PLAYBACK_STATE_QUEUED, STASIS_PLAYBACK_UNPAUSE => true
  | STASIS_PLAYBACK_STATE_QUEUED, STASIS_PLAYBACK_REVERSE => true
  | STASIS_PLAYBACK_STATE_QUEUED, STASIS_PLAYBACK_FORWARD => true
  | STASIS_PLAYBACK_STATE_PAUSED, STASIS_PLAYBACK_RESTART => true
  | STASIS_PLAYBACK_STATE_PAUSED, STASIS_PLAYBACK_REVERSE => true
  | STASIS_PLAYBACK_STATE_PAUSED, STASIS_PLAYBACK_FORWARD => true
  | STASIS_PLAYBACK_STATE_COMPLETE, o => decide (o ≠ STASIS_PLAYBACK_STOP)
  | STASIS_PLAYBACK_STATE_CANCELED, o => decide (o ≠ STASIS_PLAYBACK_STOP)
  | STASIS_PLAYBACK_STATE_STOPPED, o => decide (o ≠ STASIS_PLAYBACK_STOP)
  | _, _ => false

/-- The snapshot playback_publish builds of a playback when nothing fails. -/
def snapshot_of (p : stasis_app_playback) : ast_json :=
  [("id", p.id), ("media_uri", p.media), ("target_uri", p.target),
    ("language", p.language), ("state", state_to_string p.state)]

/-- Whether both fallible steps of a publish succeed. -/
def PublishEnv.ok (e : PublishEnv) : Bool :=
  e.json_pack_ok && e.blob_create_ok

/-! ## Concrete inputs -/

/-- A playback of the sound hello in a given state. -/
def sample_playback (s : stasis_app_playback_state) : stasis_app_playback :=
  { id := "pb-1", media := "sound:hello", language := "en", target := "channel:c1",
    offsetms := 0, skipms := 3000, done := 0, playedms := 0, state := s }

/-- A world holding the sample playback, linked, with nothing observed yet. -/
def sample_world (s : stasis_app_playback_state) : World :=
  { playback := sample_playback s, playbacks := ["pb-1"], trace := [] }

/-- Every publish succeeds. -/
def pub_ok : PublishEnv := { json_pack_ok := true, blob_create_ok := true }

/-- Collaborators of an operation that all succeed. -/
def oper_env_ok : OperEnv := { pub := pub_ok, queue_control_res := 0 }

/-- Collaborators of an operation where the enqueue of the control frame
fails. -/
def oper_env_queue_fails : OperEnv := { pub := pub_ok, queue_control_res := -1 }

/-- Collaborators of an execution that all succeed: the channel is up, the
media call plays to the end at 5000 ms, no control operation arrives. -/
def sample_exec : ExecEnv :=
  { uniqueid := "chan-1", chan_up := true, first_pub := pub_ok,
    recording_file := fun _ => none, strdup_ok := true, during_media := [],
    stream_res := 0, stream_offsetms := 5000, final_pub := pub_ok }

/-- The file play_on_channel hands to the media call for a media reference:
what follows the sound scheme, or the file of the stored recording named after
the recording scheme; none when the scheme is neither, no recording of the name
is stored, or the copy of the string cannot be made. -/
def media_file (e : ExecEnv) (media : String) : Option String :=
  if ast_begins_with media SOUND_URI_SCHEME then
    ast_strdup e.strdup_ok (str_after media SOUND_URI_SCHEME.length)
  else if ast_begins_with media RECORDING_URI_SCHEME then
    (e.recording_file (str_after media RECORDING_URI_SCHEME.length)).bind
      (ast_strdup e.strdup_ok)
  else none

/-- The state an execution on the channel ends in: CANCELED when the playback
was canceled before the start; COMPLETE or STOPPED, by the result of the media
call, when the media reference resolves to a file; PLAYING otherwise. -/
def final_state (e : ExecEnv) (w : World) : stasis_app_playback_state :=
  if w.playback.state = STASIS_PLAYBACK_STATE_CANCELED then STASIS_PLAYBACK_STATE_CANCELED
  else
    match media_file e w.playback.media with
    | some _ =>
      if e.stream_res = 0 then STASIS_PLAYBACK_STATE_COMPLETE
      else STASIS_PLAYBACK_STATE_STOPPED
    | none => STASIS_PLAYBACK_STATE_PLAYING

/-- Events a control operation can produce: snapshots, control frames and log
lines. -/
def control_event : Event → Bool
  | Event.publish _ => true
  | Event.queue_control _ => true
  | Event.log _ _ => true
  | _ => false

/-- What control operations leave alone: the later world has the same
container and the same playback up to its state, and its trace is the earlier
one followed by snapshots, control frames and log lines only. -/
def control_step (w w' : World) : Prop :=
  w'.playbacks = w.playbacks ∧
    w'.playback = { w.playback with state := w'.playback.state } ∧
    ∃ t, w'.trace = w.trace ++ t ∧ ∀ ev ∈ t, control_event ev = true

/-- The sample world with another media reference. -/
def sample_world_media (media : String) (s : stasis_app_playback_state) : World :=
  { playback := { sample_playback s with media := media }, playbacks := ["pb-1"],
    trace := [] }

/-- Collaborators of play_uri on a channel that is in no bridge. -/
def sample_play_uri : PlayUriEnv :=
  { control_present := true, bridge := none, exec := sample_exec }

/-- Whether the last snapshot of an execution can be built: the one of the
first update for a playback canceled before the start, the one of the final
update otherwise. -/
def final_snapshot_built (e : ExecEnv) (w : World) : Bool :=
  if w.playback.state = STASIS_PLAYBACK_STATE_CANCELED then e.first_pub.ok
  else e.final_pub.ok

/-- Whether events satisfying the given tests occur in a trace in the given
order (not necessarily next to each other). -/
def occurs_in_order : List (Event → Bool) → List Event → Bool
  | [], _ => true
  | _ :: _, [] => false
  | p :: ps, ev :: tr =>
    if p ev then occurs_in_order ps tr else occurs_in_order (p :: ps) tr

/-- Test: the event is a publish. -/
def is_publish : Event → Bool
  | Event.publish _ => true
  | _ => false

/-- Test: the event is the write of done. -/
def is_set_done : Event → Bool
  | Event.set_done => true
  | _ => false

/-- Test: the event is the removal from the container. -/
def is_unlink : Event → Bool
  | Event.unlink _ => true
  | _ => false

/-- Collaborators of play_uri called without a control handle. -/
def sample_play_uri_no_control : PlayUriEnv :=
  { control_present := false, bridge := none, exec := sample_exec }

/-- The execution commands submitted in a trace, by playback id. -/
def commands (tr : List Event) : List String :=
  tr.filterMap fun ev => match ev with
    | Event.send_command_async id => some id
    | _ => none

/-- The log lines of a trace. -/
def logs (tr : List Event) : List (log_level × String) :=
  tr.filterMap fun ev => match ev with
    | Event.log l msg => some (l, msg)
    | _ => none

/-- The control signal the table of section 4.2 names for a pair, none when it
names none (cancel, no-op and invalid entries).  The resume signal of UNPAUSE
in PAUSED is the stream-suspend frame: the frame types have no other. -/
def spec_signal : stasis_app_playback_state →
    stasis_app_playback_media_operation → Option ast_control_frame_type
  | STASIS_PLAYBACK_STATE_PLAYING, STASIS_PLAYBACK_STOP => some AST_CONTROL_STREAM_STOP
  | STASIS_PLAYBACK_STATE_PAUSED, STASIS_PLAYBACK_STOP => some AST_CONTROL_STREAM_STOP
  | STASIS_PLAYBACK_STATE_PLAYING, STASIS_PLAYBACK_RESTART =>
    some AST_CONTROL_STREAM_RESTART
  | STASIS_PLAYBACK_STATE_PLAYING, STASIS_PLAYBACK_PAUSE => some AST_CONTROL_STREAM_SUSPEND
  | STASIS_PLAYBACK_STATE_PAUSED, STASIS_PLAYBACK_UNPAUSE =>
    some AST_CONTROL_STREAM_SUSPEND
  | STASIS_PLAYBACK_STATE_PLAYING, STASIS_PLAYBACK_REVERSE =>
    some AST_CONTROL_STREAM_REVERSE
  | STASIS_PLAYBACK_STATE_PLAYING, STASIS_PLAYBACK_FORWARD =>
    some AST_CONTROL_STREAM_FORWARD
  | _, _ => none

/-- The no-op entries of the table of section 4.2: RESTART in QUEUED, UNPAUSE
in PLAYING, PAUSE in PAUSED, STOP in COMPLETE, CANCELED or STOPPED. -/
def spec_noop : stasis_app_playback_state →
    stasis_app_playback_media_operation → Bool
  | STASIS_PLAYBACK_STATE_QUEUED, STASIS_PLAYBACK_RESTART => true
  | STASIS_PLAYBACK_STATE_PLAYING, STASIS_PLAYBACK_UNPAUSE => true
  | STASIS_PLAYBACK_STATE_PAUSED, STASIS_PLAYBACK_PAUSE => true
  | STASIS_PLAYBACK_STATE_COMPLETE, STASIS_PLAYBACK_STOP => true
  | STASIS_PLAYBACK_STATE_CANCELED, STASIS_PLAYBACK_STOP => true
  | STASIS_PLAYBACK_STATE_STOPPED, STASIS_PLAYBACK_STOP => true
  | _, _ => false

/-- Collaborators of a creation that all succeed. -/
def sample_play_env : PlayEnv :=
  { control_present := true,
    create := { alloc_ok := true, string_field_init_res := 0, cond_init_res := 0,
                strerror := "", uuid := "pb-1" },
    pub := pub_ok }

/-- A module with nothing linked and nothing observed. -/
def empty_module : ModuleState := { playbacks := [], trace := [] }

/-- The events from a STOP issued during the media call to the end of an
execution whose media call then fails: the stream-stop frame, the notice of the
final update, its snapshot when it can be built, the write of done and the
removal from the registry. -/
def stop_to_end_events (e : ExecEnv) (w : World) : List Event :=
  [Event.queue_control AST_CONTROL_STREAM_STOP,
    Event.log LOG_NOTICE
      (e.uniqueid ++ ": Playback stopped for " ++ w.playback.media ++ "\n")] ++
  (if e.final_pub.ok = true then
    [Event.publish (snapshot_of
      { w.playback with state := STASIS_PLAYBACK_STATE_STOPPED,
                        playedms := e.stream_offsetms })]
   else []) ++
  [Event.set_done, Event.unlink w.playback.id]

/-- Collaborators of an execution during which STOP is issued and whose media
call then reports a failure. -/
def sample_exec_stopped : ExecEnv :=
  { sample_exec with during_media := [(oper_env_ok, STASIS_PLAYBACK_STOP.code)],
                     stream_res := -1, stream_offsetms := 1200 }

/-- Collaborators of play_uri in no bridge, for the stopped execution. -/
def sample_play_uri_stopped : PlayUriEnv :=
  { control_present := true, bridge := none, exec := sample_exec_stopped }

/-- Events an execution on the channel can produce: snapshots, control
frames, log lines, the answer, the media call and the write of done. -/
def exec_event : Event → Bool
  | Event.publish _ => true
  | Event.queue_control _ => true
  | Event.log _ _ => true
  | Event.answer => true
  | Event.streamfile _ _ _ _ => true
  | Event.set_done => true
  | _ => false

/-- What an execution on the channel leaves alone: the later world has the
same container and the same id, and its trace is the earlier one followed by
events of the execution only. -/
def exec_step (w w' : World) : Prop :=
  w'.playbacks = w.playbacks ∧ w'.playback.id = w.playback.id ∧
    ∃ t, w'.trace = w.trace ++ t ∧ ∀ ev ∈ t, exec_event ev = true

/-- Collaborators of play_uri on a channel that is in a bridge which runs the
queued callback. -/
def sample_play_uri_bridged : PlayUriEnv :=
  { control_present := true,
    bridge := some { bridge_chan_found := true, queue_playfile_res := 0 },
    exec := sample_exec }

/-! ## The life of a playback, step by step -/

/-- Where the execution of a playback stands: the command has not run its
first update yet; the media call is in progress; the execution is over. -/
inductive Phase where
  | waiting
  | streaming
  | ended
  deriving DecidableEq, Repr

/-- The steps of the module that write the state of a playback: a control
operation, the first update and the final update. -/
inductive LifeStep where
  | control (e : OperEnv) (operation : Int)
  | first_update (e : PublishEnv) (uniqueid : String)
  | final_update (e : PublishEnv) (playedms : Int) (res : Int) (uniqueid : String)

/-- One step in the life of a playback.  A control operation can come at any
time.  The first update is made once, by the one command submitted at
creation, before anything else of the execution; it ends the execution of a
canceled playback and starts the media call otherwise.  The final update is
made once, after the media call.  A step out of this order is none. -/
def life_step (ph : Phase) (w : World) : LifeStep → Option (Phase × World)
  | LifeStep.control e operation =>
    some (ph, (stasis_app_playback_operation e w operation).2)
  | LifeStep.first_update e uniqueid =>
    match ph with
    | Phase.waiting =>
      some (if (playback_first_update e w uniqueid).1 ≠ 0 then Phase.ended
            else Phase.streaming, (playback_first_update e w uniqueid).2)
    | _ => none
  | LifeStep.final_update e playedms res uniqueid =>
    match ph with
    | Phase.streaming => some (Phase.ended, playback_final_update e w playedms res uniqueid)
    | _ => none

/-- A sequence of steps in the life of a playback; none when a step is out of
order. -/
def life_run : List LifeStep → Phase × World → Option (Phase × World)
  | [], x => some x
  | st :: rest, x => (life_step x.1 x.2 st).bind (life_run rest)

/-- The edges of the state machine of the specification: QUEUED to PLAYING or
CANCELED, PLAYING to PAUSED, PAUSED to PLAYING, PLAYING or PAUSED to a terminal
state. -/
def spec_edge : stasis_app_playback_state → stasis_app_playback_state → Bool
  | STASIS_PLAYBACK_STATE_QUEUED, STASIS_PLAYBACK_STATE_PLAYING => true
  | STASIS_PLAYBACK_STATE_QUEUED, STASIS_PLAYBACK_STATE_CANCELED => true
  | STASIS_PLAYBACK_STATE_PLAYING, STASIS_PLAYBACK_STATE_PAUSED => true
  | STASIS_PLAYBACK_STATE_PAUSED, STASIS_PLAYBACK_STATE_PLAYING => true
  | STASIS_PLAYBACK_STATE_PLAYING, s => is_terminal s
  | STASIS_PLAYBACK_STATE_PAUSED, s => is_terminal s
  | _, _ => false

/-- The states a playback can be in at each phase of its execution. -/
def phase_states : Phase → stasis_app_playback_state → Bool
  | Phase.waiting, s =>
    s = STASIS_PLAYBACK_STATE_QUEUED ∨ s = STASIS_PLAYBACK_STATE_CANCELED
  | Phase.streaming, s =>
    s = STASIS_PLAYBACK_STATE_PLAYING ∨ s = STASIS_PLAYBACK_STATE_PAUSED ∨
      s = STASIS_PLAYBACK_STATE_STOPPED
  | Phase.ended, s => is_terminal s

/-- Whether every access other than taking and dropping the lock happens while
the lock is held, starting from a given number of holds. -/
def under_lock : Nat → List Access → Bool
  | _, [] => true
  | held, Access.lock :: rest => under_lock (held + 1) rest
  | held, Access.unlock :: rest => under_lock (held - 1) rest
  | held, _ :: rest => decide (0 < held) && under_lock held rest

/-- The playback requests queued on a bridge channel in a trace. -/
def queued_playfiles (tr : List Event) : List String :=
  tr.filterMap fun ev => match ev with
    | Event.queue_playfile id => some id
    | _ => none

/-- A publish whose snapshot cannot be built (ast_json_pack fails). -/
def pub_json_fails : PublishEnv := { json_pack_ok := false, blob_create_ok := true }

/-- A publish whose message cannot be created
(ast_channel_blob_create_from_cache fails). -/
def pub_message_fails : PublishEnv := { json_pack_ok := true, blob_create_ok := false }

/-- Collaborators of play_uri on a channel in a bridge that holds no bridge
channel for it. -/
def sample_play_uri_no_bridge_chan : PlayUriEnv :=
  { control_present := true,
    bridge := some { bridge_chan_found := false, queue_playfile_res := 0 },
    exec := sample_exec }

/-! ## The operation dispatch table -/

/-- Claim C1: for every state and each of the six operations, the state after
stasis_app_playback_operation is the one the transition table of section 4.2
gives (QUEUED+STOP gives CANCELED, PLAYING+STOP and PAUSED+STOP give STOPPED,
PLAYING+PAUSE gives PAUSED, PAUSED+UNPAUSE gives PLAYING, every other pair
leaves the state as it was), whatever the collaborators return. -/
theorem operation_state_follows_table (e : OperEnv) (w : World)
    (o : stasis_app_playback_media_operation) :
    (stasis_app_playback_operation e w o.code).2.playback.state =
      spec_next_state w.playback.state o := by
  obtain ⟨⟨id, media, language, target, offsetms, skipms, done, playedms, s⟩, reg, tr⟩ := w
  cases s <;> cases o <;>
    simp [stasis_app_playback_operation, stasis_app_playback_media_operation.code,
      STASIS_PLAYBACK_MEDIA_OP_MAX, media_operation_of_code, operations, spec_next_state,
      playback_noop, playback_cancel, playback_stop, playback_restart, playback_pause,
      playback_unpause, playback_reverse, playback_forward,
      stasis_app_control_queue_control, playback_publish, stasis_app_playback_to_json,
      World.emit, World.set_state] <;>
    (repeat (split <;> simp_all [World.emit]))

/-- An in-range integer is the value of one of the six operations. -/
theorem code_of_in_range (operation : Int)
    (h : ¬ (operation < 0 ∨ operation ≥ STASIS_PLAYBACK_MEDIA_OP_MAX)) :
    ∃ o : stasis_app_playback_media_operation, operation = o.code := by
  simp only [STASIS_PLAYBACK_MEDIA_OP_MAX] at h
  have h6 : operation = 0 ∨ operation = 1 ∨ operation = 2 ∨ operation = 3 ∨
      operation = 4 ∨ operation = 5 := by omega
  rcases h6 with h | h | h | h | h | h
  · exact ⟨STASIS_PLAYBACK_STOP, h⟩
  · exact ⟨STASIS_PLAYBACK_RESTART, h⟩
  · exact ⟨STASIS_PLAYBACK_PAUSE, h⟩
  · exact ⟨STASIS_PLAYBACK_UNPAUSE, h⟩
  · exact ⟨STASIS_PLAYBACK_REVERSE, h⟩
  · exact ⟨STASIS_PLAYBACK_FORWARD, h⟩

/-- The value of an operation is in range and denotes the operation. -/
theorem code_in_range (o : stasis_app_playback_media_operation) :
    ¬ (o.code < 0 ∨ o.code ≥ STASIS_PLAYBACK_MEDIA_OP_MAX) ∧
      media_operation_of_code o.code = some o := by
  cases o <;>
    simp [stasis_app_playback_media_operation.code, STASIS_PLAYBACK_MEDIA_OP_MAX,
      media_operation_of_code]

/-- The call on the value of an operation, by the entry of the table. -/
theorem operation_by_entry (e : OperEnv) (w : World)
    (o : stasis_app_playback_media_operation) :
    stasis_app_playback_operation e w o.code =
      match operations w.playback.state o with
      | none =>
        if w.playback.state ≠ STASIS_PLAYBACK_STATE_PLAYING then
          (STASIS_PLAYBACK_OPER_NOT_PLAYING, w)
        else
          (STASIS_PLAYBACK_OPER_FAILED, w.emit (Event.log LOG_ERROR
            ("Unhandled operation during playback: " ++ toString o.code ++ "\n")))
      | some cb =>
        ((if (cb e w).1 ≠ 0 then STASIS_PLAYBACK_OPER_FAILED
          else STASIS_PLAYBACK_OPER_OK), (cb e w).2) := by
  have h := code_in_range o
  unfold stasis_app_playback_operation
  rw [if_neg h.1, h.2]
  rfl

/-- An out-of-range value is answered with -1 and a log line. -/
theorem operation_out_of_range (e : OperEnv) (w : World) (operation : Int)
    (h : operation < 0 ∨ operation ≥ STASIS_PLAYBACK_MEDIA_OP_MAX) :
    stasis_app_playback_operation e w operation =
      (-1, w.emit (Event.log LOG_ERROR
        ("Invalid playback operation " ++ toString operation ++ "\n"))) := by
  unfold stasis_app_playback_operation
  rw [if_pos h]

/-- Claim C2: outside PLAYING, an operation without an entry in the dispatch
table is answered NOT_PLAYING.  The pairs without an entry outside PLAYING are
exactly the ones the claim lists (spec_invalid): either description of the pair
gives the other and the result NOT_PLAYING. -/
theorem operation_without_entry_not_playing (e : OperEnv) (w : World)
    (o : stasis_app_playback_media_operation)
    (h : (w.playback.state ≠ STASIS_PLAYBACK_STATE_PLAYING ∧
        (operations w.playback.state o).isNone = true) ∨
      spec_invalid w.playback.state o = true) :
    (stasis_app_playback_operation e w o.code).1 = STASIS_PLAYBACK_OPER_NOT_PLAYING ∧
      w.playback.state ≠ STASIS_PLAYBACK_STATE_PLAYING ∧
      (operations w.playback.state o).isNone = true ∧
      spec_invalid w.playback.state o = true := by
  rw [operation_by_entry]
  obtain ⟨⟨id, media, language, target, offsetms, skipms, done, playedms, s⟩, reg, tr⟩ := w
  cases s <;> cases o <;> simp_all [operations, spec_invalid]

/-- Witness of claim C2: PAUSE on a queued playback. -/
theorem operation_without_entry_not_playing_witness :
    (stasis_app_playback_operation oper_env_ok
        (sample_world STASIS_PLAYBACK_STATE_QUEUED) STASIS_PLAYBACK_PAUSE.code).1 =
        STASIS_PLAYBACK_OPER_NOT_PLAYING ∧
      (sample_world STASIS_PLAYBACK_STATE_QUEUED).playback.state ≠
        STASIS_PLAYBACK_STATE_PLAYING ∧
      (operations (sample_world STASIS_PLAYBACK_STATE_QUEUED).playback.state
        STASIS_PLAYBACK_PAUSE).isNone = true ∧
      spec_invalid (sample_world STASIS_PLAYBACK_STATE_QUEUED).playback.state
        STASIS_PLAYBACK_PAUSE = true :=
  operation_without_entry_not_playing oper_env_ok
    (sample_world STASIS_PLAYBACK_STATE_QUEUED) STASIS_PLAYBACK_PAUSE
    (Or.inr (by decide))

/-- What playback_publish does: one snapshot when both steps succeed, nothing
otherwise; only the trace changes. -/
theorem playback_publish_eq (e : PublishEnv) (w : World) :
    playback_publish e w =
      if e.ok = true then w.emit (Event.publish (snapshot_of w.playback)) else w := by
  unfold playback_publish stasis_app_playback_to_json PublishEnv.ok snapshot_of
  cases e.json_pack_ok <;> cases e.blob_create_ok <;> simp

/-- The state after a call that reports an error, for the value of an
operation: unchanged, unless a handler that writes the state first failed to
enqueue its control frame. -/
theorem error_state_of_code (e : OperEnv) (w : World)
    (o : stasis_app_playback_media_operation)
    (h : (stasis_app_playback_operation e w o.code).1 =
        STASIS_PLAYBACK_OPER_NOT_PLAYING ∨
      (stasis_app_playback_operation e w o.code).1 = STASIS_PLAYBACK_OPER_FAILED) :
    (stasis_app_playback_operation e w o.code).2.playback.state = w.playback.state ∨
      ((stasis_app_playback_operation e w o.code).1 = STASIS_PLAYBACK_OPER_FAILED ∧
        e.queue_control_res ≠ 0 ∧
        (w.playback.state = STASIS_PLAYBACK_STATE_PLAYING ∨
          w.playback.state = STASIS_PLAYBACK_STATE_PAUSED) ∧
        (o = STASIS_PLAYBACK_STOP ∨ o = STASIS_PLAYBACK_PAUSE ∨
          o = STASIS_PLAYBACK_UNPAUSE) ∧
        (stasis_app_playback_operation e w o.code).2.playback.state =
          spec_next_state w.playback.state o) := by
  rw [operation_by_entry] at h ⊢
  obtain ⟨⟨id, media, language, target, offsetms, skipms, done, playedms, s⟩, reg, tr⟩ := w
  by_cases hq : e.queue_control_res = 0 <;> by_cases hp : e.pub.ok = true <;>
    cases s <;> cases o <;>
      simp_all [operations, spec_next_state, playback_noop, playback_cancel,
        playback_stop, playback_restart, playback_pause, playback_unpause,
        playback_reverse, playback_forward, stasis_app_control_queue_control,
        playback_publish_eq, World.emit, World.set_state, STASIS_PLAYBACK_OPER_OK,
        STASIS_PLAYBACK_OPER_FAILED, STASIS_PLAYBACK_OPER_NOT_PLAYING]

/-- Counterexample to claim C3: STOP on a playing playback whose control frame
cannot be enqueued returns FAILED, and the state is STOPPED although it was
PLAYING before the call. -/
theorem operation_failed_state_changed :
    (stasis_app_playback_operation oper_env_queue_fails
        (sample_world STASIS_PLAYBACK_STATE_PLAYING) STASIS_PLAYBACK_STOP.code).1 =
        STASIS_PLAYBACK_OPER_FAILED ∧
      (stasis_app_playback_operation oper_env_queue_fails
        (sample_world STASIS_PLAYBACK_STATE_PLAYING)
        STASIS_PLAYBACK_STOP.code).2.playback.state = STASIS_PLAYBACK_STATE_STOPPED ∧
      (stasis_app_playback_operation oper_env_queue_fails
        (sample_world STASIS_PLAYBACK_STATE_PLAYING)
        STASIS_PLAYBACK_STOP.code).2.playback.state ≠
        (sample_world STASIS_PLAYBACK_STATE_PLAYING).playback.state := by
  decide

/-- Claim C3, amended: when stasis_app_playback_operation returns NOT_PLAYING
or FAILED, for every state and every integer operation, the state is the same
as before the call, except when FAILED comes from a failed enqueue of the
control frame by a handler that writes the state first (STOP in PLAYING or
PAUSED, PAUSE in PLAYING, UNPAUSE in PAUSED): then the state is the one the
table gives. -/
theorem operation_error_state (e : OperEnv) (w : World) (operation : Int)
    (h : (stasis_app_playback_operation e w operation).1 =
        STASIS_PLAYBACK_OPER_NOT_PLAYING ∨
      (stasis_app_playback_operation e w operation).1 = STASIS_PLAYBACK_OPER_FAILED) :
    (stasis_app_playback_operation e w operation).2.playback.state = w.playback.state ∨
      ((stasis_app_playback_operation e w operation).1 = STASIS_PLAYBACK_OPER_FAILED ∧
        e.queue_control_res ≠ 0 ∧
        (w.playback.state = STASIS_PLAYBACK_STATE_PLAYING ∨
          w.playback.state = STASIS_PLAYBACK_STATE_PAUSED) ∧
        ∃ o : stasis_app_playback_media_operation, operation = o.code ∧
          (o = STASIS_PLAYBACK_STOP ∨ o = STASIS_PLAYBACK_PAUSE ∨
            o = STASIS_PLAYBACK_UNPAUSE) ∧
          (stasis_app_playback_operation e w operation).2.playback.state =
            spec_next_state w.playback.state o) := by
  by_cases hr : operation < 0 ∨ operation ≥ STASIS_PLAYBACK_MEDIA_OP_MAX
  · left
    rw [operation_out_of_range e w operation hr]
    rfl
  · obtain ⟨o, rfl⟩ := code_of_in_range operation hr
    rcases error_state_of_code e w o h with h1 | ⟨h1, h2, h3, h4, h5⟩
    · exact Or.inl h1
    · exact Or.inr ⟨h1, h2, h3, o, rfl, h4, h5⟩

/-- Witness of the amended claim C3: the failed STOP on a playing playback. -/
theorem operation_error_state_witness :
    (stasis_app_playback_operation oper_env_queue_fails
        (sample_world STASIS_PLAYBACK_STATE_PLAYING) 0).2.playback.state =
        (sample_world STASIS_PLAYBACK_STATE_PLAYING).playback.state ∨
      ((stasis_app_playback_operation oper_env_queue_fails
          (sample_world STASIS_PLAYBACK_STATE_PLAYING) 0).1 =
          STASIS_PLAYBACK_OPER_FAILED ∧
        oper_env_queue_fails.queue_control_res ≠ 0 ∧
        ((sample_world STASIS_PLAYBACK_STATE_PLAYING).playback.state =
            STASIS_PLAYBACK_STATE_PLAYING ∨
          (sample_world STASIS_PLAYBACK_STATE_PLAYING).playback.state =
            STASIS_PLAYBACK_STATE_PAUSED) ∧
        ∃ o : stasis_app_playback_media_operation, (0 : Int) = o.code ∧
          (o = STASIS_PLAYBACK_STOP ∨ o = STASIS_PLAYBACK_PAUSE ∨
            o = STASIS_PLAYBACK_UNPAUSE) ∧
          (stasis_app_playback_operation oper_env_queue_fails
            (sample_world STASIS_PLAYBACK_STATE_PLAYING) 0).2.playback.state =
            spec_next_state (sample_world STASIS_PLAYBACK_STATE_PLAYING).playback.state o) :=
  operation_error_state oper_env_queue_fails
    (sample_world STASIS_PLAYBACK_STATE_PLAYING) 0 (Or.inr (by decide))

/-- Claim C4: STOP is idempotent.  From every state, after a first STOP
(whatever it returned and whatever the collaborators did), a second STOP
returns OK and changes nothing: the state is the same, nothing is published
and no control frame is enqueued (the whole world, trace included, is the one
the first STOP left). -/
theorem stop_twice_is_noop (e1 e2 : OperEnv) (w : World) :
    (stasis_app_playback_operation e2
        (stasis_app_playback_operation e1 w STASIS_PLAYBACK_STOP.code).2
        STASIS_PLAYBACK_STOP.code).1 = STASIS_PLAYBACK_OPER_OK ∧
      (stasis_app_playback_operation e2
        (stasis_app_playback_operation e1 w STASIS_PLAYBACK_STOP.code).2
        STASIS_PLAYBACK_STOP.code).2 =
        (stasis_app_playback_operation e1 w STASIS_PLAYBACK_STOP.code).2 ∧
      (stasis_app_playback_operation e2
        (stasis_app_playback_operation e1 w STASIS_PLAYBACK_STOP.code).2
        STASIS_PLAYBACK_STOP.code).2.playback.state =
        (stasis_app_playback_operation e1 w STASIS_PLAYBACK_STOP.code).2.playback.state ∧
      published (stasis_app_playback_operation e2
        (stasis_app_playback_operation e1 w STASIS_PLAYBACK_STOP.code).2
        STASIS_PLAYBACK_STOP.code).2.trace =
        published (stasis_app_playback_operation e1 w STASIS_PLAYBACK_STOP.code).2.trace ∧
      signals (stasis_app_playback_operation e2
        (stasis_app_playback_operation e1 w STASIS_PLAYBACK_STOP.code).2
        STASIS_PLAYBACK_STOP.code).2.trace =
        signals (stasis_app_playback_operation e1 w STASIS_PLAYBACK_STOP.code).2.trace := by
  have key : (stasis_app_playback_operation e2
        (stasis_app_playback_operation e1 w STASIS_PLAYBACK_STOP.code).2
        STASIS_PLAYBACK_STOP.code) = (STASIS_PLAYBACK_OPER_OK,
        (stasis_app_playback_operation e1 w STASIS_PLAYBACK_STOP.code).2) := by
    rw [operation_by_entry e1 w]
    obtain ⟨⟨id, media, language, target, offsetms, skipms, done, playedms, s⟩, reg, tr⟩ := w
    cases s <;>
      simp [operation_by_entry, operations, playback_noop, playback_cancel, playback_stop,
        stasis_app_control_queue_control, World.emit, World.set_state]
  rw [key]
  exact ⟨rfl, rfl, rfl, rfl, rfl⟩

/-- The label of the snapshot of a playback is the label of its state. -/
theorem snapshot_label_of (p : stasis_app_playback) :
    snapshot_label (snapshot_of p) = some (state_to_string p.state) := by
  simp [snapshot_label, snapshot_of, List.find?]

/-- The snapshots of a trace with one more event. -/
theorem published_emit (w : World) (ev : Event) :
    published (w.emit ev).trace = published w.trace ++ published [ev] := by
  simp [published, World.emit, List.filterMap_append]

/-- Counterexample to claim C5: with every collaborator succeeding, STOP on a
queued playback and STOP on a playing playback are accepted (OK) and change
the state, and no snapshot is published in the call. -/
theorem stop_publishes_nothing :
    ((stasis_app_playback_operation oper_env_ok
        (sample_world STASIS_PLAYBACK_STATE_QUEUED) STASIS_PLAYBACK_STOP.code).1 =
        STASIS_PLAYBACK_OPER_OK ∧
      (stasis_app_playback_operation oper_env_ok
        (sample_world STASIS_PLAYBACK_STATE_QUEUED)
        STASIS_PLAYBACK_STOP.code).2.playback.state = STASIS_PLAYBACK_STATE_CANCELED ∧
      published (stasis_app_playback_operation oper_env_ok
        (sample_world STASIS_PLAYBACK_STATE_QUEUED)
        STASIS_PLAYBACK_STOP.code).2.trace = []) ∧
    ((stasis_app_playback_operation oper_env_ok
        (sample_world STASIS_PLAYBACK_STATE_PLAYING) STASIS_PLAYBACK_STOP.code).1 =
        STASIS_PLAYBACK_OPER_OK ∧
      (stasis_app_playback_operation oper_env_ok
        (sample_world STASIS_PLAYBACK_STATE_PLAYING)
        STASIS_PLAYBACK_STOP.code).2.playback.state = STASIS_PLAYBACK_STATE_STOPPED ∧
      published (stasis_app_playback_operation oper_env_ok
        (sample_world STASIS_PLAYBACK_STATE_PLAYING)
        STASIS_PLAYBACK_STOP.code).2.trace = []) := by
  decide

/-- Claim C5, amended: of the control operations that change the state, PAUSE
in PLAYING and UNPAUSE in PAUSED publish one snapshot inside the call, carrying
the label of the new state, when the snapshot can be built; STOP in QUEUED, in
PLAYING and in PAUSED publishes nothing inside the call. -/
theorem state_changing_operation_publish (e : OperEnv) (w : World)
    (o : stasis_app_playback_media_operation)
    (h : spec_next_state w.playback.state o ≠ w.playback.state) :
    published (stasis_app_playback_operation e w o.code).2.trace =
        published w.trace ++
          (if o = STASIS_PLAYBACK_STOP then []
           else if e.pub.ok = true then
             [snapshot_of (stasis_app_playback_operation e w o.code).2.playback]
           else []) ∧
      (stasis_app_playback_operation e w o.code).2.playback.state =
        spec_next_state w.playback.state o ∧
      snapshot_label (snapshot_of (stasis_app_playback_operation e w o.code).2.playback) =
        some (state_to_string (spec_next_state w.playback.state o)) := by
  rw [snapshot_label_of, operation_by_entry]
  obtain ⟨⟨id, media, language, target, offsetms, skipms, done, playedms, s⟩, reg, tr⟩ := w
  by_cases hp : e.pub.ok = true <;> cases s <;> cases o <;>
    simp_all [operations, spec_next_state, playback_cancel, playback_stop,
      playback_pause, playback_unpause, stasis_app_control_queue_control,
      playback_publish_eq, World.emit, World.set_state, published,
      List.filterMap_append]

/-- Witness of the amended claim C5: PAUSE on a playing playback. -/
theorem state_changing_operation_publish_witness :
    published (stasis_app_playback_operation oper_env_ok
        (sample_world STASIS_PLAYBACK_STATE_PLAYING) STASIS_PLAYBACK_PAUSE.code).2.trace =
        published (sample_world STASIS_PLAYBACK_STATE_PLAYING).trace ++
          (if STASIS_PLAYBACK_PAUSE = STASIS_PLAYBACK_STOP then []
           else if oper_env_ok.pub.ok = true then
             [snapshot_of (stasis_app_playback_operation oper_env_ok
               (sample_world STASIS_PLAYBACK_STATE_PLAYING)
               STASIS_PLAYBACK_PAUSE.code).2.playback]
           else []) ∧
      (stasis_app_playback_operation oper_env_ok
        (sample_world STASIS_PLAYBACK_STATE_PLAYING)
        STASIS_PLAYBACK_PAUSE.code).2.playback.state =
        spec_next_state (sample_world STASIS_PLAYBACK_STATE_PLAYING).playback.state
          STASIS_PLAYBACK_PAUSE ∧
      snapshot_label (snapshot_of (stasis_app_playback_operation oper_env_ok
        (sample_world STASIS_PLAYBACK_STATE_PLAYING)
        STASIS_PLAYBACK_PAUSE.code).2.playback) =
        some (state_to_string
          (spec_next_state (sample_world STASIS_PLAYBACK_STATE_PLAYING).playback.state
            STASIS_PLAYBACK_PAUSE)) :=
  state_changing_operation_publish oper_env_ok
    (sample_world STASIS_PLAYBACK_STATE_PLAYING) STASIS_PLAYBACK_PAUSE (by decide)

/-! ## Execution -/

/-- Claim C6: cancellation before execution.  STOP on a queued playback returns
OK and leaves it CANCELED; play_on_channel on what STOP left makes no media
call (the trace gains a notice, the snapshot when it can be built, and the
write of done, nothing else), keeps the state CANCELED, the snapshot carries
the label done, and done is set. -/
theorem cancel_before_execution (e : OperEnv) (ex : ExecEnv) (w : World)
    (h : w.playback.state = STASIS_PLAYBACK_STATE_QUEUED) :
    (stasis_app_playback_operation e w STASIS_PLAYBACK_STOP.code).1 =
        STASIS_PLAYBACK_OPER_OK ∧
      (stasis_app_playback_operation e w STASIS_PLAYBACK_STOP.code).2.playback.state =
        STASIS_PLAYBACK_STATE_CANCELED ∧
      (play_on_channel ex
        (stasis_app_playback_operation e w STASIS_PLAYBACK_STOP.code).2).trace =
        w.trace ++
          [Event.log LOG_NOTICE
            (ex.uniqueid ++ ": Playback canceled for " ++ w.playback.media ++ "\n")] ++
          (if ex.first_pub.ok = true then
            [Event.publish (snapshot_of
              (stasis_app_playback_operation e w STASIS_PLAYBACK_STOP.code).2.playback)]
           else []) ++
          [Event.set_done] ∧
      snapshot_label (snapshot_of
        (stasis_app_playback_operation e w STASIS_PLAYBACK_STOP.code).2.playback) =
        some "done" ∧
      media_calls (play_on_channel ex
        (stasis_app_playback_operation e w STASIS_PLAYBACK_STOP.code).2).trace =
        media_calls w.trace ∧
      (play_on_channel ex
        (stasis_app_playback_operation e w STASIS_PLAYBACK_STOP.code).2).playback.state =
        STASIS_PLAYBACK_STATE_CANCELED ∧
      (play_on_channel ex
        (stasis_app_playback_operation e w STASIS_PLAYBACK_STOP.code).2).playback.done =
        1 := by
  have key : stasis_app_playback_operation e w STASIS_PLAYBACK_STOP.code =
      (STASIS_PLAYBACK_OPER_OK, w.set_state STASIS_PLAYBACK_STATE_CANCELED) := by
    rw [operation_by_entry, h]
    simp [operations, playback_cancel]
  rw [key, snapshot_label_of]
  by_cases hp : ex.first_pub.ok = true <;>
    simp [play_on_channel, play_on_channel_body, playback_first_update, mark_as_done,
      playback_publish_eq, World.emit, World.set_state, hp, media_calls,
      List.filterMap_append, state_to_string]

/-- Witness of claim C6: the sample playback, queued. -/
theorem cancel_before_execution_witness :
    (stasis_app_playback_operation oper_env_ok
        (sample_world STASIS_PLAYBACK_STATE_QUEUED) STASIS_PLAYBACK_STOP.code).1 =
        STASIS_PLAYBACK_OPER_OK ∧
      media_calls (play_on_channel sample_exec
        (stasis_app_playback_operation oper_env_ok
          (sample_world STASIS_PLAYBACK_STATE_QUEUED)
          STASIS_PLAYBACK_STOP.code).2).trace =
        media_calls (sample_world STASIS_PLAYBACK_STATE_QUEUED).trace ∧
      (play_on_channel sample_exec
        (stasis_app_playback_operation oper_env_ok
          (sample_world STASIS_PLAYBACK_STATE_QUEUED)
          STASIS_PLAYBACK_STOP.code).2).playback.state =
        STASIS_PLAYBACK_STATE_CANCELED ∧
      (play_on_channel sample_exec
        (stasis_app_playback_operation oper_env_ok
          (sample_world STASIS_PLAYBACK_STATE_QUEUED)
          STASIS_PLAYBACK_STOP.code).2).playback.done = 1 :=
  have h := cancel_before_execution oper_env_ok sample_exec
    (sample_world STASIS_PLAYBACK_STATE_QUEUED) rfl
  ⟨h.1, h.2.2.2.2.1, h.2.2.2.2.2.1, h.2.2.2.2.2.2⟩

/-- Claim C7: the final-state rule of playback_final_update.  For every prior
state and media result the state becomes COMPLETE when the media call reports
success (res = 0); otherwise it is STOPPED, whether it already was (it stays)
or not (it is forced).  So the state afterwards is COMPLETE or STOPPED, and the
snapshot the update publishes (one, when it can be built) carries the label
done. -/
theorem final_update_rule (e : PublishEnv) (w : World) (playedms res : Int)
    (uniqueid : String) :
    (playback_final_update e w playedms res uniqueid).playback.state =
        (if res = 0 then STASIS_PLAYBACK_STATE_COMPLETE
         else if w.playback.state = STASIS_PLAYBACK_STATE_STOPPED then w.playback.state
         else STASIS_PLAYBACK_STATE_STOPPED) ∧
      ((playback_final_update e w playedms res uniqueid).playback.state =
          STASIS_PLAYBACK_STATE_COMPLETE ∨
        (playback_final_update e w playedms res uniqueid).playback.state =
          STASIS_PLAYBACK_STATE_STOPPED) ∧
      published (playback_final_update e w playedms res uniqueid).trace =
        published w.trace ++
          (if e.ok = true then
            [snapshot_of (playback_final_update e w playedms res uniqueid).playback]
           else []) ∧
      snapshot_label
        (snapshot_of (playback_final_update e w playedms res uniqueid).playback) =
        some "done" := by
  rw [snapshot_label_of]
  obtain ⟨⟨id, media, language, target, offsetms, skipms, done, playedms0, s⟩, reg, tr⟩ := w
  by_cases hp : e.ok = true <;> by_cases hr : res = 0 <;> cases s <;>
    simp [playback_final_update, playback_publish_eq, World.emit, World.set_state,
      hp, hr, published, List.filterMap_append, state_to_string]

/-- A control operation is a control step. -/
theorem operation_control_step (e : OperEnv) (w : World) (operation : Int) :
    control_step w (stasis_app_playback_operation e w operation).2 := by
  by_cases hr : operation < 0 ∨ operation ≥ STASIS_PLAYBACK_MEDIA_OP_MAX
  · rw [operation_out_of_range e w operation hr]
    simp [control_step, World.emit, control_event]
  · obtain ⟨o, rfl⟩ := code_of_in_range operation hr
    rw [operation_by_entry]
    obtain ⟨⟨id, media, language, target, offsetms, skipms, done, playedms, s⟩, reg, tr⟩ := w
    by_cases hp : e.pub.ok = true <;> cases s <;> cases o <;>
      simp [control_step, operations, playback_noop, playback_cancel, playback_stop,
        playback_restart, playback_pause, playback_unpause, playback_reverse,
        playback_forward, stasis_app_control_queue_control, playback_publish_eq,
        World.emit, World.set_state, control_event, hp]

/-- Control steps compose. -/
theorem control_step_trans (w1 w2 w3 : World) (h12 : control_step w1 w2)
    (h23 : control_step w2 w3) : control_step w1 w3 := by
  obtain ⟨a1, b1, t1, c1, d1⟩ := h12
  obtain ⟨a2, b2, t2, c2, d2⟩ := h23
  refine ⟨a2.trans a1, ?_, t1 ++ t2, ?_, ?_⟩
  · rw [b2, b1]
  · rw [c2, c1, List.append_assoc]
  · intro ev hev
    rcases List.mem_append.mp hev with h | h
    · exact d1 ev h
    · exact d2 ev h

/-- A sequence of control operations is a control step. -/
theorem run_operations_control_step (ops : List (OperEnv × Int)) (w : World) :
    control_step w (run_operations ops w) := by
  induction ops generalizing w with
  | nil => simp [run_operations, control_step]
  | cons c rest ih =>
    have h1 := operation_control_step c.1 w c.2
    have h2 := ih (stasis_app_playback_operation c.1 w c.2).2
    exact control_step_trans _ _ _ h1 h2

/-- No media call is made in the events of a control step. -/
theorem control_step_media_calls (w w' : World) (h : control_step w w') :
    media_calls w'.trace = media_calls w.trace := by
  obtain ⟨_, _, t, ht, hev⟩ := h
  have h0 : media_calls t = [] := by
    unfold media_calls
    rw [List.filterMap_eq_nil_iff]
    intro ev hmem
    have := hev ev hmem
    cases ev <;> simp_all [control_event]
  rw [ht]
  unfold media_calls at h0 ⊢
  rw [List.filterMap_append, h0, List.append_nil]

/-- The body of play_on_channel, by the file the media reference resolves
to. -/
theorem play_on_channel_body_eq (e : ExecEnv) (w : World) :
    play_on_channel_body e w =
      if w.playback.state = STASIS_PLAYBACK_STATE_CANCELED then
        (playback_first_update e.first_pub w e.uniqueid).2
      else
        match media_file e w.playback.media with
        | some f =>
          play_file e
            (if e.chan_up = true then (playback_first_update e.first_pub w e.uniqueid).2
             else (playback_first_update e.first_pub w e.uniqueid).2.emit Event.answer)
            w.playback.offsetms (some f)
        | none =>
          if ast_begins_with w.playback.media SOUND_URI_SCHEME = true ∨
              ast_begins_with w.playback.media RECORDING_URI_SCHEME = true then
            (if e.chan_up = true then (playback_first_update e.first_pub w e.uniqueid).2
             else (playback_first_update e.first_pub w e.uniqueid).2.emit Event.answer)
          else
            (if e.chan_up = true then (playback_first_update e.first_pub w e.uniqueid).2
             else (playback_first_update e.first_pub w e.uniqueid).2.emit
               Event.answer).emit (Event.log LOG_ERROR "Unimplemented\n") := by
  obtain ⟨⟨id, media, language, target, offsetms, skipms, done, playedms, s⟩, reg, tr⟩ := w
  by_cases hc : s = STASIS_PLAYBACK_STATE_CANCELED
  · simp [play_on_channel_body, playback_first_update, hc]
  · by_cases hp : e.first_pub.ok = true <;> by_cases hu : e.chan_up = true <;>
      by_cases hs : ast_begins_with media SOUND_URI_SCHEME = true <;>
      by_cases hrec : ast_begins_with media RECORDING_URI_SCHEME = true <;>
      by_cases hd : e.strdup_ok = true <;>
      cases hf : e.recording_file (str_after media RECORDING_URI_SCHEME.length) <;>
      simp [play_on_channel_body, playback_first_update, media_file, hc, hp, hu, hs,
        hrec, hd, hf, playback_publish_eq, World.emit, World.set_state, ast_strdup,
        play_file]

/-- The state the final update leaves. -/
theorem playback_final_update_state (e : PublishEnv) (w : World) (playedms res : Int)
    (uniqueid : String) :
    (playback_final_update e w playedms res uniqueid).playback.state =
      if res = 0 then STASIS_PLAYBACK_STATE_COMPLETE
      else STASIS_PLAYBACK_STATE_STOPPED := by
  obtain ⟨⟨id, media, language, target, offsetms, skipms, done, playedms0, s⟩, reg, tr⟩ := w
  by_cases hp : e.ok = true <;> by_cases hr : res = 0 <;> cases s <;>
    simp [playback_final_update, playback_publish_eq, World.emit, World.set_state, hp, hr]

/-- The state an execution on the channel ends in. -/
theorem play_on_channel_state (e : ExecEnv) (w : World) :
    (play_on_channel e w).playback.state = final_state e w := by
  have hm : ∀ v : World, (mark_as_done v).playback.state = v.playback.state := by
    intro v
    simp [mark_as_done, World.emit]
  rw [play_on_channel, hm, play_on_channel_body_eq, final_state]
  by_cases hc : w.playback.state = STASIS_PLAYBACK_STATE_CANCELED
  · by_cases hp : e.first_pub.ok = true <;>
      simp [hc, playback_first_update, playback_publish_eq, World.emit, hp]
  · rw [if_neg hc, if_neg hc]
    cases hf : media_file e w.playback.media with
    | some f => simp [play_file, playback_final_update_state]
    | none =>
      by_cases hp : e.first_pub.ok = true <;> by_cases hu : e.chan_up = true <;>
        by_cases hs : (ast_begins_with w.playback.media SOUND_URI_SCHEME = true ∨
          ast_begins_with w.playback.media RECORDING_URI_SCHEME = true) <;>
        simp [hc, hs, playback_first_update, playback_publish_eq, World.emit,
          World.set_state, hp, hu]

/-- What a returning play_uri did, for a playback not yet done and with a
control handle: the execution on the channel, directly or after queueing it on
the bridge, then the removal from the container. -/
theorem play_uri_returns (pe : PlayUriEnv) (w w' : World)
    (hc : pe.control_present = true) (hd : w.playback.done = 0)
    (h : play_uri pe w = some w') :
    ∃ w1, (w1 = w ∨ w1 = w.emit (Event.queue_playfile w.playback.id)) ∧
      w' = remove_from_playbacks (play_on_channel pe.exec w1) := by
  unfold play_uri at h
  simp only [hc, not_true_eq_false, if_false] at h
  cases hb : pe.bridge with
  | none =>
    rw [hb] at h
    exact ⟨w, Or.inl rfl, (Option.some.inj h).symm⟩
  | some b =>
    rw [hb] at h
    by_cases hfound : b.bridge_chan_found = true <;>
      by_cases hq : b.queue_playfile_res = 0 <;>
      simp [hfound, hq, hd, World.emit] at h
    unfold play_on_channel_in_bridge at h
    cases hfind : stasis_app_playback_find_by_id
        { playback := w.playback, playbacks := w.playbacks,
          trace := w.trace ++ [Event.queue_playfile w.playback.id] } w.playback.id with
    | none => simp [hfind, World.emit, hd] at h
    | some x =>
      simp [hfind] at h
      exact ⟨_, Or.inr rfl, h.2.symm⟩

/-- Counterexample to claim C8: an execution on a media reference that does not
resolve (a recording that is not stored, a scheme that is neither sound nor
recording) ends with the state PLAYING, which is not terminal, on the channel
and through play_uri alike; and an execution of play_uri without a control
handle leaves a queued playback QUEUED. -/
theorem unresolvable_media_ends_playing :
    (play_on_channel sample_exec
        (sample_world_media "recording:missing"
          STASIS_PLAYBACK_STATE_QUEUED)).playback.state =
        STASIS_PLAYBACK_STATE_PLAYING ∧
      (play_on_channel sample_exec
        (sample_world_media "http://example.org/a.wav"
          STASIS_PLAYBACK_STATE_QUEUED)).playback.state =
        STASIS_PLAYBACK_STATE_PLAYING ∧
      (play_uri sample_play_uri
        (sample_world_media "http://example.org/a.wav"
          STASIS_PLAYBACK_STATE_QUEUED)).map (fun v => v.playback.state) =
        some STASIS_PLAYBACK_STATE_PLAYING ∧
      (play_uri sample_play_uri_no_control
        (sample_world STASIS_PLAYBACK_STATE_QUEUED)).map (fun v => v.playback.state) =
        some STASIS_PLAYBACK_STATE_QUEUED ∧
      is_terminal STASIS_PLAYBACK_STATE_PLAYING = false ∧
      is_terminal STASIS_PLAYBACK_STATE_QUEUED = false := by
  decide

/-- Claim C8, amended: every execution on the channel of a playback that was
canceled before the start, or whose media reference resolves to a file, ends
in a terminal state: CANCELED in the first case, COMPLETE or STOPPED (by the
result of the media call) in the second, on the cancellation and the media
failure paths included.  The same holds for play_uri, directly on the channel
and whenever it returns for a playback with a control handle that was not yet
done. -/
theorem execution_final_state (e : ExecEnv) (w : World)
    (hm : w.playback.state = STASIS_PLAYBACK_STATE_CANCELED ∨
      (media_file e w.playback.media).isSome = true) :
    is_terminal (play_on_channel e w).playback.state = true ∧
      (play_on_channel e w).playback.state =
        (if w.playback.state = STASIS_PLAYBACK_STATE_CANCELED then
          STASIS_PLAYBACK_STATE_CANCELED
         else if e.stream_res = 0 then STASIS_PLAYBACK_STATE_COMPLETE
         else STASIS_PLAYBACK_STATE_STOPPED) ∧
      (play_uri { control_present := true, bridge := none, exec := e } w).map
        (fun v => is_terminal v.playback.state) = some true ∧
      ∀ (pe : PlayUriEnv) (w' : World), pe.exec = e → pe.control_present = true →
        w.playback.done = 0 → play_uri pe w = some w' →
        is_terminal w'.playback.state = true := by
  have hfs : final_state e w =
      (if w.playback.state = STASIS_PLAYBACK_STATE_CANCELED then
        STASIS_PLAYBACK_STATE_CANCELED
       else if e.stream_res = 0 then STASIS_PLAYBACK_STATE_COMPLETE
       else STASIS_PLAYBACK_STATE_STOPPED) := by
    unfold final_state
    by_cases hc : w.playback.state = STASIS_PLAYBACK_STATE_CANCELED
    · simp [hc]
    · cases hf : media_file e w.playback.media with
      | none => simp [hc, hf] at hm
      | some f => simp [hc]
  have hterm : is_terminal (final_state e w) = true := by
    rw [hfs]
    unfold is_terminal
    split_ifs <;> simp
  refine ⟨?_, ?_, ?_, ?_⟩
  · rw [play_on_channel_state]
    exact hterm
  · rw [play_on_channel_state]
    exact hfs
  · simp [play_uri, remove_from_playbacks, World.emit, play_on_channel_state, hterm]
  · intro pe w' he hc hd hr
    obtain ⟨w1, hw1, rfl⟩ := play_uri_returns pe w w' hc hd hr
    have hs : (remove_from_playbacks (play_on_channel pe.exec w1)).playback.state =
        final_state pe.exec w1 := by
      simp [remove_from_playbacks, World.emit, play_on_channel_state]
    rw [hs, he]
    rcases hw1 with rfl | rfl
    · exact hterm
    · exact hterm

/-- Witness of the amended claim C8: the sample playback, queued, whose media
reference resolves to the file hello. -/
theorem execution_final_state_witness :
    is_terminal (play_on_channel sample_exec
        (sample_world STASIS_PLAYBACK_STATE_QUEUED)).playback.state = true ∧
      (play_on_channel sample_exec
        (sample_world STASIS_PLAYBACK_STATE_QUEUED)).playback.state =
        STASIS_PLAYBACK_STATE_COMPLETE :=
  have h := execution_final_state sample_exec
    (sample_world STASIS_PLAYBACK_STATE_QUEUED) (Or.inr (by decide))
  ⟨h.1, h.2.1⟩

/-- The media calls of a trace with one more event. -/
theorem media_calls_emit (w : World) (ev : Event) :
    media_calls (w.emit ev).trace = media_calls w.trace ++ media_calls [ev] := by
  simp [media_calls, World.emit, List.filterMap_append]

/-- The media calls of a trace are not changed by the first update. -/
theorem first_update_media_calls (e : PublishEnv) (w : World) (uniqueid : String) :
    media_calls (playback_first_update e w uniqueid).2.trace = media_calls w.trace := by
  by_cases hc : w.playback.state = STASIS_PLAYBACK_STATE_CANCELED <;>
    by_cases hp : e.ok = true <;>
    simp [playback_first_update, playback_publish_eq, World.emit, World.set_state, hc,
      hp, media_calls, List.filterMap_append]

/-- The media calls of a trace are not changed by the final update. -/
theorem final_update_media_calls (e : PublishEnv) (w : World) (playedms res : Int)
    (uniqueid : String) :
    media_calls (playback_final_update e w playedms res uniqueid).trace =
      media_calls w.trace := by
  by_cases hs : w.playback.state = STASIS_PLAYBACK_STATE_STOPPED <;>
    by_cases hp : e.ok = true <;> by_cases hr : res = 0 <;>
    simp [playback_final_update, playback_publish_eq, World.emit, World.set_state, hs,
      hp, hr, media_calls, List.filterMap_append]

/-- The media calls of an execution on the channel: one, of the file the
media reference resolves to, unless the playback was canceled before the start
or the reference does not resolve. -/
theorem play_on_channel_media_calls (e : ExecEnv) (w : World) :
    media_calls (play_on_channel e w).trace =
      media_calls w.trace ++
        (if w.playback.state = STASIS_PLAYBACK_STATE_CANCELED then []
         else (media_file e w.playback.media).toList) := by
  have hm : ∀ v : World, media_calls (mark_as_done v).trace = media_calls v.trace := by
    intro v
    simp [mark_as_done, World.emit, media_calls, List.filterMap_append]
  have ha : ∀ v : World, media_calls (if e.chan_up = true then v
      else v.emit Event.answer).trace = media_calls v.trace := by
    intro v
    by_cases hu : e.chan_up = true <;>
      simp [hu, World.emit, media_calls, List.filterMap_append]
  rw [play_on_channel, hm, play_on_channel_body_eq]
  by_cases hc : w.playback.state = STASIS_PLAYBACK_STATE_CANCELED
  · rw [if_pos hc, if_pos hc, first_update_media_calls, List.append_nil]
  · rw [if_neg hc, if_neg hc]
    cases hf : media_file e w.playback.media with
    | some f =>
      simp only [play_file, Option.toList]
      rw [final_update_media_calls,
        control_step_media_calls _ _ (run_operations_control_step e.during_media _),
        media_calls_emit, ha, first_update_media_calls]
      rfl
    | none =>
      simp only [Option.toList, List.append_nil]
      by_cases hs : (ast_begins_with w.playback.media SOUND_URI_SCHEME = true ∨
          ast_begins_with w.playback.media RECORDING_URI_SCHEME = true)
      · rw [if_pos hs, ha, first_update_media_calls]
      · rw [if_neg hs, media_calls_emit, ha, first_update_media_calls]
        simp [media_calls]

/-- What a returning play_uri did, in general: possibly the queueing on the
bridge, possibly the execution on the channel, then the removal. -/
theorem play_uri_shape (pe : PlayUriEnv) (w w' : World) (h : play_uri pe w = some w') :
    ∃ w1, (w1 = w ∨ w1 = w.emit (Event.queue_playfile w.playback.id)) ∧
      (w' = remove_from_playbacks w1 ∨
        w' = remove_from_playbacks (play_on_channel pe.exec w1)) := by
  by_cases hc : pe.control_present = true
  · by_cases hd : w.playback.done = 0
    · obtain ⟨w1, h1, h2⟩ := play_uri_returns pe w w' hc hd h
      exact ⟨w1, h1, Or.inr h2⟩
    · unfold play_uri at h
      simp only [hc, not_true_eq_false, if_false] at h
      cases hb : pe.bridge with
      | none =>
        rw [hb] at h
        exact ⟨w, Or.inl rfl, Or.inr (Option.some.inj h).symm⟩
      | some b =>
        rw [hb] at h
        by_cases hfound : b.bridge_chan_found = true
        · simp [hfound, hd, World.emit] at h
          exact ⟨_, Or.inr rfl, Or.inl h.symm⟩
        · simp [hfound, hd] at h
          exact ⟨_, Or.inl rfl, Or.inl h.symm⟩
  · unfold play_uri at h
    simp [hc] at h
    exact ⟨w, Or.inl rfl, Or.inl h.symm⟩

/-- Counterexample to claim C10: for a playback that is not canceled, an
execution on a media reference that does not resolve makes no media call, on
the channel and through play_uri alike. -/
theorem unresolvable_media_no_media_call :
    (sample_world_media "http://example.org/a.wav"
        STASIS_PLAYBACK_STATE_QUEUED).playback.state ≠ STASIS_PLAYBACK_STATE_CANCELED ∧
      media_calls (play_on_channel sample_exec
        (sample_world_media "http://example.org/a.wav"
          STASIS_PLAYBACK_STATE_QUEUED)).trace = [] ∧
      media_calls (play_on_channel sample_exec
        (sample_world_media "recording:missing"
          STASIS_PLAYBACK_STATE_QUEUED)).trace = [] ∧
      (play_uri sample_play_uri
        (sample_world_media "http://example.org/a.wav"
          STASIS_PLAYBACK_STATE_QUEUED)).map (fun v => media_calls v.trace) =
        some [] := by
  decide

/-- Claim C10, amended: whatever control operations are issued before and
during it, an execution on the channel makes the media call at most once:
exactly once, on the file the media reference resolves to, when the playback
is not CANCELED at the start and the reference resolves; zero times when the
playback was canceled before the start or the reference does not resolve.
Every returning play_uri makes it at most once as well. -/
theorem media_call_at_most_once (e : ExecEnv) (w : World) :
    media_calls (play_on_channel e w).trace =
        media_calls w.trace ++
          (if w.playback.state = STASIS_PLAYBACK_STATE_CANCELED then []
           else (media_file e w.playback.media).toList) ∧
      (media_calls (play_on_channel e w).trace).length ≤
        (media_calls w.trace).length + 1 ∧
      ((media_calls (play_on_channel e w).trace).length =
          (media_calls w.trace).length + 1 ↔
        (w.playback.state ≠ STASIS_PLAYBACK_STATE_CANCELED ∧
          (media_file e w.playback.media).isSome = true)) ∧
      ∀ (pe : PlayUriEnv) (w' : World), pe.exec = e → play_uri pe w = some w' →
        (media_calls w'.trace).length ≤ (media_calls w.trace).length + 1 := by
  have hlen : ∀ v : World, (media_calls (play_on_channel e v).trace).length =
      (media_calls v.trace).length +
        (if v.playback.state = STASIS_PLAYBACK_STATE_CANCELED then 0
         else if (media_file e v.playback.media).isSome = true then 1 else 0) := by
    intro v
    rw [play_on_channel_media_calls, List.length_append]
    by_cases hc : v.playback.state = STASIS_PLAYBACK_STATE_CANCELED
    · simp [hc]
    · cases hf : media_file e v.playback.media <;> simp [hc]
  have hle : ∀ v : World, (media_calls (play_on_channel e v).trace).length ≤
      (media_calls v.trace).length + 1 := by
    intro v
    rw [hlen v]
    split_ifs <;> omega
  refine ⟨play_on_channel_media_calls e w, hle w, ?_, ?_⟩
  · rw [hlen w]
    by_cases hc : w.playback.state = STASIS_PLAYBACK_STATE_CANCELED
    · simp [hc]
    · cases hf : media_file e w.playback.media <;> simp [hc]
  · intro pe w' he hr
    obtain ⟨w1, hw1, hw'⟩ := play_uri_shape pe w w' hr
    have hrm : ∀ v : World, media_calls (remove_from_playbacks v).trace =
        media_calls v.trace := by
      intro v
      simp [remove_from_playbacks, World.emit, media_calls, List.filterMap_append]
    have h1 : media_calls w1.trace = media_calls w.trace := by
      rcases hw1 with rfl | rfl
      · rfl
      · simp [World.emit, media_calls, List.filterMap_append]
    rcases hw' with rfl | rfl
    · rw [hrm, h1]
      omega
    · rw [hrm, he, ← h1]
      exact hle w1

/-- The first update only appends to the trace and keeps the id. -/
theorem first_update_trace (e : PublishEnv) (w : World) (uniqueid : String) :
    (playback_first_update e w uniqueid).2.playback.id = w.playback.id ∧
      ∃ pre, (playback_first_update e w uniqueid).2.trace = w.trace ++ pre := by
  by_cases hc : w.playback.state = STASIS_PLAYBACK_STATE_CANCELED <;>
    by_cases hp : e.ok = true <;>
    simp [playback_first_update, playback_publish_eq, World.emit, World.set_state, hc, hp]

/-- The final update keeps the id and, when its snapshot can be built, ends
the trace with the publish of a snapshot labelled done. -/
theorem final_update_trace_end (e : PublishEnv) (w : World) (playedms res : Int)
    (uniqueid : String) :
    (playback_final_update e w playedms res uniqueid).playback.id = w.playback.id ∧
      (e.ok = true → ∃ pre j,
        (playback_final_update e w playedms res uniqueid).trace =
          w.trace ++ pre ++ [Event.publish j] ∧ snapshot_label j = some "done") := by
  refine ⟨?_, ?_⟩
  · by_cases hs : w.playback.state = STASIS_PLAYBACK_STATE_STOPPED <;>
      by_cases hp : e.ok = true <;> by_cases hr : res = 0 <;>
      simp [playback_final_update, playback_publish_eq, World.emit, World.set_state, hs,
        hp, hr]
  · intro hp
    by_cases hr : res = 0
    · refine ⟨[], snapshot_of
        { w.playback with playedms := playedms, state := STASIS_PLAYBACK_STATE_COMPLETE },
        ?_, ?_⟩
      · simp [playback_final_update, playback_publish_eq, World.emit, World.set_state,
          hp, hr]
      · rw [snapshot_label_of]
        rfl
    · by_cases hs : w.playback.state = STASIS_PLAYBACK_STATE_STOPPED
      · refine ⟨[Event.log LOG_NOTICE
            (uniqueid ++ ": Playback stopped for " ++ w.playback.media ++ "\n")],
          snapshot_of { w.playback with playedms := playedms }, ?_, ?_⟩
        · simp [playback_final_update, playback_publish_eq, World.emit, World.set_state,
            hp, hr, hs]
        · rw [snapshot_label_of]
          simp [hs, state_to_string]
      · refine ⟨[Event.log LOG_WARNING
            (uniqueid ++ ": Playback failed for " ++ w.playback.media ++ "\n")],
          snapshot_of
            { w.playback with playedms := playedms,
                              state := STASIS_PLAYBACK_STATE_STOPPED }, ?_, ?_⟩
        · simp [playback_final_update, playback_publish_eq, World.emit, World.set_state,
            hp, hr, hs]
        · rw [snapshot_label_of]
          rfl

/-- An execution on the channel keeps the id of the playback. -/
theorem play_on_channel_id (e : ExecEnv) (w : World) :
    (play_on_channel e w).playback.id = w.playback.id := by
  have hm : ∀ v : World, (mark_as_done v).playback.id = v.playback.id := by
    intro v
    simp [mark_as_done, World.emit]
  have ha : ∀ v : World, (if e.chan_up = true then v
      else v.emit Event.answer).playback.id = v.playback.id := by
    intro v
    by_cases hu : e.chan_up = true <;> simp [hu, World.emit]
  rw [play_on_channel, hm, play_on_channel_body_eq]
  by_cases hc : w.playback.state = STASIS_PLAYBACK_STATE_CANCELED
  · rw [if_pos hc]
    exact (first_update_trace _ _ _).1
  · rw [if_neg hc]
    cases hf : media_file e w.playback.media with
    | some f =>
      simp only [play_file]
      rw [(final_update_trace_end _ _ _ _ _).1]
      have hstep := run_operations_control_step e.during_media
        ((if e.chan_up = true then (playback_first_update e.first_pub w e.uniqueid).2
          else (playback_first_update e.first_pub w e.uniqueid).2.emit Event.answer).emit
          (Event.streamfile f
            (if e.chan_up = true then (playback_first_update e.first_pub w e.uniqueid).2
              else (playback_first_update e.first_pub w e.uniqueid).2.emit
                Event.answer).playback.skipms
            (if e.chan_up = true then (playback_first_update e.first_pub w e.uniqueid).2
              else (playback_first_update e.first_pub w e.uniqueid).2.emit
                Event.answer).playback.language
            w.playback.offsetms))
      rw [hstep.2.1]
      show (World.emit _ _).playback.id = _
      rw [show ∀ (v : World) (ev : Event), (v.emit ev).playback.id = v.playback.id from
        fun v ev => rfl, ha]
      exact (first_update_trace _ _ _).1
    | none =>
      by_cases hs : (ast_begins_with w.playback.media SOUND_URI_SCHEME = true ∨
          ast_begins_with w.playback.media RECORDING_URI_SCHEME = true)
      · simp only [if_pos hs]
        rw [ha]
        exact (first_update_trace _ _ _).1
      · simp only [if_neg hs]
        rw [show ∀ (v : World) (ev : Event), (v.emit ev).playback.id = v.playback.id from
          fun v ev => rfl, ha]
        exact (first_update_trace _ _ _).1

/-- An execution on the channel of a playback that was canceled before the
start, or whose media reference resolves, ends its trace, when the last
snapshot can be built, with the publish of a snapshot labelled done followed by
the write of done. -/
theorem play_on_channel_trace_end (e : ExecEnv) (w : World)
    (hm : w.playback.state = STASIS_PLAYBACK_STATE_CANCELED ∨
      (media_file e w.playback.media).isSome = true)
    (hp : final_snapshot_built e w = true) :
    ∃ pre j, (play_on_channel e w).trace =
        w.trace ++ pre ++ [Event.publish j, Event.set_done] ∧
      snapshot_label j = some "done" := by
  have hmark : ∀ v : World, (mark_as_done v).trace = v.trace ++ [Event.set_done] := by
    intro v
    simp [mark_as_done, World.emit]
  rw [play_on_channel, hmark, play_on_channel_body_eq]
  by_cases hc : w.playback.state = STASIS_PLAYBACK_STATE_CANCELED
  · have hp1 : e.first_pub.ok = true := by simpa [final_snapshot_built, hc] using hp
    refine ⟨[Event.log LOG_NOTICE
        (e.uniqueid ++ ": Playback canceled for " ++ w.playback.media ++ "\n")],
      snapshot_of w.playback, ?_, ?_⟩
    · simp [hc, playback_first_update, playback_publish_eq, World.emit, hp1]
    · rw [snapshot_label_of, hc]
      rfl
  · have hp2 : e.final_pub.ok = true := by simpa [final_snapshot_built, hc] using hp
    rw [if_neg hc]
    cases hf : media_file e w.playback.media with
    | none => simp [hc, hf] at hm
    | some f =>
      simp only [play_file]
      obtain ⟨pre0, h0⟩ := (first_update_trace e.first_pub w e.uniqueid).2
      have ha : ∃ a, (if e.chan_up = true then
          (playback_first_update e.first_pub w e.uniqueid).2
          else (playback_first_update e.first_pub w e.uniqueid).2.emit Event.answer).trace =
          (playback_first_update e.first_pub w e.uniqueid).2.trace ++ a := by
        by_cases hu : e.chan_up = true
        · exact ⟨[], by simp [hu]⟩
        · exact ⟨[Event.answer], by simp [hu, World.emit]⟩
      obtain ⟨a, ha⟩ := ha
      generalize Event.streamfile f _ _ _ = ev
      obtain ⟨_, _, t, ht, _⟩ := run_operations_control_step e.during_media
        ((if e.chan_up = true then (playback_first_update e.first_pub w e.uniqueid).2
          else (playback_first_update e.first_pub w e.uniqueid).2.emit Event.answer).emit
          ev)
      obtain ⟨pre, j, hfin, hj⟩ := (final_update_trace_end e.final_pub _ e.stream_offsetms
        e.stream_res e.uniqueid).2 hp2
      rw [hfin, ht]
      rw [show ∀ (v : World) (x : Event), (v.emit x).trace = v.trace ++ [x] from
        fun v x => rfl, ha, h0]
      exact ⟨pre0 ++ (a ++ (ev :: (t ++ pre))), j, by simp, hj⟩

/-- Counterexample to claim C9: an execution of play_uri without a control
handle only removes the playback (no publish and no write of done occur, so
the three events do not occur in order); and with a control handle, on a media
reference with an unimplemented scheme, the only snapshot published is the one
labelled playing, so no final snapshot precedes the write of done. -/
theorem execution_without_final_publish :
    (play_uri sample_play_uri_no_control
        (sample_world STASIS_PLAYBACK_STATE_QUEUED)).map (fun v => v.trace) =
        some [Event.unlink "pb-1"] ∧
      (play_uri sample_play_uri_no_control
        (sample_world STASIS_PLAYBACK_STATE_QUEUED)).map
        (fun v => occurs_in_order [is_publish, is_set_done, is_unlink] v.trace) =
        some false ∧
      (play_uri sample_play_uri
        (sample_world_media "http://example.org/a.wav"
          STASIS_PLAYBACK_STATE_QUEUED)).map
        (fun v => (published v.trace).map snapshot_label) = some [some "playing"] := by
  decide

/-- Claim C9, amended: every execution of play_uri that returns, with a control
handle, for a playback not yet done that was canceled before the start or
whose media reference resolves to a file, and whose last snapshot can be
built, ends with exactly these three events, in this order: the publish of a
snapshot labelled done, the write done = 1, the removal of the playback from
the registry. -/
theorem execution_ends_publish_done_unlink (pe : PlayUriEnv) (w w' : World)
    (hc : pe.control_present = true) (hd : w.playback.done = 0)
    (hm : w.playback.state = STASIS_PLAYBACK_STATE_CANCELED ∨
      (media_file pe.exec w.playback.media).isSome = true)
    (hp : final_snapshot_built pe.exec w = true)
    (hr : play_uri pe w = some w') :
    ∃ pre j, w'.trace =
        w.trace ++ pre ++
          [Event.publish j, Event.set_done, Event.unlink w.playback.id] ∧
      snapshot_label j = some "done" ∧
      occurs_in_order [is_publish, is_set_done, is_unlink]
        [Event.publish j, Event.set_done, Event.unlink w.playback.id] = true := by
  obtain ⟨w1, hw1, rfl⟩ := play_uri_returns pe w w' hc hd hr
  have hrm : ∀ v : World, (remove_from_playbacks v).trace =
      v.trace ++ [Event.unlink v.playback.id] := by
    intro v
    simp [remove_from_playbacks, World.emit]
  rw [hrm, play_on_channel_id]
  rcases hw1 with rfl | rfl
  · obtain ⟨pre, j, ht, hj⟩ := play_on_channel_trace_end pe.exec w1 hm hp
    refine ⟨pre, j, ?_, hj, rfl⟩
    rw [ht]
    simp
  · obtain ⟨pre, j, ht, hj⟩ := play_on_channel_trace_end pe.exec
      (w.emit (Event.queue_playfile w.playback.id)) hm hp
    refine ⟨Event.queue_playfile w.playback.id :: pre, j, ?_, hj, rfl⟩
    rw [ht]
    simp [World.emit]

/-- Witness of the amended claim C9: the sample playback, queued, played to the
end on a channel that is in no bridge. -/
theorem execution_ends_publish_done_unlink_witness :
    ∃ pre j, (remove_from_playbacks (play_on_channel sample_exec
        (sample_world STASIS_PLAYBACK_STATE_QUEUED))).trace =
        (sample_world STASIS_PLAYBACK_STATE_QUEUED).trace ++ pre ++
          [Event.publish j, Event.set_done,
            Event.unlink (sample_world STASIS_PLAYBACK_STATE_QUEUED).playback.id] ∧
      snapshot_label j = some "done" ∧
      occurs_in_order [is_publish, is_set_done, is_unlink]
        [Event.publish j, Event.set_done,
          Event.unlink (sample_world STASIS_PLAYBACK_STATE_QUEUED).playback.id] = true :=
  execution_ends_publish_done_unlink sample_play_uri
    (sample_world STASIS_PLAYBACK_STATE_QUEUED)
    (remove_from_playbacks (play_on_channel sample_exec
      (sample_world STASIS_PLAYBACK_STATE_QUEUED)))
    rfl rfl (Or.inr (by decide)) (by decide) rfl

/-! ## Creation -/

/-- What a call of stasis_app_control_play_uri that returns a playback did: the
numbers were not negative, playback_create succeeded, and the object, the
container and the trace are the ones written out here. -/
theorem play_uri_created (e : PlayEnv) (m : ModuleState) (uri language target_id : String)
    (target_type : stasis_app_playback_target_type) (skipms offsetms : Int)
    (r : PlayReturn) (p : stasis_app_playback)
    (hr : stasis_app_control_play_uri e m uri language target_id target_type skipms
      offsetms = some r)
    (hp : r.playback = some p) :
    ¬ (skipms < 0 ∨ offsetms < 0) ∧
      p = { id := e.create.uuid, media := uri, language := language,
            target := (set_target_uri p target_type target_id).target,
            offsetms := offsetms,
            skipms := if skipms = 0 then PLAYBACK_DEFAULT_SKIPMS else skipms,
            done := 0, playedms := 0, state := STASIS_PLAYBACK_STATE_QUEUED } ∧
      r.playbacks = m.playbacks ++ [p.id] ∧
      r.trace = m.trace ++ [Event.link p.id] ++
        (if e.pub.ok = true then [Event.publish (snapshot_of p)] else []) ++
        [Event.send_command_async p.id] := by
  unfold stasis_app_control_play_uri at hr
  by_cases hneg : skipms < 0 ∨ offsetms < 0
  · rw [if_pos hneg] at hr
    cases Option.some.inj hr
    simp at hp
  · rw [if_neg hneg] at hr
    refine ⟨hneg, ?_⟩
    unfold playback_create at hr
    by_cases hc : e.control_present = true <;>
      by_cases ha : e.create.alloc_ok = true <;>
      by_cases hs : e.create.string_field_init_res = 0 <;>
      by_cases hi : e.create.cond_init_res = 0 <;>
      by_cases hpub : e.pub.ok = true <;>
      simp [hc, ha, hs, hi, hpub, playback_publish_eq, World.emit, World.set_state,
        set_target_uri, ao2_link] at hr <;>
      (subst hr; cases Option.some.inj hp; cases target_type <;>
        simp [set_target_uri, snapshot_of, hpub])

/-- A request with non-negative numbers returns a playback whenever
playback_create succeeds. -/
theorem play_uri_accepts (e : PlayEnv) (m : ModuleState) (uri language target_id : String)
    (target_type : stasis_app_playback_target_type) (skipms offsetms : Int)
    (hacc : 0 ≤ skipms ∧ 0 ≤ offsetms)
    (hc : e.control_present = true ∧ e.create.alloc_ok = true ∧
      e.create.string_field_init_res = 0 ∧ e.create.cond_init_res = 0) :
    ∃ r p, stasis_app_control_play_uri e m uri language target_id target_type skipms
        offsetms = some r ∧ r.playback = some p := by
  obtain ⟨h1, h2, h3, h4⟩ := hc
  have hneg : ¬ (skipms < 0 ∨ offsetms < 0) := by omega
  simp [stasis_app_control_play_uri, hneg, playback_create, h1, h2, h3, h4]

/-- A request with non-negative numbers that returns, returns a playback. -/
theorem play_uri_returns_playback (e : PlayEnv) (m : ModuleState)
    (uri language target_id : String)
    (target_type : stasis_app_playback_target_type) (skipms offsetms : Int)
    (r : PlayReturn) (hacc : 0 ≤ skipms ∧ 0 ≤ offsetms)
    (hr : stasis_app_control_play_uri e m uri language target_id target_type skipms
      offsetms = some r) :
    ∃ p, r.playback = some p := by
  have hneg : ¬ (skipms < 0 ∨ offsetms < 0) := by omega
  unfold stasis_app_control_play_uri at hr
  rw [if_neg hneg] at hr
  cases hcr : playback_create e.create e.control_present m.trace with
  | mk created tr =>
    cases created with
    | none => simp [hcr] at hr
    | some c =>
      simp only [hcr] at hr
      cases Option.some.inj hr
      exact ⟨_, rfl⟩

/-- The comparison of the container matches exactly on equal ids. -/
theorem playback_cmp_match (lhs_id rhs_id : String) :
    decide (playback_cmp lhs_id rhs_id &&& CMP_MATCH ≠ 0) = decide (lhs_id = rhs_id) := by
  by_cases h : lhs_id = rhs_id <;> simp [playback_cmp, h, CMP_MATCH, CMP_STOP]

/-- The lookup on a container, by equality of ids. -/
theorem find_by_id_eq (w : World) (id : String) :
    stasis_app_playback_find_by_id w id = w.playbacks.find? (fun x => decide (x = id)) := by
  unfold stasis_app_playback_find_by_id
  congr 1
  funext x
  exact playback_cmp_match x id

/-- A linked id is found by the lookup. -/
theorem find_by_id_of_mem (w : World) (id : String) (h : id ∈ w.playbacks) :
    stasis_app_playback_find_by_id w id = some id := by
  rw [find_by_id_eq]
  generalize w.playbacks = l at h
  induction l with
  | nil => simp at h
  | cons x rest ih =>
    by_cases hx : x = id
    · simp [List.find?, hx]
    · have hm : id ∈ rest := by
        rcases List.mem_cons.mp h with h1 | h1
        · exact absurd h1.symm hx
        · exact h1
      simp only [List.find?, hx, decide_False]
      exact ih hm

/-- An id that is not linked is not found by the lookup. -/
theorem find_by_id_of_not_mem (w : World) (id : String) (h : id ∉ w.playbacks) :
    stasis_app_playback_find_by_id w id = none := by
  rw [find_by_id_eq, List.find?_eq_none]
  intro x hx hxe
  have : x = id := by simpa using hxe
  exact h (this ▸ hx)

/-- Claim C11: stasis_app_control_play_uri resolves the step size.  Every
playback it creates has skipms 3000 (PLAYBACK_DEFAULT_SKIPMS) when the request
has skipms 0 and the requested value when the request has skipms above 0; so
the skipms of every created playback is above 0. -/
theorem play_uri_resolves_skipms (e : PlayEnv) (m : ModuleState)
    (uri language target_id : String)
    (target_type : stasis_app_playback_target_type) (skipms offsetms : Int)
    (r : PlayReturn) (p : stasis_app_playback)
    (hr : stasis_app_control_play_uri e m uri language target_id target_type skipms
      offsetms = some r)
    (hp : r.playback = some p) :
    (skipms = 0 → p.skipms = 3000) ∧ (0 < skipms → p.skipms = skipms) ∧
      0 < p.skipms ∧ PLAYBACK_DEFAULT_SKIPMS = 3000 := by
  obtain ⟨hneg, hpeq, _, _⟩ :=
    play_uri_created e m uri language target_id target_type skipms offsetms r p hr hp
  have hsk : p.skipms = if skipms = 0 then PLAYBACK_DEFAULT_SKIPMS else skipms := by
    rw [hpeq]
  simp only [PLAYBACK_DEFAULT_SKIPMS] at hsk
  refine ⟨?_, ?_, ?_, rfl⟩
  · intro h0
    rw [hsk, if_pos h0]
  · intro hpos
    rw [hsk, if_neg (by omega)]
  · rw [hsk]
    split_ifs <;> omega

/-- Witness of claim C11: the request of the example scenario, skipms 0. -/
theorem play_uri_resolves_skipms_witness :
    ((0 : Int) = 0 → (sample_playback STASIS_PLAYBACK_STATE_QUEUED).skipms = 3000) ∧
      ((0 : Int) < 0 → (sample_playback STASIS_PLAYBACK_STATE_QUEUED).skipms = 0) ∧
      0 < (sample_playback STASIS_PLAYBACK_STATE_QUEUED).skipms ∧
      PLAYBACK_DEFAULT_SKIPMS = 3000 :=
  play_uri_resolves_skipms sample_play_env empty_module "sound:hello" "en" "c1"
    STASIS_PLAYBACK_TARGET_CHANNEL 0 0
    { playback := some (sample_playback STASIS_PLAYBACK_STATE_QUEUED),
      playbacks := ["pb-1"],
      trace := [Event.link "pb-1",
        Event.publish (snapshot_of (sample_playback STASIS_PLAYBACK_STATE_QUEUED)),
        Event.send_command_async "pb-1"] }
    (sample_playback STASIS_PLAYBACK_STATE_QUEUED) (by decide) rfl

/-- Claim C12: for every request with skipms and offsetms not negative, when
stasis_app_control_play_uri returns, it returns a playback that is in state
QUEUED, is linked in the registry and found there by its id, for which one
snapshot has been published (when it can be built), carrying the label queued,
and for which one execution command has been submitted. -/
theorem play_uri_queues (e : PlayEnv) (m : ModuleState) (uri language target_id : String)
    (target_type : stasis_app_playback_target_type) (skipms offsetms : Int)
    (r : PlayReturn) (hacc : 0 ≤ skipms ∧ 0 ≤ offsetms)
    (hr : stasis_app_control_play_uri e m uri language target_id target_type skipms
      offsetms = some r) :
    ∃ p, r.playback = some p ∧ p.state = STASIS_PLAYBACK_STATE_QUEUED ∧
      p.id ∈ r.playbacks ∧
      stasis_app_playback_find_by_id
        { playback := p, playbacks := r.playbacks, trace := r.trace } p.id = some p.id ∧
      published r.trace = published m.trace ++
        (if e.pub.ok = true then [snapshot_of p] else []) ∧
      snapshot_label (snapshot_of p) = some "queued" ∧
      commands r.trace = commands m.trace ++ [p.id] := by
  obtain ⟨p, hp⟩ := play_uri_returns_playback e m uri language target_id target_type
    skipms offsetms r hacc hr
  obtain ⟨_, hpeq, hreg, htr⟩ :=
    play_uri_created e m uri language target_id target_type skipms offsetms r p hr hp
  have hst : p.state = STASIS_PLAYBACK_STATE_QUEUED := by rw [hpeq]
  have hmem : p.id ∈ r.playbacks := by
    rw [hreg]
    simp
  refine ⟨p, hp, hst, hmem, find_by_id_of_mem _ _ hmem, ?_, ?_, ?_⟩
  · rw [htr]
    by_cases hpub : e.pub.ok = true <;> simp [published, List.filterMap_append, hpub]
  · rw [snapshot_label_of, hst]
    rfl
  · rw [htr]
    by_cases hpub : e.pub.ok = true <;> simp [commands, List.filterMap_append, hpub]

/-- Witness of claim C12: the request of the example scenario. -/
theorem play_uri_queues_witness :
    ∃ p, (some (sample_playback STASIS_PLAYBACK_STATE_QUEUED)) = some p ∧
      p.state = STASIS_PLAYBACK_STATE_QUEUED ∧
      p.id ∈ ["pb-1"] ∧
      stasis_app_playback_find_by_id
        { playback := p, playbacks := ["pb-1"],
          trace := [Event.link "pb-1",
            Event.publish (snapshot_of (sample_playback STASIS_PLAYBACK_STATE_QUEUED)),
            Event.send_command_async "pb-1"] } p.id = some p.id ∧
      published [Event.link "pb-1",
          Event.publish (snapshot_of (sample_playback STASIS_PLAYBACK_STATE_QUEUED)),
          Event.send_command_async "pb-1"] = published empty_module.trace ++
        (if sample_play_env.pub.ok = true then [snapshot_of p] else []) ∧
      snapshot_label (snapshot_of p) = some "queued" ∧
      commands [Event.link "pb-1",
          Event.publish (snapshot_of (sample_playback STASIS_PLAYBACK_STATE_QUEUED)),
          Event.send_command_async "pb-1"] = commands empty_module.trace ++ [p.id] :=
  play_uri_queues sample_play_env empty_module "sound:hello" "en" "c1"
    STASIS_PLAYBACK_TARGET_CHANNEL 0 0
    { playback := some (sample_playback STASIS_PLAYBACK_STATE_QUEUED),
      playbacks := ["pb-1"],
      trace := [Event.link "pb-1",
        Event.publish (snapshot_of (sample_playback STASIS_PLAYBACK_STATE_QUEUED)),
        Event.send_command_async "pb-1"] }
    (by decide) (by decide)

/-- Claim C13: validation of the numeric parameters.  For every request with
skipms or offsetms negative, stasis_app_control_play_uri returns NULL and
leaves the module as it was: the registry is the same, and the trace is the
same, so no snapshot is published and no command is submitted. -/
theorem play_uri_rejects_negative (e : PlayEnv) (m : ModuleState)
    (uri language target_id : String)
    (target_type : stasis_app_playback_target_type) (skipms offsetms : Int)
    (h : skipms < 0 ∨ offsetms < 0) :
    stasis_app_control_play_uri e m uri language target_id target_type skipms offsetms =
        some { playback := none, playbacks := m.playbacks, trace := m.trace } ∧
      ∀ r, stasis_app_control_play_uri e m uri language target_id target_type skipms
          offsetms = some r →
        r.playback = none ∧ r.playbacks = m.playbacks ∧ r.trace = m.trace ∧
          published r.trace = published m.trace ∧ commands r.trace = commands m.trace := by
  have h1 : stasis_app_control_play_uri e m uri language target_id target_type skipms
      offsetms = some { playback := none, playbacks := m.playbacks, trace := m.trace } := by
    unfold stasis_app_control_play_uri
    rw [if_pos h]
  refine ⟨h1, ?_⟩
  intro r hr
  rw [h1] at hr
  cases Option.some.inj hr
  exact ⟨rfl, rfl, rfl, rfl, rfl⟩

/-- Witness of claim C13: a request with skipms -1. -/
theorem play_uri_rejects_negative_witness :
    stasis_app_control_play_uri sample_play_env empty_module "sound:hello" "en" "c1"
        STASIS_PLAYBACK_TARGET_CHANNEL (-1) 0 =
        some { playback := none, playbacks := empty_module.playbacks,
               trace := empty_module.trace } :=
  (play_uri_rejects_negative sample_play_env empty_module "sound:hello" "en" "c1"
    STASIS_PLAYBACK_TARGET_CHANNEL (-1) 0 (Or.inl (by decide))).1

/-- Counterexample to claim C14: requests whose media reference does not
resolve (a scheme that is neither sound nor recording; a recording that is not
stored) are not rejected: stasis_app_control_play_uri returns a playback,
links it, publishes its queued snapshot and submits its command. -/
theorem unresolvable_media_is_accepted :
    media_file sample_exec "http://example.org/a.wav" = none ∧
      media_file sample_exec "recording:missing" = none ∧
      (stasis_app_control_play_uri sample_play_env empty_module
          "http://example.org/a.wav" "en" "c1" STASIS_PLAYBACK_TARGET_CHANNEL 0 0).map
        (fun r => (r.playback.isSome, r.playbacks,
          (published r.trace).map snapshot_label, commands r.trace)) =
        some (true, ["pb-1"], [some "queued"], ["pb-1"]) ∧
      (stasis_app_control_play_uri sample_play_env empty_module
          "recording:missing" "en" "c1" STASIS_PLAYBACK_TARGET_CHANNEL 0 0).map
        (fun r => (r.playback.isSome, r.playbacks,
          (published r.trace).map snapshot_label, commands r.trace)) =
        some (true, ["pb-1"], [some "queued"], ["pb-1"]) := by
  refine ⟨by decide, by decide, by decide, by decide⟩

/-- Claim C14, amended: stasis_app_control_play_uri does not look at the media
reference.  Whatever the reference, a request with skipms and offsetms not
negative, for which the object can be created, returns a playback carrying
that reference, QUEUED, linked in the registry, with its command submitted.  A
reference that does not resolve is met only by the execution, where
play_on_channel makes no media call for it. -/
theorem play_uri_accepts_any_media (e : PlayEnv) (m : ModuleState)
    (uri language target_id : String)
    (target_type : stasis_app_playback_target_type) (skipms offsetms : Int)
    (hacc : 0 ≤ skipms ∧ 0 ≤ offsetms)
    (hc : e.control_present = true ∧ e.create.alloc_ok = true ∧
      e.create.string_field_init_res = 0 ∧ e.create.cond_init_res = 0) :
    ∃ r p, stasis_app_control_play_uri e m uri language target_id target_type skipms
        offsetms = some r ∧
      r.playback = some p ∧ p.media = uri ∧
      p.state = STASIS_PLAYBACK_STATE_QUEUED ∧ p.id ∈ r.playbacks ∧
      commands r.trace = commands m.trace ++ [p.id] ∧
      ∀ ex : ExecEnv, media_file ex uri = none →
        media_calls (play_on_channel ex
          { playback := p, playbacks := r.playbacks, trace := r.trace }).trace =
          media_calls r.trace := by
  obtain ⟨r, p, hr, hp⟩ := play_uri_accepts e m uri language target_id target_type
    skipms offsetms hacc hc
  obtain ⟨_, hpeq, hreg, htr⟩ :=
    play_uri_created e m uri language target_id target_type skipms offsetms r p hr hp
  have hst : p.state = STASIS_PLAYBACK_STATE_QUEUED := by rw [hpeq]
  have hmedia : p.media = uri := by rw [hpeq]
  refine ⟨r, p, hr, hp, hmedia, hst, ?_, ?_, ?_⟩
  · rw [hreg]
    simp
  · rw [htr]
    by_cases hpub : e.pub.ok = true <;> simp [commands, List.filterMap_append, hpub]
  · intro ex hex
    rw [play_on_channel_media_calls]
    simp [hst, hmedia, hex]

/-- Witness of the amended claim C14: a request with an http reference. -/
theorem play_uri_accepts_any_media_witness :
    ∃ r p, stasis_app_control_play_uri sample_play_env empty_module
        "http://example.org/a.wav" "en" "c1" STASIS_PLAYBACK_TARGET_CHANNEL 0 0 = some r ∧
      r.playback = some p ∧ p.media = "http://example.org/a.wav" ∧
      p.state = STASIS_PLAYBACK_STATE_QUEUED ∧ p.id ∈ r.playbacks ∧
      commands r.trace = commands empty_module.trace ++ [p.id] ∧
      ∀ ex : ExecEnv, media_file ex "http://example.org/a.wav" = none →
        media_calls (play_on_channel ex
          { playback := p, playbacks := r.playbacks, trace := r.trace }).trace =
          media_calls r.trace :=
  play_uri_accepts_any_media sample_play_env empty_module "http://example.org/a.wav"
    "en" "c1" STASIS_PLAYBACK_TARGET_CHANNEL 0 0 (by decide) (by decide)

/-! ## Stop while playing -/

/-- An execution on the channel during which STOP is the one control operation
issued, and whose media call then fails: the playback, the container and the
whole trace it leaves. -/
theorem play_on_channel_stopped (e : ExecEnv) (oe : OperEnv) (w : World) (f : String)
    (hs : w.playback.state ≠ STASIS_PLAYBACK_STATE_CANCELED)
    (hm : media_file e w.playback.media = some f)
    (hops : e.during_media = [(oe, STASIS_PLAYBACK_STOP.code)])
    (hres : e.stream_res ≠ 0) :
    (play_on_channel e w).playback =
        { w.playback with state := STASIS_PLAYBACK_STATE_STOPPED,
                          playedms := e.stream_offsetms, done := 1 } ∧
      (play_on_channel e w).playbacks = w.playbacks ∧
      (play_on_channel e w).trace = w.trace ++
        ((if e.first_pub.ok = true then
            [Event.publish (snapshot_of
              { w.playback with state := STASIS_PLAYBACK_STATE_PLAYING })]
          else []) ++ (if e.chan_up = true then [] else [Event.answer])) ++
        [Event.streamfile f w.playback.skipms w.playback.language w.playback.offsetms] ++
        [Event.queue_control AST_CONTROL_STREAM_STOP,
          Event.log LOG_NOTICE
            (e.uniqueid ++ ": Playback stopped for " ++ w.playback.media ++ "\n")] ++
        (if e.final_pub.ok = true then
          [Event.publish (snapshot_of
            { w.playback with state := STASIS_PLAYBACK_STATE_STOPPED,
                              playedms := e.stream_offsetms })]
         else []) ++ [Event.set_done] := by
  rw [play_on_channel, play_on_channel_body_eq, if_neg hs, hm]
  obtain ⟨⟨id, media, language, target, offsetms, skipms, done, playedms, s⟩, reg, tr⟩ := w
  simp only at hs
  by_cases h1 : e.first_pub.ok = true <;> by_cases h2 : e.chan_up = true <;>
    by_cases h3 : e.final_pub.ok = true <;>
    simp [play_file, hops, run_operations, playback_first_update, playback_publish_eq,
      World.emit, World.set_state, operation_by_entry, operations, playback_stop,
      stasis_app_control_queue_control, playback_final_update, mark_as_done, hres, hs,
      h1, h2, h3, snapshot_of]

/-- Claim C15: stop while playing, end to end.  In an execution of play_uri
that reaches the media call (the playback is then PLAYING), during which STOP
is issued and whose media call then returns a non-success status, the events
after the start of the media call are: the enqueue of one stream-stop frame,
the notice, the snapshot of the final update (one, when it can be built),
carrying the label done, the write of done and the removal.  So from the STOP
on one snapshot is published, labelled done, one stream-stop signal is
enqueued, the final state is STOPPED, and the playback (its id being unique in
the registry) is no longer linked nor found after play_uri returns. -/
theorem stop_while_playing_end_to_end (pe : PlayUriEnv) (oe : OperEnv) (w w' : World)
    (f : String) (hc : pe.control_present = true) (hd : w.playback.done = 0)
    (hs : w.playback.state ≠ STASIS_PLAYBACK_STATE_CANCELED)
    (hm : media_file pe.exec w.playback.media = some f)
    (hops : pe.exec.during_media = [(oe, STASIS_PLAYBACK_STOP.code)])
    (hres : pe.exec.stream_res ≠ 0) (huniq : w.playbacks.Nodup)
    (hr : play_uri pe w = some w') :
    (∃ pre, w'.trace = w.trace ++ pre ++
        [Event.streamfile f w.playback.skipms w.playback.language w.playback.offsetms] ++
        stop_to_end_events pe.exec w) ∧
      published (stop_to_end_events pe.exec w) =
        (if pe.exec.final_pub.ok = true then
          [snapshot_of { w.playback with state := STASIS_PLAYBACK_STATE_STOPPED,
                                         playedms := pe.exec.stream_offsetms }]
         else []) ∧
      snapshot_label (snapshot_of
        { w.playback with state := STASIS_PLAYBACK_STATE_STOPPED,
                          playedms := pe.exec.stream_offsetms }) = some "done" ∧
      signals (stop_to_end_events pe.exec w) = [AST_CONTROL_STREAM_STOP] ∧
      w'.playback.state = STASIS_PLAYBACK_STATE_STOPPED ∧
      w.playback.id ∉ w'.playbacks ∧
      stasis_app_playback_find_by_id w' w.playback.id = none := by
  obtain ⟨w1, hw1, rfl⟩ := play_uri_returns pe w w' hc hd hr
  have hpb : w1.playback = w.playback ∧ w1.playbacks = w.playbacks ∧
      ∃ q, w1.trace = w.trace ++ q := by
    rcases hw1 with rfl | rfl
    · exact ⟨rfl, rfl, [], by simp⟩
    · exact ⟨rfl, rfl, [Event.queue_playfile w.playback.id], rfl⟩
  obtain ⟨hp1, hp2, q, hq⟩ := hpb
  obtain ⟨h1, h2, h3⟩ := play_on_channel_stopped pe.exec oe w1 f (by rw [hp1]; exact hs)
    (by rw [hp1]; exact hm) hops hres
  have hnot : w.playback.id ∉
      (remove_from_playbacks (play_on_channel pe.exec w1)).playbacks := by
    simp only [remove_from_playbacks, World.emit, h1, h2, hp1, hp2]
    intro hmem
    exact ((List.Nodup.mem_erase_iff huniq).mp hmem).1 rfl
  refine ⟨?_, ?_, ?_, ?_, ?_, hnot, find_by_id_of_not_mem _ _ hnot⟩
  · refine ⟨q ++ ((if pe.exec.first_pub.ok = true then
        [Event.publish (snapshot_of
          { w.playback with state := STASIS_PLAYBACK_STATE_PLAYING })]
        else []) ++ (if pe.exec.chan_up = true then [] else [Event.answer])), ?_⟩
    simp [remove_from_playbacks, World.emit, h1, h3, hp1, hq, stop_to_end_events]
  · by_cases hpub : pe.exec.final_pub.ok = true <;>
      simp [stop_to_end_events, published, hpub]
  · rw [snapshot_label_of]
    rfl
  · by_cases hpub : pe.exec.final_pub.ok = true <;>
      simp [stop_to_end_events, signals, hpub]
  · simp [remove_from_playbacks, World.emit, h1]

/-- Witness of claim C15: the sample playback, stopped during the media call
on a channel that is in no bridge. -/
theorem stop_while_playing_end_to_end_witness :
    published (stop_to_end_events sample_play_uri_stopped.exec
        (sample_world STASIS_PLAYBACK_STATE_QUEUED)) =
        (if sample_play_uri_stopped.exec.final_pub.ok = true then
          [snapshot_of { (sample_world STASIS_PLAYBACK_STATE_QUEUED).playback with
            state := STASIS_PLAYBACK_STATE_STOPPED,
            playedms := sample_play_uri_stopped.exec.stream_offsetms }]
         else []) ∧
      signals (stop_to_end_events sample_play_uri_stopped.exec
        (sample_world STASIS_PLAYBACK_STATE_QUEUED)) = [AST_CONTROL_STREAM_STOP] ∧
      (remove_from_playbacks (play_on_channel sample_exec_stopped
        (sample_world STASIS_PLAYBACK_STATE_QUEUED))).playback.state =
        STASIS_PLAYBACK_STATE_STOPPED ∧
      stasis_app_playback_find_by_id
        (remove_from_playbacks (play_on_channel sample_exec_stopped
          (sample_world STASIS_PLAYBACK_STATE_QUEUED)))
        (sample_world STASIS_PLAYBACK_STATE_QUEUED).playback.id = none :=
  have h := stop_while_playing_end_to_end sample_play_uri_stopped oper_env_ok
    (sample_world STASIS_PLAYBACK_STATE_QUEUED)
    (remove_from_playbacks (play_on_channel sample_exec_stopped
      (sample_world STASIS_PLAYBACK_STATE_QUEUED)))
    "hello" rfl rfl (by decide) (by decide) rfl (by decide) (by decide) rfl
  ⟨h.2.1, h.2.2.2.1, h.2.2.2.2.1, h.2.2.2.2.2.2⟩

/-! ## Results, signals and frame of the control operations -/

/-- Counterexample to claim C16: an operation value outside the six defined
operations (6, or -1) is answered with -1, which is none of OK, FAILED and
NOT_PLAYING. -/
theorem out_of_range_returns_minus_one :
    (stasis_app_playback_operation oper_env_ok
        (sample_world STASIS_PLAYBACK_STATE_PLAYING) 6).1 = -1 ∧
      (stasis_app_playback_operation oper_env_ok
        (sample_world STASIS_PLAYBACK_STATE_PLAYING) (-1)).1 = -1 ∧
      (-1 : Int) ≠ STASIS_PLAYBACK_OPER_OK ∧ (-1 : Int) ≠ STASIS_PLAYBACK_OPER_FAILED ∧
      (-1 : Int) ≠ STASIS_PLAYBACK_OPER_NOT_PLAYING := by
  refine ⟨by decide, by decide, by decide, by decide, by decide⟩

/-- Claim C16, amended: for every state and every operation value that is one
of the six defined operations (0 to 5), stasis_app_playback_operation returns
one of OK, FAILED or NOT_PLAYING; for every operation value outside them it
returns -1, which is none of the three, logs the invalid operation and leaves
the playback as it was. -/
theorem operation_result_range (e : OperEnv) (w : World) (operation : Int) :
    (¬ (operation < 0 ∨ operation ≥ STASIS_PLAYBACK_MEDIA_OP_MAX) →
        ((stasis_app_playback_operation e w operation).1 = STASIS_PLAYBACK_OPER_OK ∨
          (stasis_app_playback_operation e w operation).1 = STASIS_PLAYBACK_OPER_FAILED ∨
          (stasis_app_playback_operation e w operation).1 =
            STASIS_PLAYBACK_OPER_NOT_PLAYING)) ∧
      ((operation < 0 ∨ operation ≥ STASIS_PLAYBACK_MEDIA_OP_MAX) →
        ((stasis_app_playback_operation e w operation).1 = -1 ∧
          (stasis_app_playback_operation e w operation).1 ≠ STASIS_PLAYBACK_OPER_OK ∧
          (stasis_app_playback_operation e w operation).1 ≠ STASIS_PLAYBACK_OPER_FAILED ∧
          (stasis_app_playback_operation e w operation).1 ≠
            STASIS_PLAYBACK_OPER_NOT_PLAYING ∧
          (stasis_app_playback_operation e w operation).2.playback = w.playback ∧
          (stasis_app_playback_operation e w operation).2.trace = w.trace ++
            [Event.log LOG_ERROR
              ("Invalid playback operation " ++ toString operation ++ "\n")])) := by
  refine ⟨?_, ?_⟩
  · intro hr
    obtain ⟨o, rfl⟩ := code_of_in_range operation hr
    rw [operation_by_entry]
    cases hop : operations w.playback.state o with
    | none =>
      by_cases hs : w.playback.state = STASIS_PLAYBACK_STATE_PLAYING <;> simp [hs]
    | some cb =>
      by_cases hcb : (cb e w).1 = 0 <;> simp [hcb]
  · intro hr
    rw [operation_out_of_range e w operation hr]
    refine ⟨rfl, ?_, ?_, ?_, rfl, rfl⟩ <;>
      simp [STASIS_PLAYBACK_OPER_OK, STASIS_PLAYBACK_OPER_FAILED,
        STASIS_PLAYBACK_OPER_NOT_PLAYING]

/-- Claim C17: with state PLAYING each of the six operations has a handler in
the dispatch table; so for an in-range operation on a playing playback the
result is OK or FAILED, never NOT_PLAYING, and the branch that logs the
unhandled operation is not taken (the call adds no log line). -/
theorem playing_has_all_handlers (e : OperEnv) (w : World) (operation : Int)
    (hs : w.playback.state = STASIS_PLAYBACK_STATE_PLAYING)
    (hr : ¬ (operation < 0 ∨ operation ≥ STASIS_PLAYBACK_MEDIA_OP_MAX)) :
    (∀ o : stasis_app_playback_media_operation,
        (operations STASIS_PLAYBACK_STATE_PLAYING o).isSome = true) ∧
      (∃ o : stasis_app_playback_media_operation, operation = o.code ∧
        (operations w.playback.state o).isSome = true) ∧
      (stasis_app_playback_operation e w operation).1 ≠ STASIS_PLAYBACK_OPER_NOT_PLAYING ∧
      ((stasis_app_playback_operation e w operation).1 = STASIS_PLAYBACK_OPER_OK ∨
        (stasis_app_playback_operation e w operation).1 = STASIS_PLAYBACK_OPER_FAILED) ∧
      logs (stasis_app_playback_operation e w operation).2.trace = logs w.trace := by
  have hall : ∀ o : stasis_app_playback_media_operation,
      (operations STASIS_PLAYBACK_STATE_PLAYING o).isSome = true := by
    intro o
    cases o <;> rfl
  obtain ⟨o, rfl⟩ := code_of_in_range operation hr
  refine ⟨hall, ⟨o, rfl, by rw [hs]; exact hall o⟩, ?_⟩
  rw [operation_by_entry]
  obtain ⟨⟨id, media, language, target, offsetms, skipms, done, playedms, s⟩, reg, tr⟩ := w
  simp only at hs
  subst hs
  by_cases hq : e.queue_control_res = 0 <;> by_cases hp : e.pub.ok = true <;>
    cases o <;>
    simp [operations, playback_noop, playback_stop, playback_restart, playback_pause,
      playback_unpause, playback_reverse, playback_forward,
      stasis_app_control_queue_control, playback_publish_eq, World.emit,
      World.set_state, STASIS_PLAYBACK_OPER_OK, STASIS_PLAYBACK_OPER_FAILED,
      STASIS_PLAYBACK_OPER_NOT_PLAYING, logs, List.filterMap_append, hq, hp]

/-- Witness of claim C17: FORWARD on a playing playback. -/
theorem playing_has_all_handlers_witness :
    (stasis_app_playback_operation oper_env_ok
        (sample_world STASIS_PLAYBACK_STATE_PLAYING) 5).1 ≠
        STASIS_PLAYBACK_OPER_NOT_PLAYING ∧
      logs (stasis_app_playback_operation oper_env_ok
        (sample_world STASIS_PLAYBACK_STATE_PLAYING) 5).2.trace =
        logs (sample_world STASIS_PLAYBACK_STATE_PLAYING).trace :=
  have h := playing_has_all_handlers oper_env_ok
    (sample_world STASIS_PLAYBACK_STATE_PLAYING) 5 rfl (by decide)
  ⟨h.2.2.1, h.2.2.2.2⟩

/-- Claim C18: each operation enqueues exactly the control signal the table
names and nothing else: one stream-stop for STOP in PLAYING or PAUSED, one
stream-restart for RESTART in PLAYING, one stream-suspend for PAUSE in PLAYING
(and for UNPAUSE in PAUSED), one stream-reverse for REVERSE in PLAYING, one
stream-forward for FORWARD in PLAYING, and none for STOP in QUEUED, for the
no-op entries and for the invalid pairs; and an operation with a signal
returns OK exactly when the enqueue succeeds (returns 0). -/
theorem operation_signals (e : OperEnv) (w : World)
    (o : stasis_app_playback_media_operation) :
    signals (stasis_app_playback_operation e w o.code).2.trace =
        signals w.trace ++ (spec_signal w.playback.state o).toList ∧
      ((spec_signal w.playback.state o).isSome = true →
        ((stasis_app_playback_operation e w o.code).1 = STASIS_PLAYBACK_OPER_OK ↔
          e.queue_control_res = 0)) := by
  rw [operation_by_entry]
  obtain ⟨⟨id, media, language, target, offsetms, skipms, done, playedms, s⟩, reg, tr⟩ := w
  by_cases hq : e.queue_control_res = 0 <;> by_cases hp : e.pub.ok = true <;>
    cases s <;> cases o <;>
    simp [operations, spec_signal, playback_noop, playback_cancel, playback_stop,
      playback_restart, playback_pause, playback_unpause, playback_reverse,
      playback_forward, stasis_app_control_queue_control, playback_publish_eq,
      World.emit, World.set_state, STASIS_PLAYBACK_OPER_OK, STASIS_PLAYBACK_OPER_FAILED,
      STASIS_PLAYBACK_OPER_NOT_PLAYING, signals, List.filterMap_append, hq, hp]

/-- Claim C19: every no-op entry of the table (RESTART in QUEUED, UNPAUSE in
PLAYING, PAUSE in PAUSED, STOP in COMPLETE, CANCELED or STOPPED) returns OK and
has no effect: the world after the call is the world before it, so the state
and every other field are unchanged, no snapshot is published and no control
signal is enqueued. -/
theorem noop_entries_have_no_effect (e : OperEnv) (w : World)
    (o : stasis_app_playback_media_operation)
    (h : spec_noop w.playback.state o = true) :
    stasis_app_playback_operation e w o.code = (STASIS_PLAYBACK_OPER_OK, w) ∧
      (stasis_app_playback_operation e w o.code).2.playback = w.playback ∧
      published (stasis_app_playback_operation e w o.code).2.trace = published w.trace ∧
      signals (stasis_app_playback_operation e w o.code).2.trace = signals w.trace := by
  have key : stasis_app_playback_operation e w o.code = (STASIS_PLAYBACK_OPER_OK, w) := by
    rw [operation_by_entry]
    obtain ⟨⟨id, media, language, target, offsetms, skipms, done, playedms, s⟩, reg, tr⟩ := w
    cases s <;> cases o <;> simp_all [operations, spec_noop, playback_noop]
  rw [key]
  exact ⟨rfl, rfl, rfl, rfl⟩

/-- Witness of claim C19: RESTART on a queued playback. -/
theorem noop_entries_have_no_effect_witness :
    stasis_app_playback_operation oper_env_ok
        (sample_world STASIS_PLAYBACK_STATE_QUEUED) STASIS_PLAYBACK_RESTART.code =
        (STASIS_PLAYBACK_OPER_OK, sample_world STASIS_PLAYBACK_STATE_QUEUED) :=
  (noop_entries_have_no_effect oper_env_ok (sample_world STASIS_PLAYBACK_STATE_QUEUED)
    STASIS_PLAYBACK_RESTART (by decide)).1

/-! ## The done flag -/

/-- Claim C20: once done is set it is never unset.  Every control operation
(one or a sequence), the first update, the final update and the removal from
the registry leave done exactly as it was; mark_as_done, the only step that
writes it, sets it to 1 and wakes the waiters; so after an execution on the
channel done is 1, and after a returning play_uri it is 1 or what it was.  In
particular, if done is 1 before any of these steps, it is 1 after it. -/
theorem done_is_never_unset (w : World) :
    (∀ (e : OperEnv) (operation : Int),
        (stasis_app_playback_operation e w operation).2.playback.done =
          w.playback.done) ∧
      (∀ ops : List (OperEnv × Int),
        (run_operations ops w).playback.done = w.playback.done) ∧
      (∀ (e : PublishEnv) (uniqueid : String),
        (playback_first_update e w uniqueid).2.playback.done = w.playback.done) ∧
      (∀ (e : PublishEnv) (playedms res : Int) (uniqueid : String),
        (playback_final_update e w playedms res uniqueid).playback.done =
          w.playback.done) ∧
      (remove_from_playbacks w).playback.done = w.playback.done ∧
      ((mark_as_done w).playback.done = 1 ∧
        (mark_as_done w).trace = w.trace ++ [Event.set_done]) ∧
      (∀ e : ExecEnv, (play_on_channel e w).playback.done = 1) ∧
      (∀ (e : ExecEnv) (playback_id : String),
        (play_on_channel_in_bridge e w playback_id).playback.done = 1 ∨
          (play_on_channel_in_bridge e w playback_id).playback.done = w.playback.done) ∧
      (∀ (pe : PlayUriEnv) (w' : World), play_uri pe w = some w' →
        (w'.playback.done = 1 ∨ w'.playback.done = w.playback.done)) ∧
      (∀ (pe : PlayUriEnv) (w' : World), w.playback.done = 1 →
        play_uri pe w = some w' → w'.playback.done = 1) := by
  have hstep : ∀ v v' : World, control_step v v' →
      v'.playback.done = v.playback.done := by
    intro v v' h
    rw [h.2.1]
  have hpoc : ∀ (e : ExecEnv) (v : World), (play_on_channel e v).playback.done = 1 := by
    intro e v
    simp [play_on_channel, mark_as_done, World.emit]
  have hrm : ∀ v : World, (remove_from_playbacks v).playback.done = v.playback.done := by
    intro v
    simp [remove_from_playbacks, World.emit]
  have huri : ∀ (pe : PlayUriEnv) (w' : World), play_uri pe w = some w' →
      (w'.playback.done = 1 ∨ w'.playback.done = w.playback.done) := by
    intro pe w' hr
    obtain ⟨w1, hw1, hw'⟩ := play_uri_shape pe w w' hr
    have h1 : w1.playback.done = w.playback.done := by
      rcases hw1 with rfl | rfl
      · rfl
      · rfl
    rcases hw' with rfl | rfl
    · right
      rw [hrm, h1]
    · left
      rw [hrm, hpoc]
  refine ⟨?_, ?_, ?_, ?_, hrm w, ?_, fun e => hpoc e w, ?_, huri, ?_⟩
  · intro e operation
    exact hstep _ _ (operation_control_step e w operation)
  · intro ops
    exact hstep _ _ (run_operations_control_step ops w)
  · intro e uniqueid
    by_cases hc : w.playback.state = STASIS_PLAYBACK_STATE_CANCELED <;>
      by_cases hp : e.ok = true <;>
      simp [playback_first_update, playback_publish_eq, World.emit, World.set_state, hc,
        hp]
  · intro e playedms res uniqueid
    by_cases hs : w.playback.state = STASIS_PLAYBACK_STATE_STOPPED <;>
      by_cases hp : e.ok = true <;> by_cases hr : res = 0 <;>
      simp [playback_final_update, playback_publish_eq, World.emit, World.set_state, hs,
        hp, hr]
  · simp [mark_as_done, World.emit]
  · intro e playback_id
    unfold play_on_channel_in_bridge
    cases stasis_app_playback_find_by_id w playback_id with
    | none => exact Or.inr rfl
    | some x => exact Or.inl (hpoc e w)
  · intro pe w' hd hr
    rcases huri pe w' hr with h | h
    · exact h
    · rw [h, hd]

/-! ## The registry -/

/-- Nothing happens in no step. -/
theorem exec_step_refl (w : World) : exec_step w w :=
  ⟨rfl, rfl, [], by simp, by simp⟩

/-- Steps of an execution compose. -/
theorem exec_step_trans (w1 w2 w3 : World) (h12 : exec_step w1 w2)
    (h23 : exec_step w2 w3) : exec_step w1 w3 := by
  obtain ⟨a1, b1, t1, c1, d1⟩ := h12
  obtain ⟨a2, b2, t2, c2, d2⟩ := h23
  refine ⟨a2.trans a1, b2.trans b1, t1 ++ t2, ?_, ?_⟩
  · rw [c2, c1, List.append_assoc]
  · intro ev hev
    rcases List.mem_append.mp hev with h | h
    · exact d1 ev h
    · exact d2 ev h

/-- One event of the execution is a step of it. -/
theorem exec_step_emit (w : World) (ev : Event) (h : exec_event ev = true) :
    exec_step w (w.emit ev) :=
  ⟨rfl, rfl, [ev], rfl, by simpa using h⟩

/-- A write of the state is a step of the execution. -/
theorem exec_step_set_state (w : World) (s : stasis_app_playback_state) :
    exec_step w (w.set_state s) :=
  ⟨rfl, rfl, [], by simp [World.set_state], by simp⟩

/-- A publish is a step of the execution. -/
theorem exec_step_publish (e : PublishEnv) (w : World) :
    exec_step w (playback_publish e w) := by
  rw [playback_publish_eq]
  by_cases hp : e.ok = true
  · rw [if_pos hp]
    exact exec_step_emit w _ (by rfl)
  · rw [if_neg hp]
    exact exec_step_refl w

/-- A control step is a step of the execution. -/
theorem exec_step_of_control_step (w w' : World) (h : control_step w w') :
    exec_step w w' := by
  obtain ⟨a, b, t, c, d⟩ := h
  refine ⟨a, by rw [b], t, c, ?_⟩
  intro ev hev
  have := d ev hev
  cases ev <;> simp_all [control_event, exec_event]

/-- The first update is a step of the execution. -/
theorem exec_step_first_update (e : PublishEnv) (w : World) (uniqueid : String) :
    exec_step w (playback_first_update e w uniqueid).2 := by
  unfold playback_first_update
  by_cases hc : w.playback.state = STASIS_PLAYBACK_STATE_CANCELED
  · rw [if_pos hc]
    exact exec_step_trans _ _ _ (exec_step_emit w _ (by rfl)) (exec_step_publish e _)
  · rw [if_neg hc]
    exact exec_step_trans _ _ _ (exec_step_set_state w _) (exec_step_publish e _)

/-- The final update is a step of the execution. -/
theorem exec_step_final_update (e : PublishEnv) (w : World) (playedms res : Int)
    (uniqueid : String) :
    exec_step w (playback_final_update e w playedms res uniqueid) := by
  have h0 : exec_step w
      ({ w with playback := { w.playback with playedms := playedms } } : World) :=
    ⟨rfl, rfl, [], by simp, by simp⟩
  unfold playback_final_update
  refine exec_step_trans _ _ _ h0 (exec_step_trans _ _ _ ?_ (exec_step_publish e _))
  by_cases hr : res = 0
  · simp only [hr, if_true]
    exact exec_step_set_state _ _
  · simp only [hr, if_false]
    split
    · exact exec_step_emit _ _ (by rfl)
    · exact exec_step_trans _ _ _ (exec_step_emit _ _ (by rfl)) (exec_step_set_state _ _)

/-- An execution on the channel is a step of the execution: it keeps the
container and the id and adds only its own events to the trace. -/
theorem exec_step_play_on_channel (e : ExecEnv) (w : World) :
    exec_step w (play_on_channel e w) := by
  have hmark : ∀ v : World, exec_step v (mark_as_done v) := by
    intro v
    exact ⟨rfl, rfl, [Event.set_done], rfl, by simp [exec_event]⟩
  have hfirst := exec_step_first_update e.first_pub w e.uniqueid
  have hans : exec_step w (if e.chan_up = true then
      (playback_first_update e.first_pub w e.uniqueid).2
      else (playback_first_update e.first_pub w e.uniqueid).2.emit Event.answer) := by
    by_cases hu : e.chan_up = true
    · simpa [hu] using hfirst
    · simp only [hu]
      exact exec_step_trans _ _ _ hfirst (exec_step_emit _ _ (by rfl))
  unfold play_on_channel
  refine exec_step_trans _ _ _ ?_ (hmark _)
  rw [play_on_channel_body_eq]
  by_cases hc : w.playback.state = STASIS_PLAYBACK_STATE_CANCELED
  · rw [if_pos hc]
    exact hfirst
  · rw [if_neg hc]
    cases hf : media_file e w.playback.media with
    | some f =>
      simp only [play_file]
      refine exec_step_trans _ _ _ hans (exec_step_trans _ _ _ (exec_step_emit _ _ (by rfl))
        (exec_step_trans _ _ _
          (exec_step_of_control_step _ _ (run_operations_control_step e.during_media _))
          (exec_step_final_update _ _ _ _ _)))
    | none =>
      simp only []
      split
      · exact hans
      · exact exec_step_trans _ _ _ hans (exec_step_emit _ _ (by rfl))

/-- The lookup reads the container only. -/
theorem find_by_id_congr (w w' : World) (id : String) (h : w'.playbacks = w.playbacks) :
    stasis_app_playback_find_by_id w' id = stasis_app_playback_find_by_id w id := by
  unfold stasis_app_playback_find_by_id
  rw [h]

/-- Claim C21: registry consistency.  A playback that stasis_app_control_play_uri
returns is found by its id.  For a linked playback whose id is unique in the
registry, the lookup by its id returns it before and after every control
operation, first update, final update and execution on the channel, that is at
every point up to the removal; after remove_from_playbacks, and so after every
returning play_uri, the lookup returns not-found. -/
theorem registry_consistency (w : World) (hmem : w.playback.id ∈ w.playbacks)
    (huniq : w.playbacks.Nodup) :
    stasis_app_playback_find_by_id w w.playback.id = some w.playback.id ∧
      (∀ (e : OperEnv) (operation : Int),
        stasis_app_playback_find_by_id (stasis_app_playback_operation e w operation).2
          w.playback.id = some w.playback.id) ∧
      (∀ ops : List (OperEnv × Int),
        stasis_app_playback_find_by_id (run_operations ops w) w.playback.id =
          some w.playback.id) ∧
      (∀ (e : PublishEnv) (uniqueid : String),
        stasis_app_playback_find_by_id (playback_first_update e w uniqueid).2
          w.playback.id = some w.playback.id) ∧
      (∀ (e : PublishEnv) (playedms res : Int) (uniqueid : String),
        stasis_app_playback_find_by_id (playback_final_update e w playedms res uniqueid)
          w.playback.id = some w.playback.id) ∧
      (∀ e : ExecEnv,
        stasis_app_playback_find_by_id (play_on_channel e w) w.playback.id =
          some w.playback.id) ∧
      stasis_app_playback_find_by_id (remove_from_playbacks w) w.playback.id = none ∧
      (∀ (pe : PlayUriEnv) (w' : World), play_uri pe w = some w' →
        stasis_app_playback_find_by_id w' w.playback.id = none) ∧
      (∀ (e : PlayEnv) (m : ModuleState) (uri language target_id : String)
        (target_type : stasis_app_playback_target_type) (skipms offsetms : Int)
        (r : PlayReturn) (p : stasis_app_playback),
        stasis_app_control_play_uri e m uri language target_id target_type skipms
          offsetms = some r → r.playback = some p →
        stasis_app_playback_find_by_id
          { playback := p, playbacks := r.playbacks, trace := r.trace } p.id =
          some p.id) := by
  have hfound := find_by_id_of_mem w w.playback.id hmem
  have hkeep : ∀ v : World, v.playbacks = w.playbacks →
      stasis_app_playback_find_by_id v w.playback.id = some w.playback.id := by
    intro v hv
    rw [find_by_id_congr w v _ hv]
    exact hfound
  have hgone : ∀ v : World, v.playbacks = w.playbacks → v.playback.id = w.playback.id →
      stasis_app_playback_find_by_id (remove_from_playbacks v) w.playback.id = none := by
    intro v hv hid
    apply find_by_id_of_not_mem
    simp only [remove_from_playbacks, World.emit, hv, hid]
    intro hm
    exact ((List.Nodup.mem_erase_iff huniq).mp hm).1 rfl
  refine ⟨hfound, ?_, ?_, ?_, ?_, ?_, hgone w rfl rfl, ?_, ?_⟩
  · intro e operation
    exact hkeep _ (operation_control_step e w operation).1
  · intro ops
    exact hkeep _ (run_operations_control_step ops w).1
  · intro e uniqueid
    exact hkeep _ (exec_step_first_update e w uniqueid).1
  · intro e playedms res uniqueid
    exact hkeep _ (exec_step_final_update e w playedms res uniqueid).1
  · intro e
    exact hkeep _ (exec_step_play_on_channel e w).1
  · intro pe w' hr
    obtain ⟨w1, hw1, hw'⟩ := play_uri_shape pe w w' hr
    have h1 : w1.playbacks = w.playbacks ∧ w1.playback.id = w.playback.id := by
      rcases hw1 with rfl | rfl
      · exact ⟨rfl, rfl⟩
      · exact ⟨rfl, rfl⟩
    rcases hw' with rfl | rfl
    · exact hgone w1 h1.1 h1.2
    · have hx := exec_step_play_on_channel pe.exec w1
      exact hgone _ (hx.1.trans h1.1) (hx.2.1.trans h1.2)
  · intro e m uri language target_id target_type skipms offsetms r p hr hp
    obtain ⟨_, _, hreg, _⟩ :=
      play_uri_created e m uri language target_id target_type skipms offsetms r p hr hp
    apply find_by_id_of_mem
    simp [hreg]

/-- Witness of claim C21: the sample playback, linked alone. -/
theorem registry_consistency_witness :
    stasis_app_playback_find_by_id (sample_world STASIS_PLAYBACK_STATE_QUEUED)
        (sample_world STASIS_PLAYBACK_STATE_QUEUED).playback.id =
        some (sample_world STASIS_PLAYBACK_STATE_QUEUED).playback.id ∧
      stasis_app_playback_find_by_id
        (remove_from_playbacks (sample_world STASIS_PLAYBACK_STATE_QUEUED))
        (sample_world STASIS_PLAYBACK_STATE_QUEUED).playback.id = none :=
  have h := registry_consistency (sample_world STASIS_PLAYBACK_STATE_QUEUED)
    (by decide) (by decide)
  ⟨h.1, h.2.2.2.2.2.2.1⟩

/-- Claim C22: the registry lookup is by exact id.  playback_cmp reports a
match exactly when the id of the stored playback is string-equal to the
searched id, whether that is given as a key or through an object; so a
different string, a proper leading part of the stored id included, never
matches. -/
theorem lookup_is_by_exact_id (obj : stasis_app_playback) (arg : search_arg) :
    (playback_cmp_arg obj arg &&& CMP_MATCH ≠ 0 ↔ obj.id = arg.id) ∧
      playback_cmp_arg obj arg =
        (if obj.id = arg.id then CMP_MATCH ||| CMP_STOP else 0) ∧
      (∀ key : String, (playback_cmp_arg obj (search_arg.key key) &&& CMP_MATCH ≠ 0 ↔
        obj.id = key)) ∧
      (∀ rhs : stasis_app_playback,
        (playback_cmp_arg obj (search_arg.object rhs) &&& CMP_MATCH ≠ 0 ↔
          obj.id = rhs.id)) ∧
      (arg.id ≠ obj.id → playback_cmp_arg obj arg = 0) ∧
      (arg.id.data <+: obj.id.data → arg.id ≠ obj.id →
        playback_cmp_arg obj arg &&& CMP_MATCH = 0) := by
  have hm : ∀ a : search_arg,
      (playback_cmp_arg obj a &&& CMP_MATCH ≠ 0 ↔ obj.id = a.id) := by
    intro a
    by_cases h : obj.id = a.id <;>
      simp [playback_cmp_arg, playback_cmp, h, CMP_MATCH, CMP_STOP]
  have hz : arg.id ≠ obj.id → playback_cmp_arg obj arg = 0 := by
    intro h
    have h' : ¬ obj.id = arg.id := fun he => h he.symm
    simp [playback_cmp_arg, playback_cmp, h']
  refine ⟨hm arg, rfl, fun key => hm (search_arg.key key),
    fun rhs => hm (search_arg.object rhs), hz, ?_⟩
  intro _ hne
  rw [hz hne]
  rfl

/-- An event of the execution is not a removal. -/
theorem exec_event_not_unlink (ev : Event) (h : exec_event ev = true) :
    is_unlink ev = false := by
  cases ev <;> simp_all [exec_event, is_unlink]

/-- Claim C23: the registry removal happens exactly once per execution, at its
end.  Every execution of play_uri that returns (not bridged, bridged, without a
control handle, canceled, with a media failure) has added to the trace events
none of which is a removal, followed by one removal of the playback as the
last event, and leaves the registry without the playback.  play_uri returns
without a control handle, on a channel that is in no bridge, and in a bridge
that runs the queued callback for a linked playback not yet done. -/
theorem removal_exactly_once (pe : PlayUriEnv) (w : World) :
    (∀ w' : World, play_uri pe w = some w' →
        ∃ pre, w'.trace = w.trace ++ pre ++ [Event.unlink w.playback.id] ∧
          (∀ ev ∈ pre, is_unlink ev = false) ∧
          w'.playbacks = w.playbacks.erase w.playback.id) ∧
      ((pe.control_present = false ∨ pe.bridge = none) →
        (play_uri pe w).isSome = true) ∧
      (∀ b : BridgeEnv, pe.control_present = true → pe.bridge = some b →
        b.bridge_chan_found = true → b.queue_playfile_res = 0 →
        w.playback.done = 0 → w.playback.id ∈ w.playbacks →
        (play_uri pe w).isSome = true) := by
  refine ⟨?_, ?_, ?_⟩
  · intro w' hr
    obtain ⟨w1, hw1, hw'⟩ := play_uri_shape pe w w' hr
    have hq : w1.playbacks = w.playbacks ∧ w1.playback.id = w.playback.id ∧
        ∃ t, w1.trace = w.trace ++ t ∧ ∀ ev ∈ t, is_unlink ev = false := by
      rcases hw1 with rfl | rfl
      · exact ⟨rfl, rfl, [], by simp, by simp⟩
      · exact ⟨rfl, rfl, [Event.queue_playfile w.playback.id], rfl, by simp [is_unlink]⟩
    obtain ⟨hq1, hq2, t, hq3, hq4⟩ := hq
    have hrm : ∀ v : World, v.playbacks = w.playbacks → v.playback.id = w.playback.id →
        (∃ t, v.trace = w.trace ++ t ∧ ∀ ev ∈ t, is_unlink ev = false) →
        ∃ pre, (remove_from_playbacks v).trace =
            w.trace ++ pre ++ [Event.unlink w.playback.id] ∧
          (∀ ev ∈ pre, is_unlink ev = false) ∧
          (remove_from_playbacks v).playbacks = w.playbacks.erase w.playback.id := by
      intro v hv hid ⟨t', ht', hnot⟩
      refine ⟨t', ?_, hnot, ?_⟩
      · simp [remove_from_playbacks, World.emit, ht', hid]
      · simp [remove_from_playbacks, World.emit, hv, hid]
    rcases hw' with rfl | rfl
    · exact hrm w1 hq1 hq2 ⟨t, hq3, hq4⟩
    · obtain ⟨hx1, hx2, t2, hx3, hx4⟩ := exec_step_play_on_channel pe.exec w1
      refine hrm _ (hx1.trans hq1) (hx2.trans hq2) ⟨t ++ t2, ?_, ?_⟩
      · rw [hx3, hq3, List.append_assoc]
      · intro ev hev
        rcases List.mem_append.mp hev with h | h
        · exact hq4 ev h
        · exact exec_event_not_unlink ev (hx4 ev h)
  · intro h
    rcases h with h | h
    · simp [play_uri, h]
    · by_cases hc : pe.control_present = true <;> simp [play_uri, h, hc]
  · intro b hc hb hfound hq hd hmem
    have hfind : stasis_app_playback_find_by_id
        (w.emit (Event.queue_playfile w.playback.id)) w.playback.id =
        some w.playback.id := find_by_id_of_mem _ _ hmem
    simp only [World.emit] at hfind
    simp [play_uri, hc, hb, hfound, hq, hd, World.emit, play_on_channel_in_bridge, hfind,
      play_on_channel, mark_as_done]

/-! ## Snapshots, labels and the target descriptor -/

/-- Claim C24: the external label collapses the terminal states.
state_to_string returns done exactly for STOPPED, COMPLETE and CANCELED, and
queued, playing, paused for QUEUED, PLAYING, PAUSED; stasis_app_playback_get_state
returns the state field itself, so the three terminal states come back as
three different values. -/
theorem label_collapses_terminal_states :
    (∀ s : stasis_app_playback_state, state_to_string s = "done" ↔
        (s = STASIS_PLAYBACK_STATE_STOPPED ∨ s = STASIS_PLAYBACK_STATE_COMPLETE ∨
          s = STASIS_PLAYBACK_STATE_CANCELED)) ∧
      state_to_string STASIS_PLAYBACK_STATE_QUEUED = "queued" ∧
      state_to_string STASIS_PLAYBACK_STATE_PLAYING = "playing" ∧
      state_to_string STASIS_PLAYBACK_STATE_PAUSED = "paused" ∧
      (∀ p : stasis_app_playback, stasis_app_playback_get_state p = p.state) ∧
      (∀ p q : stasis_app_playback,
        stasis_app_playback_get_state p = stasis_app_playback_get_state q ↔
          p.state = q.state) ∧
      stasis_app_playback_get_state (sample_playback STASIS_PLAYBACK_STATE_STOPPED) ≠
        stasis_app_playback_get_state (sample_playback STASIS_PLAYBACK_STATE_COMPLETE) ∧
      stasis_app_playback_get_state (sample_playback STASIS_PLAYBACK_STATE_STOPPED) ≠
        stasis_app_playback_get_state (sample_playback STASIS_PLAYBACK_STATE_CANCELED) ∧
      stasis_app_playback_get_state (sample_playback STASIS_PLAYBACK_STATE_COMPLETE) ≠
        stasis_app_playback_get_state (sample_playback STASIS_PLAYBACK_STATE_CANCELED) ∧
      state_to_string
          (stasis_app_playback_get_state (sample_playback STASIS_PLAYBACK_STATE_STOPPED)) =
        state_to_string
          (stasis_app_playback_get_state
            (sample_playback STASIS_PLAYBACK_STATE_CANCELED)) := by
  refine ⟨?_, rfl, rfl, rfl, fun _ => rfl, fun _ _ => Iff.rfl, by decide, by decide,
    by decide, rfl⟩
  intro s
  cases s <;> simp [state_to_string]

/-- Claim C25: for a playback, stasis_app_playback_to_json builds the object of
exactly the five string fields id, media_uri, target_uri, language and state,
whose values are the id, the media, the target, the language and the label of
the state of the playback (whenever it builds an object, this is the object);
for a null playback it returns null. -/
theorem to_json_five_fields (p : stasis_app_playback) :
    stasis_app_playback_to_json true (some p) =
        some [("id", p.id), ("media_uri", p.media), ("target_uri", p.target),
          ("language", p.language), ("state", state_to_string p.state)] ∧
      (∀ (ok : Bool) (j : ast_json), stasis_app_playback_to_json ok (some p) = some j →
        j.map Prod.fst = ["id", "media_uri", "target_uri", "language", "state"] ∧
          j.map Prod.snd =
            [p.id, p.media, p.target, p.language, state_to_string p.state] ∧
          j.length = 5) ∧
      (∀ ok : Bool, stasis_app_playback_to_json ok none = none) := by
  refine ⟨rfl, ?_, fun _ => rfl⟩
  intro ok j hj
  cases ok with
  | false => simp [stasis_app_playback_to_json] at hj
  | true =>
    simp only [stasis_app_playback_to_json, if_true, Option.some.injEq] at hj
    subst hj
    exact ⟨rfl, rfl, rfl⟩

/-- Claim C26: the target descriptor built at creation is channel: followed by
the target id for the channel kind and bridge: followed by the target id for
the bridge kind, for every target id; this is the target of every playback
stasis_app_control_play_uri returns. -/
theorem target_descriptor (p : stasis_app_playback) (target_id : String) :
    (set_target_uri p STASIS_PLAYBACK_TARGET_CHANNEL target_id).target =
        "channel:" ++ target_id ∧
      (set_target_uri p STASIS_PLAYBACK_TARGET_BRIDGE target_id).target =
        "bridge:" ++ target_id ∧
      (∀ (e : PlayEnv) (m : ModuleState) (uri language : String)
        (target_type : stasis_app_playback_target_type) (skipms offsetms : Int)
        (r : PlayReturn) (q : stasis_app_playback),
        stasis_app_control_play_uri e m uri language target_id target_type skipms
          offsetms = some r → r.playback = some q →
        q.target =
          (match target_type with
            | STASIS_PLAYBACK_TARGET_CHANNEL => "channel:"
            | STASIS_PLAYBACK_TARGET_BRIDGE => "bridge:") ++ target_id) := by
  have h1 : ∀ x : stasis_app_playback,
      (set_target_uri x STASIS_PLAYBACK_TARGET_CHANNEL target_id).target =
        "channel:" ++ target_id := by
    intro x
    simp only [set_target_uri]
    rw [String.append_assoc]
    rfl
  have h2 : ∀ x : stasis_app_playback,
      (set_target_uri x STASIS_PLAYBACK_TARGET_BRIDGE target_id).target =
        "bridge:" ++ target_id := by
    intro x
    simp only [set_target_uri]
    rw [String.append_assoc]
    rfl
  refine ⟨h1 p, h2 p, ?_⟩
  intro e m uri language target_type skipms offsetms r q hr hq
  obtain ⟨_, hqeq, _, _⟩ :=
    play_uri_created e m uri language target_id target_type skipms offsetms r q hr hq
  have ht : q.target = (set_target_uri q target_type target_id).target := by
    conv_lhs => rw [hqeq]
  rw [ht]
  cases target_type
  · exact h1 q
  · exact h2 q

/-! ## Play position -/

/-- The playback the final update leaves. -/
theorem final_update_playback (e : PublishEnv) (w : World) (playedms res : Int)
    (uniqueid : String) :
    (playback_final_update e w playedms res uniqueid).playback =
      { w.playback with playedms := playedms,
                        state := if res = 0 then STASIS_PLAYBACK_STATE_COMPLETE
                                 else STASIS_PLAYBACK_STATE_STOPPED } := by
  obtain ⟨⟨id, media, language, target, offsetms, skipms, done, playedms0, s⟩, reg, tr⟩ := w
  by_cases hp : e.ok = true <;> by_cases hr : res = 0 <;> cases s <;>
    simp [playback_final_update, playback_publish_eq, World.emit, World.set_state, hp, hr]

/-- The playback an execution on the channel leaves: the one it started with,
with the state the execution ends in, done set, and the played position the
media call reports when the call is made. -/
theorem play_on_channel_playback (e : ExecEnv) (w : World) :
    (play_on_channel e w).playback =
      { w.playback with
        state := final_state e w,
        done := 1,
        playedms :=
          if w.playback.state = STASIS_PLAYBACK_STATE_CANCELED then w.playback.playedms
          else if (media_file e w.playback.media).isSome = true then e.stream_offsetms
          else w.playback.playedms } := by
  have hfirst : ∀ v : World, v.playback.state ≠ STASIS_PLAYBACK_STATE_CANCELED →
      (playback_first_update e.first_pub v e.uniqueid).2.playback =
        { v.playback with state := STASIS_PLAYBACK_STATE_PLAYING } := by
    intro v hv
    by_cases hp : e.first_pub.ok = true <;>
      simp [playback_first_update, playback_publish_eq, World.emit, World.set_state, hv,
        hp]
  have hans : ∀ v : World, (if e.chan_up = true then v
      else v.emit Event.answer).playback = v.playback := by
    intro v
    by_cases hu : e.chan_up = true <;> simp [hu, World.emit]
  have hmark : ∀ v : World, (mark_as_done v).playback = { v.playback with done := 1 } :=
    fun v => rfl
  unfold play_on_channel
  rw [hmark, play_on_channel_body_eq]
  by_cases hc : w.playback.state = STASIS_PLAYBACK_STATE_CANCELED
  · by_cases hp : e.first_pub.ok = true <;>
      simp [hc, playback_first_update, playback_publish_eq, World.emit, hp, final_state]
  · rw [if_neg hc, if_neg hc]
    cases hf : media_file e w.playback.media with
    | some f =>
      simp only [play_file]
      generalize hA : (if e.chan_up = true then
        (playback_first_update e.first_pub w e.uniqueid).2
        else (playback_first_update e.first_pub w e.uniqueid).2.emit Event.answer) = A
      have hAp : A.playback =
          { w.playback with state := STASIS_PLAYBACK_STATE_PLAYING } := by
        rw [← hA, hans, hfirst w hc]
      generalize Event.streamfile f _ _ _ = ev
      have hX := (run_operations_control_step e.during_media (A.emit ev)).2.1
      have hY : (A.emit ev).playback = A.playback := rfl
      rw [hY, hAp] at hX
      rw [final_update_playback, hX]
      simp [final_state, hc, hf]
    | none =>
      by_cases hs : (ast_begins_with w.playback.media SOUND_URI_SCHEME = true ∨
          ast_begins_with w.playback.media RECORDING_URI_SCHEME = true)
      · simp only [if_pos hs]
        rw [hans, hfirst w hc]
        simp [final_state, hc, hf]
      · simp only [if_neg hs]
        have hY : ∀ (v : World) (x : Event), (v.emit x).playback = v.playback :=
          fun v x => rfl
        rw [hY, hans, hfirst w hc]
        simp [final_state, hc, hf]

/-- Counterexample to claim C27: after an execution whose media call returns
the final position 5000, the offsetms field of the playback still holds the
initial offset 0; the position is in the playedms field. -/
theorem offsetms_keeps_initial_offset :
    sample_exec.stream_offsetms = 5000 ∧
      (play_on_channel sample_exec
        (sample_world STASIS_PLAYBACK_STATE_QUEUED)).playback.offsetms = 0 ∧
      (play_on_channel sample_exec
        (sample_world STASIS_PLAYBACK_STATE_QUEUED)).playback.offsetms ≠
        sample_exec.stream_offsetms ∧
      (play_on_channel sample_exec
        (sample_world STASIS_PLAYBACK_STATE_QUEUED)).playback.playedms = 5000 := by
  refine ⟨by decide, by decide, by decide, by decide⟩

/-- Claim C27, amended: when playback stops, the playedms field of the object
holds the play position: after the media call returns with final position p,
playback_final_update writes p to playedms, so after an execution that makes
the media call playedms equals p.  The offsetms field is not written: it keeps
the initial offset through the final update and through the whole
execution. -/
theorem play_position_in_playedms (e : ExecEnv) (w : World)
    (hs : w.playback.state ≠ STASIS_PLAYBACK_STATE_CANCELED)
    (hm : (media_file e w.playback.media).isSome = true) :
    (play_on_channel e w).playback.playedms = e.stream_offsetms ∧
      (play_on_channel e w).playback.offsetms = w.playback.offsetms ∧
      (∀ (pub : PublishEnv) (v : World) (p res : Int) (uniqueid : String),
        (playback_final_update pub v p res uniqueid).playback.playedms = p ∧
          (playback_final_update pub v p res uniqueid).playback.offsetms =
            v.playback.offsetms) := by
  refine ⟨?_, ?_, ?_⟩
  · rw [play_on_channel_playback]
    simp [hs, hm]
  · rw [play_on_channel_playback]
  · intro pub v p res uniqueid
    rw [final_update_playback]
    exact ⟨rfl, rfl⟩

/-- Witness of the amended claim C27: the sample playback played to the end. -/
theorem play_position_in_playedms_witness :
    (play_on_channel sample_exec
        (sample_world STASIS_PLAYBACK_STATE_QUEUED)).playback.playedms =
        sample_exec.stream_offsetms ∧
      (play_on_channel sample_exec
        (sample_world STASIS_PLAYBACK_STATE_QUEUED)).playback.offsetms =
        (sample_world STASIS_PLAYBACK_STATE_QUEUED).playback.offsetms :=
  have h := play_position_in_playedms sample_exec
    (sample_world STASIS_PLAYBACK_STATE_QUEUED) (by decide) (by decide)
  ⟨h.1, h.2.1⟩

/-! ## The wait of the bridged path -/

/-- The wait loop is left only with done set. -/
theorem wait_for_done_exit (done : Int) (wakes : List WakeUp) (r : Int × List Event)
    (h : wait_for_done done wakes = some r) : r.1 ≠ 0 := by
  induction wakes generalizing done r with
  | nil =>
    unfold wait_for_done at h
    by_cases hd : done = 0
    · simp [hd] at h
    · simp only [ne_eq, hd, not_false_eq_true, if_true, Option.some.injEq] at h
      rw [← h]
      exact hd
  | cons wk rest ih =>
    unfold wait_for_done at h
    by_cases hd : done = 0
    · simp only [ne_eq, hd, not_true_eq_false, if_false, Option.map_eq_some'] at h
      obtain ⟨r0, hr0, hr⟩ := h
      rw [← hr]
      exact ih wk.done r0 hr0
    · simp only [ne_eq, hd, not_false_eq_true, if_true, Option.some.injEq] at h
      rw [← h]
      exact hd

/-- Wake-ups that find done clear do not end the wait. -/
theorem wait_for_done_spurious (wakes : List WakeUp)
    (h : ∀ wk ∈ wakes, wk.done = 0) : wait_for_done 0 wakes = none := by
  induction wakes with
  | nil => simp [wait_for_done]
  | cons wk rest ih =>
    have h0 : wk.done = 0 := h wk (List.mem_cons_self _ _)
    have hrest : ∀ x ∈ rest, x.done = 0 := fun x hx => h x (List.mem_cons_of_mem _ hx)
    simp [wait_for_done, h0, ih hrest]

/-- The body of play_on_channel is a step of the execution. -/
theorem exec_step_play_on_channel_body (e : ExecEnv) (w : World) :
    exec_step w (play_on_channel_body e w) := by
  have hfirst := exec_step_first_update e.first_pub w e.uniqueid
  have hans : exec_step w (if e.chan_up = true then
      (playback_first_update e.first_pub w e.uniqueid).2
      else (playback_first_update e.first_pub w e.uniqueid).2.emit Event.answer) := by
    by_cases hu : e.chan_up = true
    · simpa [hu] using hfirst
    · simp only [hu]
      exact exec_step_trans _ _ _ hfirst (exec_step_emit _ _ (by rfl))
  rw [play_on_channel_body_eq]
  by_cases hc : w.playback.state = STASIS_PLAYBACK_STATE_CANCELED
  · rw [if_pos hc]
    exact hfirst
  · rw [if_neg hc]
    cases hf : media_file e w.playback.media with
    | some f =>
      simp only [play_file]
      refine exec_step_trans _ _ _ hans (exec_step_trans _ _ _
        (exec_step_emit _ _ (by rfl))
        (exec_step_trans _ _ _
          (exec_step_of_control_step _ _ (run_operations_control_step e.during_media _))
          (exec_step_final_update _ _ _ _ _)))
    | none =>
      simp only []
      split
      · exact hans
      · exact exec_step_trans _ _ _ hans (exec_step_emit _ _ (by rfl))

/-- Claim C28: bridge wait correctness.  When the channel is in a bridge, a
play_uri that returns for a playback not yet done has queued the callback on
the bridge channel, the callback has run the execution and set done (the write
of done is in the trace, before the removal), and done is 1 at the return.
The wait loop checks done at its entry and again after every wake-up: it is
left only with done set, and wake-ups that find done clear do not end it. -/
theorem bridge_wait_correct (pe : PlayUriEnv) (b : BridgeEnv) (w w' : World)
    (hc : pe.control_present = true) (hb : pe.bridge = some b)
    (hd : w.playback.done = 0) (hr : play_uri pe w = some w') :
    (b.bridge_chan_found = true ∧ b.queue_playfile_res = 0) ∧
      w' = remove_from_playbacks (play_on_channel_in_bridge pe.exec
        (w.emit (Event.queue_playfile w.playback.id)) w.playback.id) ∧
      w'.playback.done = 1 ∧
      (∃ pre, w'.trace = w.trace ++ [Event.queue_playfile w.playback.id] ++ pre ++
        [Event.set_done, Event.unlink w.playback.id]) ∧
      (∀ (done : Int) (wakes : List WakeUp) (r : Int × List Event),
        wait_for_done done wakes = some r → r.1 ≠ 0) ∧
      (∀ wakes : List WakeUp, (∀ wk ∈ wakes, wk.done = 0) →
        wait_for_done 0 wakes = none) := by
  have hemit : (w.emit (Event.queue_playfile w.playback.id)).playback.done = 0 := hd
  have main : (b.bridge_chan_found = true ∧ b.queue_playfile_res = 0) ∧
      w' = remove_from_playbacks (play_on_channel_in_bridge pe.exec
        (w.emit (Event.queue_playfile w.playback.id)) w.playback.id) ∧
      (play_on_channel_in_bridge pe.exec
        (w.emit (Event.queue_playfile w.playback.id)) w.playback.id).playback.done ≠ 0 := by
    unfold play_uri at hr
    simp only [hc, not_true_eq_false, if_false, hb] at hr
    by_cases hfound : b.bridge_chan_found = true
    · by_cases hq : b.queue_playfile_res = 0
      · simp only [hfound, hq, if_true, and_self, hemit, ne_eq, not_true_eq_false,
          if_false] at hr
        have hid : (w.emit (Event.queue_playfile w.playback.id)).playback.id =
            w.playback.id := rfl
        rw [hid] at hr
        split at hr
        · next hne => exact ⟨⟨hfound, hq⟩, (Option.some.inj hr).symm, hne⟩
        · cases hr
      · simp [hfound, hq, hemit] at hr
    · simp [hfound, hd] at hr
  obtain ⟨hA, hB, hne⟩ := main
  have hrun : play_on_channel_in_bridge pe.exec
      (w.emit (Event.queue_playfile w.playback.id)) w.playback.id =
      play_on_channel pe.exec (w.emit (Event.queue_playfile w.playback.id)) := by
    unfold play_on_channel_in_bridge at hne ⊢
    cases hfind : stasis_app_playback_find_by_id
        (w.emit (Event.queue_playfile w.playback.id)) w.playback.id with
    | none =>
      rw [hfind] at hne
      exact absurd hemit hne
    | some x => rfl
  obtain ⟨_, hid, t, ht, _⟩ := exec_step_play_on_channel_body pe.exec
    (w.emit (Event.queue_playfile w.playback.id))
  refine ⟨hA, hB, ?_, ⟨t, ?_⟩, wait_for_done_exit, wait_for_done_spurious⟩
  · rw [hB, hrun]
    simp [remove_from_playbacks, World.emit, play_on_channel, mark_as_done]
  · rw [hB, hrun]
    have hid' : (play_on_channel_body pe.exec
        (w.emit (Event.queue_playfile w.playback.id))).playback.id = w.playback.id := hid
    have ht' : (play_on_channel_body pe.exec
        (w.emit (Event.queue_playfile w.playback.id))).trace =
        w.trace ++ [Event.queue_playfile w.playback.id] ++ t := ht
    have hrm : ∀ v : World, (remove_from_playbacks v).trace =
        v.trace ++ [Event.unlink v.playback.id] := fun v => rfl
    have hmt : ∀ v : World, (mark_as_done v).trace = v.trace ++ [Event.set_done] :=
      fun v => rfl
    have hmi : ∀ v : World, (mark_as_done v).playback.id = v.playback.id := fun v => rfl
    rw [hrm, play_on_channel, hmt, hmi, ht', hid']
    simp

/-- Witness of claim C28: the sample playback on a channel in a bridge that
runs the callback. -/
theorem bridge_wait_correct_witness :
    (remove_from_playbacks (play_on_channel sample_exec
        ((sample_world STASIS_PLAYBACK_STATE_QUEUED).emit
          (Event.queue_playfile "pb-1")))).playback.done = 1 :=
  (bridge_wait_correct sample_play_uri_bridged
    { bridge_chan_found := true, queue_playfile_res := 0 }
    (sample_world STASIS_PLAYBACK_STATE_QUEUED)
    (remove_from_playbacks (play_on_channel sample_exec
      ((sample_world STASIS_PLAYBACK_STATE_QUEUED).emit (Event.queue_playfile "pb-1"))))
    rfl rfl rfl (by decide)).2.2.1

/-! ## State-machine conformance -/

/-- The state after a control operation given by its integer value: the one
the table gives for an operation in range, the same for a value out of
range. -/
theorem operation_next_state (e : OperEnv) (w : World) (operation : Int) :
    (∃ o : stasis_app_playback_media_operation,
        (stasis_app_playback_operation e w operation).2.playback.state =
          spec_next_state w.playback.state o) ∨
      (stasis_app_playback_operation e w operation).2.playback.state =
        w.playback.state := by
  by_cases hr : operation < 0 ∨ operation ≥ STASIS_PLAYBACK_MEDIA_OP_MAX
  · right
    rw [operation_out_of_range e w operation hr]
    rfl
  · left
    obtain ⟨o, rfl⟩ := code_of_in_range operation hr
    refine ⟨o, ?_⟩
    rw [operation_by_entry]
    obtain ⟨⟨id, media, language, target, offsetms, skipms, done, playedms, s⟩, reg, tr⟩ := w
    by_cases hp : e.pub.ok = true <;> cases s <;> cases o <;>
      simp [operations, spec_next_state, playback_noop, playback_cancel, playback_stop,
        playback_restart, playback_pause, playback_unpause, playback_reverse,
        playback_forward, stasis_app_control_queue_control, playback_publish_eq,
        World.emit, World.set_state, hp]

/-- The state the first update leaves and what it returns. -/
theorem first_update_state (e : PublishEnv) (w : World) (uniqueid : String) :
    (w.playback.state = STASIS_PLAYBACK_STATE_CANCELED →
        (playback_first_update e w uniqueid).1 ≠ 0 ∧
          (playback_first_update e w uniqueid).2.playback.state =
            STASIS_PLAYBACK_STATE_CANCELED) ∧
      (w.playback.state ≠ STASIS_PLAYBACK_STATE_CANCELED →
        (playback_first_update e w uniqueid).1 = 0 ∧
          (playback_first_update e w uniqueid).2.playback.state =
            STASIS_PLAYBACK_STATE_PLAYING) := by
  by_cases hp : e.ok = true <;>
    by_cases hc : w.playback.state = STASIS_PLAYBACK_STATE_CANCELED <;>
    simp [playback_first_update, playback_publish_eq, World.emit, World.set_state, hc, hp]

/-- One step in the life of a playback keeps the state within the states of
its phase, and its state change, if any, is an edge of the state machine or
the change from STOPPED to COMPLETE of a final update on a successful media
call. -/
theorem life_step_conforms (ph ph' : Phase) (w w' : World) (st : LifeStep)
    (hinv : phase_states ph w.playback.state = true)
    (hstep : life_step ph w st = some (ph', w')) :
    phase_states ph' w'.playback.state = true ∧
      (w'.playback.state = w.playback.state ∨
        spec_edge w.playback.state w'.playback.state = true ∨
        (w.playback.state = STASIS_PLAYBACK_STATE_STOPPED ∧
          w'.playback.state = STASIS_PLAYBACK_STATE_COMPLETE ∧
          ∃ (e : PublishEnv) (playedms : Int) (uniqueid : String),
            st = LifeStep.final_update e playedms 0 uniqueid)) := by
  cases st with
  | control e operation =>
    simp only [life_step, Option.some.injEq, Prod.mk.injEq] at hstep
    obtain ⟨rfl, rfl⟩ := hstep
    rcases operation_next_state e w operation with ⟨o, ho⟩ | ho
    · rw [ho]
      generalize w.playback.state = s at hinv ⊢
      cases ph <;> cases s <;> cases o <;>
        simp_all [phase_states, spec_next_state, spec_edge, is_terminal]
    · rw [ho]
      exact ⟨hinv, Or.inl rfl⟩
  | first_update e uniqueid =>
    cases ph with
    | waiting =>
      simp only [life_step, Option.some.injEq, Prod.mk.injEq] at hstep
      obtain ⟨rfl, rfl⟩ := hstep
      obtain ⟨h1, h2⟩ := first_update_state e w uniqueid
      by_cases hc : w.playback.state = STASIS_PLAYBACK_STATE_CANCELED
      · obtain ⟨hr, hs⟩ := h1 hc
        rw [hs, hc, if_pos hr]
        exact ⟨by decide, Or.inl rfl⟩
      · obtain ⟨hr, hs⟩ := h2 hc
        have hq : w.playback.state = STASIS_PLAYBACK_STATE_QUEUED := by
          simpa [phase_states, hc] using hinv
        rw [hs, hq, hr]
        exact ⟨by decide, Or.inr (Or.inl (by decide))⟩
    | streaming => simp [life_step] at hstep
    | ended => simp [life_step] at hstep
  | final_update e playedms res uniqueid =>
    cases ph with
    | streaming =>
      simp only [life_step, Option.some.injEq, Prod.mk.injEq] at hstep
      obtain ⟨rfl, rfl⟩ := hstep
      rw [playback_final_update_state]
      by_cases hr : res = 0
      · subst hr
        generalize w.playback.state = s at hinv ⊢
        cases s <;> simp_all [phase_states, spec_edge, is_terminal]
      · generalize w.playback.state = s at hinv ⊢
        cases s <;> simp_all [phase_states, spec_edge, is_terminal]
    | waiting => simp [life_step] at hstep
    | ended => simp [life_step] at hstep

/-- Every sequence of steps keeps the state within the states of its phase. -/
theorem life_run_phase_states (steps : List LifeStep) (x y : Phase × World)
    (hinv : phase_states x.1 x.2.playback.state = true)
    (hrun : life_run steps x = some y) :
    phase_states y.1 y.2.playback.state = true := by
  induction steps generalizing x with
  | nil =>
    simp only [life_run, Option.some.injEq] at hrun
    rw [← hrun]
    exact hinv
  | cons st rest ih =>
    simp only [life_run, Option.bind_eq_some] at hrun
    obtain ⟨z, hz, hrest⟩ := hrun
    exact ih z (life_step_conforms x.1 z.1 x.2 z.2 st hinv hz).1 hrest

/-- A run of control operations, as steps in the life of a playback. -/
theorem life_run_controls (ops : List (OperEnv × Int)) (ph : Phase) (w : World) :
    life_run (ops.map fun c => LifeStep.control c.1 c.2) (ph, w) =
      some (ph, run_operations ops w) := by
  induction ops generalizing w with
  | nil => rfl
  | cons c rest ih =>
    simp only [List.map_cons, life_run, life_step, Option.some_bind]
    rw [ih]
    rfl

/-- A run of two sequences of steps is the run of the second after the
first. -/
theorem life_run_append (a b : List LifeStep) (x : Phase × World) :
    life_run (a ++ b) x = (life_run a x).bind (life_run b) := by
  induction a generalizing x with
  | nil => rfl
  | cons st rest ih =>
    simp only [List.cons_append, life_run]
    cases life_step x.1 x.2 st with
    | none => rfl
    | some z => simp [ih]

/-- The steps of an execution that makes the media call are steps in the life
of the playback, in order: the first update, the control operations issued
during the media call, the final update; they end in the state the execution
on the channel ends in. -/
theorem life_run_of_execution (e : ExecEnv) (w : World)
    (hs : w.playback.state ≠ STASIS_PLAYBACK_STATE_CANCELED)
    (hm : (media_file e w.playback.media).isSome = true) :
    (life_run ([LifeStep.first_update e.first_pub e.uniqueid] ++
        (e.during_media.map fun c => LifeStep.control c.1 c.2) ++
        [LifeStep.final_update e.final_pub e.stream_offsetms e.stream_res e.uniqueid])
      (Phase.waiting, w)).map (fun x => (x.1, x.2.playback.state)) =
      some (Phase.ended, (play_on_channel e w).playback.state) := by
  have hfs : (play_on_channel e w).playback.state =
      if e.stream_res = 0 then STASIS_PLAYBACK_STATE_COMPLETE
      else STASIS_PLAYBACK_STATE_STOPPED := by
    rw [play_on_channel_state, final_state, if_neg hs]
    cases hf : media_file e w.playback.media with
    | none => simp [hf] at hm
    | some f => rfl
  have h0 := ((first_update_state e.first_pub w e.uniqueid).2 hs).1
  rw [List.append_assoc, life_run_append]
  simp only [life_run, life_step, h0, ne_eq, not_true_eq_false, if_false,
    Option.some_bind]
  rw [life_run_append, life_run_controls]
  simp only [Option.some_bind, life_run, life_step, Option.map_some',
    playback_final_update_state, hfs]

/-- Counterexample to claim C30: a playback reachable from creation is PLAYING
after its first update and STOPPED after a STOP; when the media call then
reports success, the final update changes the state from STOPPED, which is
terminal, to COMPLETE, which is no edge of the state machine. -/
theorem final_update_leaves_stopped :
    (life_run [LifeStep.first_update pub_ok "chan-1", LifeStep.control oper_env_ok 0]
        (Phase.waiting, sample_world STASIS_PLAYBACK_STATE_QUEUED)).map
        (fun x => (x.1, x.2.playback.state)) =
        some (Phase.streaming, STASIS_PLAYBACK_STATE_STOPPED) ∧
      (life_run [LifeStep.first_update pub_ok "chan-1", LifeStep.control oper_env_ok 0,
          LifeStep.final_update pub_ok 5000 0 "chan-1"]
        (Phase.waiting, sample_world STASIS_PLAYBACK_STATE_QUEUED)).map
        (fun x => (x.1, x.2.playback.state)) =
        some (Phase.ended, STASIS_PLAYBACK_STATE_COMPLETE) ∧
      is_terminal STASIS_PLAYBACK_STATE_STOPPED = true ∧
      spec_edge STASIS_PLAYBACK_STATE_STOPPED STASIS_PLAYBACK_STATE_COMPLETE = false := by
  refine ⟨by decide, by decide, by decide, by decide⟩

/-- Claim C30, amended: every state change made by a step of the module (a
control operation, playback_first_update, playback_final_update) on a playback
reachable from creation is an edge of the state machine of the specification
(QUEUED to PLAYING or CANCELED, PLAYING to PAUSED, PAUSED to PLAYING, PLAYING
or PAUSED to a terminal state), or the change from STOPPED to COMPLETE that
playback_final_update makes when the media call reports success after a STOP.
That is the only change of a state that is already terminal; a control
operation never changes a terminal state, and no step re-enters QUEUED. -/
theorem state_changes_are_edges (w0 : World) (steps : List LifeStep) (ph ph' : Phase)
    (w w' : World) (st : LifeStep)
    (h0 : w0.playback.state = STASIS_PLAYBACK_STATE_QUEUED)
    (hrun : life_run steps (Phase.waiting, w0) = some (ph, w))
    (hstep : life_step ph w st = some (ph', w')) :
    (w'.playback.state = w.playback.state ∨
        spec_edge w.playback.state w'.playback.state = true ∨
        (w.playback.state = STASIS_PLAYBACK_STATE_STOPPED ∧
          w'.playback.state = STASIS_PLAYBACK_STATE_COMPLETE ∧
          ∃ (e : PublishEnv) (playedms : Int) (uniqueid : String),
            st = LifeStep.final_update e playedms 0 uniqueid)) ∧
      (is_terminal w.playback.state = true → w'.playback.state ≠ w.playback.state →
        (w.playback.state = STASIS_PLAYBACK_STATE_STOPPED ∧
          w'.playback.state = STASIS_PLAYBACK_STATE_COMPLETE ∧
          ∃ (e : PublishEnv) (playedms : Int) (uniqueid : String),
            st = LifeStep.final_update e playedms 0 uniqueid)) ∧
      (w.playback.state ≠ STASIS_PLAYBACK_STATE_QUEUED →
        w'.playback.state ≠ STASIS_PLAYBACK_STATE_QUEUED) := by
  have hinv0 : phase_states Phase.waiting w0.playback.state = true := by
    rw [h0]
    decide
  have hinv := life_run_phase_states steps (Phase.waiting, w0) (ph, w) hinv0 hrun
  have hmain := (life_step_conforms ph ph' w w' st hinv hstep).2
  refine ⟨hmain, ?_, ?_⟩
  · intro hterm hne
    rcases hmain with h | h | h
    · exact absurd h hne
    · exfalso
      generalize w.playback.state = s at hterm h
      generalize w'.playback.state = s' at h
      cases s <;> cases s' <;> simp_all [spec_edge, is_terminal]
    · exact h
  · intro hnq
    rcases hmain with h | h | h
    · rw [h]
      exact hnq
    · generalize w.playback.state = s at hnq h
      generalize w'.playback.state = s' at h ⊢
      cases s <;> cases s' <;> simp_all [spec_edge, is_terminal]
    · rw [h.2.1]
      decide

/-- Witness of the amended claim C30: PAUSE on a playing playback, reached
from creation by the first update. -/
theorem state_changes_are_edges_witness :
    spec_edge STASIS_PLAYBACK_STATE_PLAYING STASIS_PLAYBACK_STATE_PAUSED = true ∧
      ((stasis_app_playback_operation oper_env_ok
          (playback_first_update pub_ok (sample_world STASIS_PLAYBACK_STATE_QUEUED)
            "chan-1").2 2).2.playback.state =
          (playback_first_update pub_ok (sample_world STASIS_PLAYBACK_STATE_QUEUED)
            "chan-1").2.playback.state ∨
        spec_edge
          (playback_first_update pub_ok (sample_world STASIS_PLAYBACK_STATE_QUEUED)
            "chan-1").2.playback.state
          (stasis_app_playback_operation oper_env_ok
            (playback_first_update pub_ok (sample_world STASIS_PLAYBACK_STATE_QUEUED)
              "chan-1").2 2).2.playback.state = true ∨
        ((playback_first_update pub_ok (sample_world STASIS_PLAYBACK_STATE_QUEUED)
            "chan-1").2.playback.state = STASIS_PLAYBACK_STATE_STOPPED ∧
          (stasis_app_playback_operation oper_env_ok
            (playback_first_update pub_ok (sample_world STASIS_PLAYBACK_STATE_QUEUED)
              "chan-1").2 2).2.playback.state = STASIS_PLAYBACK_STATE_COMPLETE ∧
          ∃ (e : PublishEnv) (playedms : Int) (uniqueid : String),
            LifeStep.control oper_env_ok 2 =
              LifeStep.final_update e playedms 0 uniqueid)) :=
  ⟨by decide,
    (state_changes_are_edges (sample_world STASIS_PLAYBACK_STATE_QUEUED)
      [LifeStep.first_update pub_ok "chan-1"] Phase.streaming Phase.streaming
      (playback_first_update pub_ok (sample_world STASIS_PLAYBACK_STATE_QUEUED)
        "chan-1").2
      (stasis_app_playback_operation oper_env_ok
        (playback_first_update pub_ok (sample_world STASIS_PLAYBACK_STATE_QUEUED)
          "chan-1").2 2).2
      (LifeStep.control oper_env_ok 2) rfl (by decide) rfl).1⟩

/-! ## Lock discipline -/

/-- Claim C29, on the code: the lock discipline holds in playback_first_update,
playback_final_update, mark_as_done, stasis_app_playback_operation with its
handlers, stasis_app_playback_get_state and the wait of play_uri, where every
access to the state, the played position and done and every publish is inside
the lock of the playback; it does not hold in stasis_app_control_play_uri,
which writes the state QUEUED and publishes, after the link into the registry,
without the lock. -/
theorem creation_writes_state_without_lock :
    (∀ e : PublishEnv, under_lock 0 (stasis_app_control_play_uri_accesses e) = false) ∧
      (∀ (e : PublishEnv) (s : stasis_app_playback_state),
        under_lock 0 (playback_first_update_accesses e s) = true) ∧
      (∀ (e : PublishEnv) (s : stasis_app_playback_state) (res : Int),
        under_lock 0 (playback_final_update_accesses e s res) = true) ∧
      under_lock 0 mark_as_done_accesses = true ∧
      (∀ (e : PublishEnv) (s : stasis_app_playback_state) (operation : Int),
        under_lock 0 (stasis_app_playback_operation_accesses e s operation) = true) ∧
      under_lock 0 stasis_app_playback_get_state_accesses = true ∧
      (∀ wakeups : Nat, under_lock 0 (play_uri_wait_accesses wakeups) = true) := by
  refine ⟨?_, ?_, ?_, by decide, ?_, by decide, ?_⟩
  · intro e
    simp [stasis_app_control_play_uri_accesses, under_lock]
  · intro e s
    obtain ⟨j, b⟩ := e
    cases j <;> cases b <;> cases s <;>
      simp [playback_first_update_accesses, playback_publish_accesses, under_lock]
  · intro e s res
    obtain ⟨j, b⟩ := e
    by_cases hr : res = 0 <;> cases j <;> cases b <;> cases s <;>
      simp [playback_final_update_accesses, playback_publish_accesses, under_lock, hr]
  · intro e s operation
    obtain ⟨j, b⟩ := e
    unfold stasis_app_playback_operation_accesses
    cases media_operation_of_code operation with
    | none => simp [under_lock]
    | some o =>
      cases j <;> cases b <;> cases s <;> cases o <;>
        simp [under_lock, operations, handler_accesses, playback_publish_accesses]
  · intro wakeups
    have h : ∀ n : Nat, under_lock 1 (List.replicate n Access.read_done ++
        [Access.unlock]) = true := by
      intro n
      induction n with
      | zero => simp [under_lock]
      | succ k ih => simpa [List.replicate, under_lock] using ih
    simpa [play_uri_wait_accesses, under_lock] using h wakeups

/-! ## Updates and their snapshots -/

/-- Claim C31: start of execution when not canceled.  For every state other
than CANCELED, playback_first_update returns 0 (so the media call proceeds),
sets the state to PLAYING and publishes one snapshot (when it can be built),
which carries the label playing. -/
theorem first_update_starts_playing (e : PublishEnv) (w : World) (uniqueid : String)
    (hs : w.playback.state ≠ STASIS_PLAYBACK_STATE_CANCELED) :
    (playback_first_update e w uniqueid).1 = 0 ∧
      (playback_first_update e w uniqueid).2.playback.state =
        STASIS_PLAYBACK_STATE_PLAYING ∧
      published (playback_first_update e w uniqueid).2.trace =
        published w.trace ++
          (if e.ok = true then
            [snapshot_of (playback_first_update e w uniqueid).2.playback]
           else []) ∧
      snapshot_label (snapshot_of (playback_first_update e w uniqueid).2.playback) =
        some "playing" := by
  rw [snapshot_label_of]
  by_cases hp : e.ok = true <;>
    simp [playback_first_update, playback_publish_eq, World.emit, World.set_state, hs,
      hp, published, List.filterMap_append, state_to_string]

/-- Witness of claim C31: the first update of the queued sample playback. -/
theorem first_update_starts_playing_witness :
    (playback_first_update pub_ok (sample_world STASIS_PLAYBACK_STATE_QUEUED)
        "chan-1").1 = 0 ∧
      (playback_first_update pub_ok (sample_world STASIS_PLAYBACK_STATE_QUEUED)
        "chan-1").2.playback.state = STASIS_PLAYBACK_STATE_PLAYING ∧
      published (playback_first_update pub_ok (sample_world STASIS_PLAYBACK_STATE_QUEUED)
        "chan-1").2.trace =
        published (sample_world STASIS_PLAYBACK_STATE_QUEUED).trace ++
          (if pub_ok.ok = true then
            [snapshot_of (playback_first_update pub_ok
              (sample_world STASIS_PLAYBACK_STATE_QUEUED) "chan-1").2.playback]
           else []) ∧
      snapshot_label (snapshot_of (playback_first_update pub_ok
        (sample_world STASIS_PLAYBACK_STATE_QUEUED) "chan-1").2.playback) =
        some "playing" :=
  first_update_starts_playing pub_ok (sample_world STASIS_PLAYBACK_STATE_QUEUED)
    "chan-1" (by decide)

/-- Claim C32: every snapshot is published after the state write of its
transition, so it carries the label of the new state.  playback_publish
publishes the snapshot of the playback as it is at the call, labelled with its
state; PAUSE in PLAYING publishes one snapshot labelled paused, UNPAUSE in
PAUSED one labelled playing, and playback_final_update one labelled done (each
when it can be built). -/
theorem snapshots_carry_new_state (e : OperEnv) (w : World) :
    (∀ pub : PublishEnv,
        published (playback_publish pub w).trace =
          published w.trace ++ (if pub.ok = true then [snapshot_of w.playback] else []) ∧
        snapshot_label (snapshot_of w.playback) =
          some (state_to_string w.playback.state)) ∧
      (w.playback.state = STASIS_PLAYBACK_STATE_PLAYING →
        (stasis_app_playback_operation e w STASIS_PLAYBACK_PAUSE.code).2.playback.state =
            STASIS_PLAYBACK_STATE_PAUSED ∧
          published (stasis_app_playback_operation e w STASIS_PLAYBACK_PAUSE.code).2.trace =
            published w.trace ++
              (if e.pub.ok = true then
                [snapshot_of
                  (stasis_app_playback_operation e w
                    STASIS_PLAYBACK_PAUSE.code).2.playback]
               else []) ∧
          snapshot_label (snapshot_of
            (stasis_app_playback_operation e w STASIS_PLAYBACK_PAUSE.code).2.playback) =
            some "paused") ∧
      (w.playback.state = STASIS_PLAYBACK_STATE_PAUSED →
        (stasis_app_playback_operation e w STASIS_PLAYBACK_UNPAUSE.code).2.playback.state =
            STASIS_PLAYBACK_STATE_PLAYING ∧
          published
              (stasis_app_playback_operation e w STASIS_PLAYBACK_UNPAUSE.code).2.trace =
            published w.trace ++
              (if e.pub.ok = true then
                [snapshot_of
                  (stasis_app_playback_operation e w
                    STASIS_PLAYBACK_UNPAUSE.code).2.playback]
               else []) ∧
          snapshot_label (snapshot_of
            (stasis_app_playback_operation e w STASIS_PLAYBACK_UNPAUSE.code).2.playback) =
            some "playing") ∧
      (∀ (pub : PublishEnv) (playedms res : Int) (uniqueid : String),
        published (playback_final_update pub w playedms res uniqueid).trace =
            published w.trace ++
              (if pub.ok = true then
                [snapshot_of (playback_final_update pub w playedms res uniqueid).playback]
               else []) ∧
          snapshot_label (snapshot_of
            (playback_final_update pub w playedms res uniqueid).playback) =
            some "done") := by
  refine ⟨?_, ?_, ?_, ?_⟩
  · intro pub
    refine ⟨?_, snapshot_label_of _⟩
    rw [playback_publish_eq]
    by_cases hp : pub.ok = true <;> simp [hp, published, World.emit, List.filterMap_append]
  · intro hs
    rw [snapshot_label_of, operation_by_entry, hs]
    by_cases hp : e.pub.ok = true <;>
      simp [operations, playback_pause, stasis_app_control_queue_control,
        playback_publish_eq, World.emit, World.set_state, published,
        List.filterMap_append, state_to_string, hp]
  · intro hs
    rw [snapshot_label_of, operation_by_entry, hs]
    by_cases hp : e.pub.ok = true <;>
      simp [operations, playback_unpause, stasis_app_control_queue_control,
        playback_publish_eq, World.emit, World.set_state, published,
        List.filterMap_append, state_to_string, hp]
  · intro pub playedms res uniqueid
    rw [snapshot_label_of]
    obtain ⟨⟨id, media, language, target, offsetms, skipms, done, playedms0, s⟩, reg, tr⟩ := w
    by_cases hp : pub.ok = true <;> by_cases hr : res = 0 <;> cases s <;>
      simp [playback_final_update, playback_publish_eq, World.emit, World.set_state,
        hp, hr, published, List.filterMap_append, state_to_string]

/-- Claim C33: done is set on every path through play_on_channel.  Whatever the
state at the start (canceled or not), the media reference (unimplemented
scheme, recording not found, resolved), the control operations issued and the
result of the media call, done is 1 when play_on_channel returns, and the
write of done is the last event of the execution. -/
theorem play_on_channel_sets_done (e : ExecEnv) (w : World) :
    (play_on_channel e w).playback.done = 1 ∧
      (∃ pre, (play_on_channel e w).trace = w.trace ++ pre ++ [Event.set_done]) ∧
      (play_on_channel sample_exec
        (sample_world STASIS_PLAYBACK_STATE_CANCELED)).playback.done = 1 ∧
      (play_on_channel sample_exec
        (sample_world_media "http://example.org/a.wav"
          STASIS_PLAYBACK_STATE_QUEUED)).playback.done = 1 ∧
      (play_on_channel sample_exec
        (sample_world_media "recording:missing"
          STASIS_PLAYBACK_STATE_QUEUED)).playback.done = 1 ∧
      (play_on_channel sample_exec
        (sample_world STASIS_PLAYBACK_STATE_QUEUED)).playback.done = 1 ∧
      (play_on_channel sample_exec_stopped
        (sample_world STASIS_PLAYBACK_STATE_QUEUED)).playback.done = 1 := by
  have hdone : ∀ (x : ExecEnv) (v : World), (play_on_channel x v).playback.done = 1 :=
    fun x v => rfl
  refine ⟨hdone e w, ?_, hdone _ _, hdone _ _, hdone _ _, hdone _ _, hdone _ _⟩
  obtain ⟨_, _, t, ht, _⟩ := exec_step_play_on_channel_body e w
  refine ⟨t, ?_⟩
  have hmt : ∀ v : World, (mark_as_done v).trace = v.trace ++ [Event.set_done] :=
    fun v => rfl
  rw [play_on_channel, hmt, ht]

/-- Claim C34: a failed snapshot is non-fatal.  When the snapshot value cannot
be built or the message cannot be created, playback_publish publishes nothing
and changes nothing; and whatever the outcome of the publish, the first
update, the final update and every control operation (PAUSE and UNPAUSE
included) leave the same playback, the same state with it, and return the same
value. -/
theorem failed_snapshot_is_not_fatal (pub1 pub2 : PublishEnv) (w : World) :
    ((pub1.json_pack_ok = false ∨ pub1.blob_create_ok = false) →
        playback_publish pub1 w = w ∧
          published (playback_publish pub1 w).trace = published w.trace) ∧
      (∀ uniqueid : String,
        (playback_first_update pub1 w uniqueid).1 =
            (playback_first_update pub2 w uniqueid).1 ∧
          (playback_first_update pub1 w uniqueid).2.playback =
            (playback_first_update pub2 w uniqueid).2.playback) ∧
      (∀ (playedms res : Int) (uniqueid : String),
        (playback_final_update pub1 w playedms res uniqueid).playback =
          (playback_final_update pub2 w playedms res uniqueid).playback) ∧
      (∀ (queue_control_res operation : Int),
        (stasis_app_playback_operation
            { pub := pub1, queue_control_res := queue_control_res } w operation).1 =
            (stasis_app_playback_operation
              { pub := pub2, queue_control_res := queue_control_res } w operation).1 ∧
          (stasis_app_playback_operation
            { pub := pub1, queue_control_res := queue_control_res } w
              operation).2.playback =
            (stasis_app_playback_operation
              { pub := pub2, queue_control_res := queue_control_res } w
                operation).2.playback ∧
          signals (stasis_app_playback_operation
            { pub := pub1, queue_control_res := queue_control_res } w
              operation).2.trace =
            signals (stasis_app_playback_operation
              { pub := pub2, queue_control_res := queue_control_res } w
                operation).2.trace) := by
  refine ⟨?_, ?_, ?_, ?_⟩
  · intro hfail
    have hnot : ¬ pub1.ok = true := by
      rcases hfail with h | h <;> simp [PublishEnv.ok, h]
    rw [playback_publish_eq, if_neg hnot]
    exact ⟨rfl, rfl⟩
  · intro uniqueid
    by_cases h1 : pub1.ok = true <;> by_cases h2 : pub2.ok = true <;>
      by_cases hc : w.playback.state = STASIS_PLAYBACK_STATE_CANCELED <;>
      simp [playback_first_update, playback_publish_eq, World.emit, World.set_state, h1,
        h2, hc]
  · intro playedms res uniqueid
    rw [final_update_playback, final_update_playback]
  · intro q operation
    by_cases hr : operation < 0 ∨ operation ≥ STASIS_PLAYBACK_MEDIA_OP_MAX
    · rw [operation_out_of_range _ w operation hr, operation_out_of_range _ w operation hr]
      exact ⟨rfl, rfl, rfl⟩
    · obtain ⟨o, rfl⟩ := code_of_in_range operation hr
      rw [operation_by_entry, operation_by_entry]
      obtain ⟨⟨id, media, language, target, offsetms, skipms, done, playedms, s⟩, reg, tr⟩ := w
      by_cases h1 : pub1.ok = true <;> by_cases h2 : pub2.ok = true <;>
        cases s <;> cases o <;>
        simp [operations, playback_noop, playback_cancel, playback_stop,
          playback_restart, playback_pause, playback_unpause, playback_reverse,
          playback_forward, stasis_app_control_queue_control, playback_publish_eq,
          World.emit, World.set_state, signals, List.filterMap_append, h1, h2]

/-- Claim C35: before execution starts, control operations alone reach only
QUEUED or CANCELED.  After every finite sequence of control operations on a
queued playback, without a first or final update, the state is QUEUED or
CANCELED; so when playback_first_update then leaves the state PLAYING, it
entered it from QUEUED. -/
theorem operations_before_execution (w : World) (ops : List (OperEnv × Int))
    (h0 : w.playback.state = STASIS_PLAYBACK_STATE_QUEUED) :
    ((run_operations ops w).playback.state = STASIS_PLAYBACK_STATE_QUEUED ∨
        (run_operations ops w).playback.state = STASIS_PLAYBACK_STATE_CANCELED) ∧
      (∀ (e : PublishEnv) (uniqueid : String),
        (playback_first_update e (run_operations ops w) uniqueid).2.playback.state =
            STASIS_PLAYBACK_STATE_PLAYING →
          (run_operations ops w).playback.state = STASIS_PLAYBACK_STATE_QUEUED) ∧
      (∀ (e : PublishEnv) (uniqueid : String),
        (run_operations ops w).playback.state = STASIS_PLAYBACK_STATE_QUEUED →
          (playback_first_update e (run_operations ops w) uniqueid).2.playback.state =
            STASIS_PLAYBACK_STATE_PLAYING) := by
  have hinv0 : phase_states (Phase.waiting, w).1 (Phase.waiting, w).2.playback.state =
      true := by
    simp [phase_states, h0]
  have hinv := life_run_phase_states (ops.map fun c => LifeStep.control c.1 c.2)
    (Phase.waiting, w) (Phase.waiting, run_operations ops w) hinv0
    (life_run_controls ops Phase.waiting w)
  have hqc : (run_operations ops w).playback.state = STASIS_PLAYBACK_STATE_QUEUED ∨
      (run_operations ops w).playback.state = STASIS_PLAYBACK_STATE_CANCELED := by
    simpa [phase_states] using hinv
  refine ⟨hqc, ?_, ?_⟩
  · intro e uniqueid hplaying
    rcases hqc with h | h
    · exact h
    · have := ((first_update_state e (run_operations ops w) uniqueid).1 h).2
      rw [this] at hplaying
      cases hplaying
  · intro e uniqueid hq
    have hne : (run_operations ops w).playback.state ≠ STASIS_PLAYBACK_STATE_CANCELED := by
      rw [hq]
      decide
    exact ((first_update_state e (run_operations ops w) uniqueid).2 hne).2

/-- Witness of claim C35: PAUSE, then STOP, then RESTART on the queued sample
playback. -/
theorem operations_before_execution_witness :
    (run_operations [(oper_env_ok, 2), (oper_env_ok, 0), (oper_env_ok, 1)]
        (sample_world STASIS_PLAYBACK_STATE_QUEUED)).playback.state =
        STASIS_PLAYBACK_STATE_QUEUED ∨
      (run_operations [(oper_env_ok, 2), (oper_env_ok, 0), (oper_env_ok, 1)]
        (sample_world STASIS_PLAYBACK_STATE_QUEUED)).playback.state =
        STASIS_PLAYBACK_STATE_CANCELED :=
  (operations_before_execution (sample_world STASIS_PLAYBACK_STATE_QUEUED)
    [(oper_env_ok, 2), (oper_env_ok, 0), (oper_env_ok, 1)] rfl).1

/-- Claim C36: PAUSE in PLAYING and UNPAUSE in PAUSED enqueue the same control
signal, AST_CONTROL_STREAM_SUSPEND, one each, and return the same value for
the same outcome of the enqueue.  On playbacks that differ in the state only,
the two operations leave playbacks that differ in the state only (PAUSED and
PLAYING), and traces that differ only in the snapshot published, the one of
the playback with the state written. -/
theorem pause_and_unpause_same_signal (e : OperEnv) (w : World)
    (hs : w.playback.state = STASIS_PLAYBACK_STATE_PLAYING) :
    signals (stasis_app_playback_operation e w STASIS_PLAYBACK_PAUSE.code).2.trace =
        signals w.trace ++ [AST_CONTROL_STREAM_SUSPEND] ∧
      signals (stasis_app_playback_operation e
          (w.set_state STASIS_PLAYBACK_STATE_PAUSED) STASIS_PLAYBACK_UNPAUSE.code).2.trace =
        signals w.trace ++ [AST_CONTROL_STREAM_SUSPEND] ∧
      (stasis_app_playback_operation e w STASIS_PLAYBACK_PAUSE.code).1 =
        (stasis_app_playback_operation e
          (w.set_state STASIS_PLAYBACK_STATE_PAUSED) STASIS_PLAYBACK_UNPAUSE.code).1 ∧
      (stasis_app_playback_operation e w STASIS_PLAYBACK_PAUSE.code).2.playback =
        { w.playback with state := STASIS_PLAYBACK_STATE_PAUSED } ∧
      (stasis_app_playback_operation e
          (w.set_state STASIS_PLAYBACK_STATE_PAUSED)
          STASIS_PLAYBACK_UNPAUSE.code).2.playback =
        { w.playback with state := STASIS_PLAYBACK_STATE_PLAYING } ∧
      (stasis_app_playback_operation e w STASIS_PLAYBACK_PAUSE.code).2.trace =
        w.trace ++
          (if e.pub.ok = true then
            [Event.publish (snapshot_of
              { w.playback with state := STASIS_PLAYBACK_STATE_PAUSED })]
           else []) ++ [Event.queue_control AST_CONTROL_STREAM_SUSPEND] ∧
      (stasis_app_playback_operation e
          (w.set_state STASIS_PLAYBACK_STATE_PAUSED) STASIS_PLAYBACK_UNPAUSE.code).2.trace =
        w.trace ++
          (if e.pub.ok = true then
            [Event.publish (snapshot_of
              { w.playback with state := STASIS_PLAYBACK_STATE_PLAYING })]
           else []) ++ [Event.queue_control AST_CONTROL_STREAM_SUSPEND] := by
  rw [operation_by_entry, operation_by_entry]
  obtain ⟨⟨id, media, language, target, offsetms, skipms, done, playedms, s⟩, reg, tr⟩ := w
  simp only at hs
  subst hs
  by_cases hp : e.pub.ok = true <;> by_cases hq : e.queue_control_res = 0 <;>
    simp [operations, playback_pause, playback_unpause,
      stasis_app_control_queue_control, playback_publish_eq, World.emit,
      World.set_state, signals, List.filterMap_append, hp, hq]

/-- Witness of claim C36: the playing sample playback. -/
theorem pause_and_unpause_same_signal_witness :
    signals (stasis_app_playback_operation oper_env_ok
        (sample_world STASIS_PLAYBACK_STATE_PLAYING) STASIS_PLAYBACK_PAUSE.code).2.trace =
        signals (sample_world STASIS_PLAYBACK_STATE_PLAYING).trace ++
          [AST_CONTROL_STREAM_SUSPEND] ∧
      signals (stasis_app_playback_operation oper_env_ok
          ((sample_world STASIS_PLAYBACK_STATE_PLAYING).set_state
            STASIS_PLAYBACK_STATE_PAUSED) STASIS_PLAYBACK_UNPAUSE.code).2.trace =
        signals (sample_world STASIS_PLAYBACK_STATE_PLAYING).trace ++
          [AST_CONTROL_STREAM_SUSPEND] :=
  have h := pause_and_unpause_same_signal oper_env_ok
    (sample_world STASIS_PLAYBACK_STATE_PLAYING) rfl
  ⟨h.1, h.2.1⟩

/-! ## The bridged path without a bridge channel -/

/-- The bridged path of play_uri, through the world at the entry of the wait:
the call returns at once when done is already set there; else the callback, if
it was queued and the bridge runs it, comes first, and the call returns only
when done is set after it. -/
theorem play_uri_bridged_eq (pe : PlayUriEnv) (b : BridgeEnv) (w : World)
    (hc : pe.control_present = true) (hb : pe.bridge = some b) :
    play_uri pe w =
      if (play_uri_before_wait b w).playback.done ≠ 0 then
        some (remove_from_playbacks (play_uri_before_wait b w))
      else if (if b.bridge_chan_found = true ∧ b.queue_playfile_res = 0 then
          play_on_channel_in_bridge pe.exec (play_uri_before_wait b w)
            (play_uri_before_wait b w).playback.id
          else play_uri_before_wait b w).playback.done ≠ 0 then
        some (remove_from_playbacks
          (if b.bridge_chan_found = true ∧ b.queue_playfile_res = 0 then
            play_on_channel_in_bridge pe.exec (play_uri_before_wait b w)
              (play_uri_before_wait b w).playback.id
           else play_uri_before_wait b w))
      else none := by
  unfold play_uri play_uri_before_wait
  simp only [hc, not_true_eq_false, if_false, hb]

/-- Claim C37: in the bridged path of play_uri, when bridge_find_channel finds
no bridge channel for the channel, nothing is queued and nothing is written
before the wait: the world at the entry of the loop is the world at the call,
with no playback request queued and done as it was.  So play_uri returns only
if done was set before the call; for a playback not yet done it never returns,
and no wake-up that reads done clear ends the wait. -/
theorem bridge_without_channel_waits (pe : PlayUriEnv) (b : BridgeEnv) (w : World)
    (hc : pe.control_present = true) (hb : pe.bridge = some b)
    (hf : b.bridge_chan_found = false) :
    play_uri_before_wait b w = w ∧
      queued_playfiles (play_uri_before_wait b w).trace = queued_playfiles w.trace ∧
      (play_uri_before_wait b w).playback.done = w.playback.done ∧
      play_uri pe w =
        (if (play_uri_before_wait b w).playback.done ≠ 0 then
          some (remove_from_playbacks (play_uri_before_wait b w))
         else none) ∧
      (w.playback.done = 0 → play_uri pe w = none) ∧
      (∀ wakes : List WakeUp, (∀ wk ∈ wakes, wk.done = 0) →
        wait_for_done w.playback.done wakes =
          (if w.playback.done ≠ 0 then some (w.playback.done, []) else none)) := by
  have h0 : play_uri_before_wait b w = w := by
    simp [play_uri_before_wait, hf]
  have h1 : play_uri pe w =
      (if w.playback.done ≠ 0 then some (remove_from_playbacks w) else none) := by
    by_cases hd : w.playback.done = 0 <;> simp [play_uri, hc, hb, hf, hd]
  refine ⟨h0, by rw [h0], by rw [h0], by rw [h0]; exact h1, ?_, ?_⟩
  · intro hd
    rw [h1]
    simp [hd]
  · intro wakes hw
    by_cases hd : w.playback.done = 0
    · rw [hd, wait_for_done_spurious wakes hw]
      simp
    · cases wakes <;> simp [wait_for_done, hd]

/-- Witness of claim C37: the queued sample playback on a channel whose bridge
holds no bridge channel for it. -/
theorem bridge_without_channel_waits_witness :
    play_uri sample_play_uri_no_bridge_chan
        (sample_world STASIS_PLAYBACK_STATE_QUEUED) = none :=
  (bridge_without_channel_waits sample_play_uri_no_bridge_chan
    { bridge_chan_found := false, queue_playfile_res := 0 }
    (sample_world STASIS_PLAYBACK_STATE_QUEUED) rfl rfl rfl).2.2.2.2.1 rfl

end StasisPlayback
